import Mathlib

/-!
# ovn-controller: verification of the main-loop helpers

A shallow embedding of functions of `controller/ovn-controller.c` and theorems
about them.  Pointers that may be NULL are `Option`s, tables are lists of rows
in iteration order, C `static` variables and rows written through a
transaction are explicit state that a function takes and returns.
-/

namespace OvnController

/-! ## Engine types (`lib/inc-proc-eng.h`) -/

/-- States an engine node's run callback can report. -/
inductive engine_node_state where
  | EN_STALE
  | EN_UPDATED
  | EN_UNCHANGED
  | EN_CANCELED
  deriving DecidableEq, Repr

/-- Results an engine input handler can report. -/
inductive engine_input_handler_result where
  | EN_UNHANDLED
  | EN_HANDLED_UPDATED
  | EN_HANDLED_UNCHANGED
  deriving DecidableEq, Repr

/-! ## Database values and transactions (OVS IDL library) -/

/-- A row identity (`struct uuid`). -/
abbrev uuid := Nat

/-- A database value (`struct ovsdb_datum`), by the shapes the controller
builds: a NULL argument (the empty set), a string, an integer, a UUID, a set
of UUIDs, a string-to-string map, a set of strings, an integer-to-UUID map. -/
inductive ovsdb_datum where
  | empty
  | string (s : String)
  | integer (i : Int)
  | uuid (u : uuid)
  | uuid_set (us : List uuid)
  | map (kvs : List (String × String))
  | string_set (ss : List String)
  | int_uuid_map (kvs : List (Int × uuid))
  deriving DecidableEq, Repr

/-- What a transaction records, one entry per IDL call: a comment, the insert
of a row, the write of a column, the verify of a column, the update of one key
of a map column. -/
inductive ovsdb_idl_txn_op where
  | add_comment (s : String)
  | insert (table : String) (row : uuid)
  | write (table : String) (row : uuid) (column : String) (datum : ovsdb_datum)
  | verify (table : String) (row : uuid) (column : String)
  | update_setkey (table : String) (row : uuid) (column : String) (key : String)
      (value : ovsdb_datum)
  deriving DecidableEq, Repr

/-- An open database transaction (`struct ovsdb_idl_txn`): the calls recorded
so far and the UUIDs its inserts draw (`uuid_generate`), of which
`n_inserted` are used. -/
structure ovsdb_idl_txn where
  ops : List ovsdb_idl_txn_op
  uuid_generate : Nat → uuid
  n_inserted : Nat

/-- Record one call on a transaction. -/
def ovsdb_idl_txn_record (txn : ovsdb_idl_txn) (op : ovsdb_idl_txn_op) : ovsdb_idl_txn :=
  { txn with ops := txn.ops ++ [op] }

/-- `ovsdb_idl_txn_insert`: a new row of `table` under a fresh UUID. -/
def ovsdb_idl_txn_insert (txn : ovsdb_idl_txn) (table : String) : uuid × ovsdb_idl_txn :=
  let u := txn.uuid_generate txn.n_inserted
  (u, { txn with ops := txn.ops ++ [ovsdb_idl_txn_op.insert table u],
                 n_inserted := txn.n_inserted + 1 })

/-- A string-to-string map (`struct smap`), as its list of pairs. -/
abbrev smap := List (String × String)

/-- `smap_get`: the value of `key`, NULL if absent. -/
def smap_get (m : smap) (key : String) : Option String :=
  (m.find? (fun kv => kv.1 = key)).map (fun kv => kv.2)

/-- `smap_get_def`: the value of `key`, `dflt` if absent. -/
def smap_get_def (m : smap) (key : String) (dflt : Option String) : Option String :=
  match smap_get m key with
  | some v => some v
  | none => dflt

/-- `smap_add`: one more pair. -/
def smap_add (m : smap) (key value : String) : smap := m ++ [(key, value)]

/-- The part of `struct engine_context` the controller reads: the two
transactions, NULL (`none`) when the database is read-only. -/
structure engine_context where
  ovs_idl_txn : Option ovsdb_idl_txn
  ovnsb_idl_txn : Option ovsdb_idl_txn

/-! ## `sb_ro` engine node -/

/-- Payload of the `sb_ro` node. -/
structure ed_type_sb_ro where
  sb_readonly : Bool
  deriving DecidableEq, Repr

/-- `en_sb_ro_init`: `xzalloc` zeroes the flag. -/
def en_sb_ro_init : ed_type_sb_ro := { sb_readonly := false }

/-- `en_sb_ro_run`: the node state returned and the payload left behind.
`ctx` is what `engine_get_context()` returns. -/
def en_sb_ro_run (ctx : engine_context) (sb_ro_data : ed_type_sb_ro) :
    engine_node_state × ed_type_sb_ro :=
  let sb_readonly : Bool := !ctx.ovnsb_idl_txn.isSome
  if sb_ro_data.sb_readonly != sb_readonly then
    let sb_ro_data : ed_type_sb_ro := { sb_ro_data with sb_readonly := sb_readonly }
    if !sb_ro_data.sb_readonly then
      (engine_node_state.EN_UPDATED, sb_ro_data)
    else
      (engine_node_state.EN_UNCHANGED, sb_ro_data)
  else
    (engine_node_state.EN_UNCHANGED, sb_ro_data)

/-! ## `get_nb_cfg` -/

/-- Conversion of an `int64_t` column value to the `uint64_t` the controller
computes with. -/
def to_uint64 (x : Int) : Nat := (x % (2 ^ 64 : Int)).toNat

/-- Row of the southbound `SB_Global` table (the columns read here). -/
structure sbrec_sb_global where
  nb_cfg : Int
  options : smap
  deriving DecidableEq, Repr

/-- `sbrec_sb_global_table_first`: the first row or NULL. -/
def sbrec_sb_global_table_first (t : List sbrec_sb_global) : Option sbrec_sb_global :=
  t.head?

/-- `get_nb_cfg`.  The function-local `static uint64_t nb_cfg` is the first
argument; the result is the value returned and the new value of the static. -/
def get_nb_cfg (nb_cfg : Nat) (sb_global_table : List sbrec_sb_global)
    (cond_seqno expected_cond_seqno : Nat) : Nat × Nat :=
  if cond_seqno ≠ expected_cond_seqno then
    (nb_cfg, nb_cfg)
  else
    let nb_cfg : Nat :=
      match sbrec_sb_global_table_first sb_global_table with
      | some sb => to_uint64 sb.nb_cfg
      | none => 0
    (nb_cfg, nb_cfg)

/-- One call of `get_nb_cfg`: its three arguments. -/
structure nb_cfg_call where
  sb_global_table : List sbrec_sb_global
  cond_seqno : Nat
  expected_cond_seqno : Nat
  deriving DecidableEq, Repr

/-- The static after a sequence of calls, starting from `nb_cfg`. -/
def get_nb_cfg_static (nb_cfg : Nat) : List nb_cfg_call → Nat
  | [] => nb_cfg
  | c :: cs =>
    get_nb_cfg_static
      (get_nb_cfg nb_cfg c.sb_global_table c.cond_seqno c.expected_cond_seqno).2 cs

/-- The values a sequence of calls returns, in order, starting from `nb_cfg`. -/
def get_nb_cfg_returns (nb_cfg : Nat) : List nb_cfg_call → List Nat
  | [] => []
  | c :: cs =>
    let r := get_nb_cfg nb_cfg c.sb_global_table c.cond_seqno c.expected_cond_seqno
    r.1 :: get_nb_cfg_returns r.2 cs

/-- The value returned by the most recent call of a history that was made
with equal sequence numbers, `dflt` when there was none.  `rets` are the
values the calls returned. -/
def last_acked_return (dflt : Nat) : List nb_cfg_call → List Nat → Nat
  | c :: cs, r :: rs =>
    last_acked_return (if c.cond_seqno = c.expected_cond_seqno then r else dflt) cs rs
  | _, _ => dflt

/-! ## Monitor conditions

`ovsdb_idl_condition` and the functions that add clauses to it belong to the
OVS IDL library (`lib/ovsdb-idl.[ch]` of Open vSwitch), which the controller
links against.  They are embedded here as that library defines them: a
condition is a set of clauses plus an `is_true` flag; making a condition
unconditionally true drops its clauses, and adding a clause to a condition
that is already unconditionally true has no effect. -/

/-- Comparison functions of a monitor-condition clause (`enum ovsdb_function`). -/
inductive ovsdb_function where
  | OVSDB_F_FALSE
  | OVSDB_F_TRUE
  | OVSDB_F_EQ
  | OVSDB_F_INCLUDES
  | OVSDB_F_LE
  | OVSDB_F_LT
  | OVSDB_F_GE
  | OVSDB_F_GT
  | OVSDB_F_EXCLUDES
  | OVSDB_F_NE
  deriving DecidableEq, Repr

/-- One clause `column function arg` of a condition. -/
structure ovsdb_idl_clause where
  function : ovsdb_function
  column : String
  arg : ovsdb_datum
  deriving DecidableEq, Repr

/-- A monitor condition: its clauses and whether it is unconditionally true. -/
structure ovsdb_idl_condition where
  clauses : List ovsdb_idl_clause
  is_true : Bool
  deriving DecidableEq, Repr

/-- `OVSDB_IDL_CONDITION_INIT`: no clause, not unconditionally true. -/
def OVSDB_IDL_CONDITION_INIT : ovsdb_idl_condition := { clauses := [], is_true := false }

/-- `ovsdb_idl_condition_add_clause_true`: clear the clauses and set `is_true`. -/
def ovsdb_idl_condition_add_clause_true (cnd : ovsdb_idl_condition) : ovsdb_idl_condition :=
  if !cnd.is_true then { clauses := [], is_true := true } else cnd

/-- `ovsdb_idl_condition_add_clause`: no effect on an always-true condition, a
TRUE clause makes the condition always true, a FALSE clause is dropped, and any
other clause is inserted unless an equal clause is already there. -/
def ovsdb_idl_condition_add_clause (cnd : ovsdb_idl_condition) (function : ovsdb_function)
    (column : String) (arg : ovsdb_datum) : ovsdb_idl_condition :=
  if cnd.is_true then cnd
  else if function = ovsdb_function.OVSDB_F_TRUE then ovsdb_idl_condition_add_clause_true cnd
  else if function = ovsdb_function.OVSDB_F_FALSE then cnd
  else
    let clause : ovsdb_idl_clause := { function := function, column := column, arg := arg }
    if clause ∈ cnd.clauses then cnd
    else { cnd with clauses := cnd.clauses ++ [clause] }

/-- Row of the southbound `Chassis` table. -/
structure sbrec_chassis where
  uuid : uuid
  name : String
  deriving DecidableEq, Repr

/-- Row of the southbound `Datapath_Binding` table. -/
structure sbrec_datapath_binding where
  uuid : uuid
  tunnel_key : Int
  deriving DecidableEq, Repr

/-- Entry of the local-datapaths map (`struct local_datapath`). -/
structure local_datapath where
  datapath : sbrec_datapath_binding
  is_switch : Bool := false
  deriving DecidableEq, Repr

/-- Row of the southbound `Port_Binding` table: what `update_sb_monitors`
and the lport classifier look at.  `chassis` is the row the column points to. -/
structure sbrec_port_binding where
  uuid : uuid
  logical_port : String
  type : String
  parent_port : Option String
  chassis : Option sbrec_chassis
  deriving DecidableEq, Repr

/-- Kinds of logical port (`enum en_lport_type` of `controller/lport.h`). -/
inductive en_lport_type where
  | LP_UNKNOWN
  | LP_VIF
  | LP_CONTAINER
  | LP_MIRROR
  | LP_PATCH
  | LP_L3GATEWAY
  | LP_LOCALNET
  | LP_LOCALPORT
  | LP_L2GATEWAY
  | LP_VTEP
  | LP_CHASSISREDIRECT
  | LP_VIRTUAL
  | LP_EXTERNAL
  | LP_REMOTE
  deriving DecidableEq, Repr

/-- The sixteen southbound tables `update_sb_monitors` sets a condition on. -/
inductive sb_table where
  | port_binding
  | logical_flow
  | logical_dp_group
  | mac_binding
  | fdb
  | multicast_group
  | dns
  | controller_event
  | ip_multicast
  | igmp_group
  | chassis_private
  | chassis_template_var
  | ecmp_nexthop
  | advertised_route
  | learned_route
  | advertised_mac_binding
  deriving DecidableEq, Repr

/-- The sixteen local conditions of `update_sb_monitors`, under the names of
the C variables. -/
structure sb_conditions where
  pb : ovsdb_idl_condition
  lf : ovsdb_idl_condition
  ldpg : ovsdb_idl_condition
  mb : ovsdb_idl_condition
  fdb : ovsdb_idl_condition
  mg : ovsdb_idl_condition
  dns : ovsdb_idl_condition
  ce : ovsdb_idl_condition
  ip_mcast : ovsdb_idl_condition
  igmp : ovsdb_idl_condition
  chprv : ovsdb_idl_condition
  tv : ovsdb_idl_condition
  nh : ovsdb_idl_condition
  ar : ovsdb_idl_condition
  lr : ovsdb_idl_condition
  amb : ovsdb_idl_condition
  deriving DecidableEq, Repr

/-- What `update_sb_monitors` calls without defining it: the lport classifier
`get_lport_type`, the lookup `local_binding_get_primary_pb` in the local
bindings (type `β`), whether the server schema known to the IDL (state `σ`)
has a table, and the library call that submits a condition on the IDL,
returning the sequence number (`unsigned int`) at which the change is
acknowledged and the new IDL. -/
structure sb_monitor_ops (σ β : Type) where
  get_lport_type : sbrec_port_binding → en_lport_type
  local_binding_get_primary_pb : β → String → Option sbrec_port_binding
  server_has_table : σ → sb_table → Bool
  set_condition : σ → sb_table → ovsdb_idl_condition → Nat × σ

/-- Body of the `SIMAP_FOR_EACH` loop over `local_ifaces`: skip the VIFs bound
to this chassis, monitor the others by logical port name. -/
def monitor_local_iface {σ β : Type} (ops : sb_monitor_ops σ β)
    (chassis : Option sbrec_chassis) (local_bindings : β)
    (pb : ovsdb_idl_condition) (n : String × Nat) : ovsdb_idl_condition :=
  let name := n.1
  match ops.local_binding_get_primary_pb local_bindings name with
  | some local_pb =>
    if ops.get_lport_type local_pb = en_lport_type.LP_VIF ∧
        local_pb.chassis.map (fun c => c.uuid) = chassis.map (fun c => c.uuid) then
      pb
    else
      ovsdb_idl_condition_add_clause pb ovsdb_function.OVSDB_F_EQ "logical_port"
        (ovsdb_datum.string name)
  | none =>
    ovsdb_idl_condition_add_clause pb ovsdb_function.OVSDB_F_EQ "logical_port"
      (ovsdb_datum.string name)

/-- Body of the `HMAP_FOR_EACH` loop over `local_datapaths`. -/
def monitor_local_datapath (c : sb_conditions) (ld : local_datapath) : sb_conditions :=
  let u := ovsdb_datum.uuid ld.datapath.uuid
  { c with
    pb := ovsdb_idl_condition_add_clause c.pb ovsdb_function.OVSDB_F_EQ "datapath" u
    lf := ovsdb_idl_condition_add_clause c.lf ovsdb_function.OVSDB_F_EQ "logical_datapath" u
    mb := ovsdb_idl_condition_add_clause c.mb ovsdb_function.OVSDB_F_EQ "datapath" u
    fdb := ovsdb_idl_condition_add_clause c.fdb ovsdb_function.OVSDB_F_EQ "dp_key"
      (ovsdb_datum.integer ld.datapath.tunnel_key)
    mg := ovsdb_idl_condition_add_clause c.mg ovsdb_function.OVSDB_F_EQ "datapath" u
    dns := ovsdb_idl_condition_add_clause c.dns ovsdb_function.OVSDB_F_INCLUDES "datapaths"
      (ovsdb_datum.uuid_set [ld.datapath.uuid])
    ip_mcast := ovsdb_idl_condition_add_clause c.ip_mcast ovsdb_function.OVSDB_F_EQ "datapath" u
    nh := ovsdb_idl_condition_add_clause c.nh ovsdb_function.OVSDB_F_EQ "datapath" u
    ar := ovsdb_idl_condition_add_clause c.ar ovsdb_function.OVSDB_F_EQ "datapath" u
    amb := ovsdb_idl_condition_add_clause c.amb ovsdb_function.OVSDB_F_EQ "datapath" u }

/-- The conditions as initialised at the top of `update_sb_monitors`, with
the two tables that are always monitored in full (`ldpg`, `lr`). -/
def sb_conditions_init : sb_conditions :=
  { pb := OVSDB_IDL_CONDITION_INIT
    lf := OVSDB_IDL_CONDITION_INIT
    ldpg := ovsdb_idl_condition_add_clause_true OVSDB_IDL_CONDITION_INIT
    mb := OVSDB_IDL_CONDITION_INIT
    fdb := OVSDB_IDL_CONDITION_INIT
    mg := OVSDB_IDL_CONDITION_INIT
    dns := OVSDB_IDL_CONDITION_INIT
    ce := OVSDB_IDL_CONDITION_INIT
    ip_mcast := OVSDB_IDL_CONDITION_INIT
    igmp := OVSDB_IDL_CONDITION_INIT
    chprv := OVSDB_IDL_CONDITION_INIT
    tv := OVSDB_IDL_CONDITION_INIT
    nh := OVSDB_IDL_CONDITION_INIT
    ar := OVSDB_IDL_CONDITION_INIT
    lr := ovsdb_idl_condition_add_clause_true OVSDB_IDL_CONDITION_INIT
    amb := OVSDB_IDL_CONDITION_INIT }

/-- The `if (monitor_all)` block: every remaining table unconditionally. -/
def monitor_all_tables (c : sb_conditions) : sb_conditions :=
  { c with
    pb := ovsdb_idl_condition_add_clause_true c.pb
    lf := ovsdb_idl_condition_add_clause_true c.lf
    mb := ovsdb_idl_condition_add_clause_true c.mb
    fdb := ovsdb_idl_condition_add_clause_true c.fdb
    mg := ovsdb_idl_condition_add_clause_true c.mg
    dns := ovsdb_idl_condition_add_clause_true c.dns
    ce := ovsdb_idl_condition_add_clause_true c.ce
    ip_mcast := ovsdb_idl_condition_add_clause_true c.ip_mcast
    igmp := ovsdb_idl_condition_add_clause_true c.igmp
    chprv := ovsdb_idl_condition_add_clause_true c.chprv
    tv := ovsdb_idl_condition_add_clause_true c.tv
    nh := ovsdb_idl_condition_add_clause_true c.nh
    ar := ovsdb_idl_condition_add_clause_true c.ar
    amb := ovsdb_idl_condition_add_clause_true c.amb }

/-- The three port types that are always monitored. -/
def monitor_port_types (c : sb_conditions) : sb_conditions :=
  let pb := ovsdb_idl_condition_add_clause c.pb ovsdb_function.OVSDB_F_EQ "type"
    (ovsdb_datum.string "patch")
  let pb := ovsdb_idl_condition_add_clause pb ovsdb_function.OVSDB_F_EQ "type"
    (ovsdb_datum.string "chassisredirect")
  let pb := ovsdb_idl_condition_add_clause pb ovsdb_function.OVSDB_F_EQ "type"
    (ovsdb_datum.string "external")
  { c with pb := pb }

/-- The `if (chassis) ... else ...` block. -/
def monitor_chassis (chassis : Option sbrec_chassis) (c : sb_conditions) : sb_conditions :=
  match chassis with
  | some ch =>
    let u := ovsdb_datum.uuid ch.uuid
    let pb := ovsdb_idl_condition_add_clause c.pb ovsdb_function.OVSDB_F_EQ "chassis" u
    let pb := ovsdb_idl_condition_add_clause pb ovsdb_function.OVSDB_F_EQ "requested_chassis" u
    let id := ch.name
    let pb := ovsdb_idl_condition_add_clause pb ovsdb_function.OVSDB_F_INCLUDES "options"
      (ovsdb_datum.map [("l2gateway-chassis", id)])
    let pb := ovsdb_idl_condition_add_clause pb ovsdb_function.OVSDB_F_INCLUDES "options"
      (ovsdb_datum.map [("l3gateway-chassis", id)])
    { c with
      pb := pb
      ce := ovsdb_idl_condition_add_clause c.ce ovsdb_function.OVSDB_F_EQ "chassis" u
      igmp := ovsdb_idl_condition_add_clause c.igmp ovsdb_function.OVSDB_F_EQ "chassis" u
      chprv := ovsdb_idl_condition_add_clause c.chprv ovsdb_function.OVSDB_F_EQ "name"
        (ovsdb_datum.string ch.name)
      tv := ovsdb_idl_condition_add_clause c.tv ovsdb_function.OVSDB_F_EQ "chassis"
        (ovsdb_datum.string ch.name) }
  | none =>
    let chprv := ovsdb_idl_condition_add_clause_true c.chprv
    let pb := ovsdb_idl_condition_add_clause c.pb ovsdb_function.OVSDB_F_EQ "type"
      (ovsdb_datum.string "l2gateway")
    let pb := ovsdb_idl_condition_add_clause pb ovsdb_function.OVSDB_F_EQ "type"
      (ovsdb_datum.string "l3gateway")
    { c with
      chprv := chprv
      pb := pb
      ar := ovsdb_idl_condition_add_clause_true c.ar }

/-- The `if (local_ifaces)` block; `none` is the failure of
`ovs_assert(local_bindings)`, which aborts the process. -/
def monitor_local_ifaces {σ β : Type} (ops : sb_monitor_ops σ β)
    (chassis : Option sbrec_chassis) (local_ifaces : Option (List (String × Nat)))
    (local_bindings : Option β) (c : sb_conditions) : Option sb_conditions :=
  match local_ifaces with
  | none => some c
  | some ifaces =>
    match local_bindings with
    | none => none
    | some bindings =>
      let pb := ifaces.foldl (monitor_local_iface ops chassis bindings) c.pb
      some { c with
        pb := ovsdb_idl_condition_add_clause pb ovsdb_function.OVSDB_F_NE "parent_port"
          ovsdb_datum.empty }

/-- The `if (local_datapaths)` block. -/
def monitor_local_datapaths (local_datapaths : Option (List local_datapath))
    (c : sb_conditions) : sb_conditions :=
  match local_datapaths with
  | none => c
  | some lds =>
    let c := lds.foldl monitor_local_datapath c
    { c with
      lf := ovsdb_idl_condition_add_clause c.lf ovsdb_function.OVSDB_F_NE "logical_dp_group"
        ovsdb_datum.empty }

/-- The conditions `update_sb_monitors` has built when it reaches `out:`. -/
def update_sb_monitors_conditions {σ β : Type} (ops : sb_monitor_ops σ β)
    (chassis : Option sbrec_chassis) (local_ifaces : Option (List (String × Nat)))
    (local_bindings : Option β) (local_datapaths : Option (List local_datapath))
    (monitor_all : Bool) : Option sb_conditions :=
  let c := sb_conditions_init
  if monitor_all then
    some (monitor_all_tables c)
  else
    let c := monitor_port_types c
    let c := monitor_chassis chassis c
    match monitor_local_ifaces ops chassis local_ifaces local_bindings c with
    | none => none
    | some c => some (monitor_local_datapaths local_datapaths c)

/-- The set-condition calls after `out:`, in the order of the `cond_seqnos`
initialiser: table, whether the table is optional
(`sb_table_set_opt_mon_condition`), and the condition passed. -/
def sb_condition_requests (c : sb_conditions) : List (sb_table × Bool × ovsdb_idl_condition) :=
  [ (sb_table.port_binding, false, c.pb),
    (sb_table.logical_flow, false, c.lf),
    (sb_table.logical_dp_group, false, c.ldpg),
    (sb_table.mac_binding, false, c.mb),
    (sb_table.fdb, false, c.fdb),
    (sb_table.multicast_group, false, c.mg),
    (sb_table.dns, false, c.dns),
    (sb_table.controller_event, false, c.ce),
    (sb_table.ip_multicast, false, c.ip_mcast),
    (sb_table.igmp_group, false, c.igmp),
    (sb_table.chassis_private, false, c.chprv),
    (sb_table.chassis_template_var, true, c.tv),
    (sb_table.ecmp_nexthop, true, c.nh),
    (sb_table.advertised_route, true, c.ar),
    (sb_table.learned_route, true, c.lr),
    (sb_table.advertised_mac_binding, true, c.amb) ]

/-- `sb_table_set_req_mon_condition`: set the condition. -/
def sb_table_set_req_mon_condition {σ β : Type} (ops : sb_monitor_ops σ β) (idl : σ)
    (table : sb_table) (cond : ovsdb_idl_condition) : Nat × σ :=
  ops.set_condition idl table cond

/-- `sb_table_set_opt_mon_condition`: set the condition only if the table is
in the server schema, else 0. -/
def sb_table_set_opt_mon_condition {σ β : Type} (ops : sb_monitor_ops σ β) (idl : σ)
    (table : sb_table) (cond : ovsdb_idl_condition) : Nat × σ :=
  if ops.server_has_table idl table then ops.set_condition idl table cond else (0, idl)

/-- The array `cond_seqnos`: the sequence numbers the requests return, and the
IDL after them. -/
def cond_seqnos {σ β : Type} (ops : sb_monitor_ops σ β) (idl : σ) :
    List (sb_table × Bool × ovsdb_idl_condition) → List Nat × σ
  | [] => ([], idl)
  | (table, optional, cond) :: rest =>
    let r := if optional then sb_table_set_opt_mon_condition ops idl table cond
             else sb_table_set_req_mon_condition ops idl table cond
    let rs := cond_seqnos ops r.2 rest
    (r.1 :: rs.1, rs.2)

/-- `update_sb_monitors`: the expected condition sequence number returned and
the IDL after the calls; `none` when the assertion on `local_bindings` fails. -/
def update_sb_monitors {σ β : Type} (ops : sb_monitor_ops σ β) (ovnsb_idl : σ)
    (chassis : Option sbrec_chassis) (local_ifaces : Option (List (String × Nat)))
    (local_bindings : Option β) (local_datapaths : Option (List local_datapath))
    (monitor_all : Bool) : Option (Nat × σ) :=
  match update_sb_monitors_conditions ops chassis local_ifaces local_bindings
      local_datapaths monitor_all with
  | none => none
  | some c =>
    let seqnos := cond_seqnos ops ovnsb_idl (sb_condition_requests c)
    let expected_cond_seqno := seqnos.1.foldl (fun acc s => max acc s) 0
    some (expected_cond_seqno, seqnos.2)

/-- Adding the clauses `column function a`, for `a` running over `args`, one
after the other: what a loop of add-clause calls does to one condition. -/
def add_clauses (function : ovsdb_function) (column : String) (args : List ovsdb_datum)
    (cnd : ovsdb_idl_condition) : ovsdb_idl_condition :=
  args.foldl (fun p a => ovsdb_idl_condition_add_clause p function column a) cnd

/-- A sample environment for `update_sb_monitors`: the IDL state is the last
sequence number handed out, every request is acknowledged at the next number,
the local bindings are a list of port bindings looked up by logical port name,
a port binding with an empty `type` and no parent port is a VIF, and the server
schema has every table except `advertised_mac_binding`. -/
def sample_sb_monitor_ops : sb_monitor_ops Nat (List sbrec_port_binding) :=
  { get_lport_type := fun pb =>
      if pb.type = "" ∧ pb.parent_port = none then en_lport_type.LP_VIF
      else en_lport_type.LP_UNKNOWN
    local_binding_get_primary_pb := fun bindings name =>
      bindings.find? (fun pb => pb.logical_port = name)
    server_has_table := fun _ t => t ≠ sb_table.advertised_mac_binding
    set_condition := fun idl _ _ => (idl + 1, idl + 1) }

/-! ## Integration bridge

Rows of the local Open vSwitch database are records that carry their UUID; a
column that refers to other rows holds those rows.  A function that writes
through the transaction returns the transaction with the calls recorded and
the rows as the IDL shows them after the write. -/

/-- Modelled from the spec: `get_chassis_external_id_value` (`lib/ovn-util.c`,
not under `src/`).  Configuration is read from `external_ids` of the
Open_vSwitch row, "indexed by chassis name for overrides": the key
`option_key-chassis_id` wins over `option_key`, and `dflt` is the result when
neither is set. -/
def get_chassis_external_id_value (external_ids : smap) (chassis_id : String)
    (option_key : String) (dflt : Option String) : Option String :=
  smap_get_def external_ids (option_key ++ "-" ++ chassis_id)
    (smap_get_def external_ids option_key dflt)

def DEFAULT_BRIDGE_NAME : String := "br-int"

def DEFAULT_DATAPATH : String := "system"

def N_FLOW_TABLES : Nat := 255

/-- Row of the `Interface` table. -/
structure ovsrec_interface where
  uuid : uuid
  name : String
  type : String
  external_ids : smap := []
  deriving DecidableEq, Repr

/-- Row of the `Port` table. -/
structure ovsrec_port where
  uuid : uuid
  name : String
  interfaces : List ovsrec_interface
  deriving DecidableEq, Repr

/-- Row of the `Flow_Table` table; `n_prefixes` is the length of `prefixes`. -/
structure ovsrec_flow_table where
  uuid : uuid
  prefixes : List String
  deriving DecidableEq, Repr

/-- Row of the `Datapath` table. -/
structure ovsrec_datapath where
  uuid : uuid
  deriving DecidableEq, Repr

/-- Row of the `Bridge` table.  `flow_tables` pairs `key_flow_tables[i]` with
`value_flow_tables[i]`; `fail_mode` is NULL when unset. -/
structure ovsrec_bridge where
  uuid : uuid
  name : String
  datapath_type : String
  fail_mode : Option String
  ports : List ovsrec_port
  other_config : smap
  external_ids : smap
  flow_tables : List (Int × ovsrec_flow_table)
  deriving DecidableEq, Repr

/-- Row of the `Open_vSwitch` table.  `datapaths` pairs `key_datapaths[i]`
with `value_datapaths[i]`. -/
structure ovsrec_open_vswitch where
  uuid : uuid
  external_ids : smap
  bridges : List ovsrec_bridge
  datapaths : List (String × ovsrec_datapath)
  deriving DecidableEq, Repr

/-- `ovsrec_open_vswitch_table_first`: the first row or NULL. -/
def ovsrec_open_vswitch_table_first (ovs_table : List ovsrec_open_vswitch) :
    Option ovsrec_open_vswitch :=
  ovs_table.head?

/-- An Ethernet address (`struct eth_addr`): six bytes. -/
structure eth_addr where
  ea0 : Nat
  ea1 : Nat
  ea2 : Nat
  ea3 : Nat
  ea4 : Nat
  ea5 : Nat
  deriving DecidableEq, Repr

/-- One byte as `%02x` prints it. -/
def hex_byte (b : Nat) : String :=
  String.mk [Nat.digitChar (b / 16 % 16), Nat.digitChar (b % 16)]

/-- `ETH_ADDR_FMT` applied to `ETH_ADDR_ARGS`: six `%02x` bytes joined by colons. -/
def eth_addr_format (ea : eth_addr) : String :=
  hex_byte ea.ea0 ++ ":" ++ hex_byte ea.ea1 ++ ":" ++ hex_byte ea.ea2 ++ ":" ++
    hex_byte ea.ea3 ++ ":" ++ hex_byte ea.ea4 ++ ":" ++ hex_byte ea.ea5

/-- `br_int_name`: the configured name of the integration bridge.  The C code
dereferences the first Open_vSwitch row; every caller has checked that there
is one. -/
def br_int_name (ovs_table : List ovsrec_open_vswitch) (chassis_id : String) : String :=
  match ovsrec_open_vswitch_table_first ovs_table with
  | some cfg =>
    match get_chassis_external_id_value cfg.external_ids chassis_id "ovn-bridge"
        (some DEFAULT_BRIDGE_NAME) with
    | some name => name
    | none => DEFAULT_BRIDGE_NAME
  | none => DEFAULT_BRIDGE_NAME

/-- `create_br_int`: the bridge created (NULL without an Open_vSwitch row), the
transaction and the Open_vSwitch table afterwards.  `chassis_id` is what
`get_ovs_chassis_id` returns and `br_hwaddr` what `eth_addr_random` produces. -/
def create_br_int (ovs_idl_txn : ovsdb_idl_txn) (ovs_table : List ovsrec_open_vswitch)
    (chassis_id : String) (br_hwaddr : eth_addr) :
    Option ovsrec_bridge × ovsdb_idl_txn × List ovsrec_open_vswitch :=
  match ovsrec_open_vswitch_table_first ovs_table with
  | none => (none, ovs_idl_txn, ovs_table)
  | some cfg =>
    let bridge_name := br_int_name ovs_table chassis_id
    let txn := ovsdb_idl_txn_record ovs_idl_txn
      (ovsdb_idl_txn_op.add_comment
        ("ovn-controller: creating integration bridge '" ++ bridge_name ++ "'"))
    -- iface
    let (iface_uuid, txn) := ovsdb_idl_txn_insert txn "Interface"
    let iface : ovsrec_interface := { uuid := iface_uuid, name := "", type := "" }
    let iface := { iface with name := bridge_name }
    let txn := ovsdb_idl_txn_record txn
      (ovsdb_idl_txn_op.write "Interface" iface.uuid "name" (ovsdb_datum.string bridge_name))
    let iface := { iface with type := "internal" }
    let txn := ovsdb_idl_txn_record txn
      (ovsdb_idl_txn_op.write "Interface" iface.uuid "type" (ovsdb_datum.string "internal"))
    -- port
    let (port_uuid, txn) := ovsdb_idl_txn_insert txn "Port"
    let port : ovsrec_port := { uuid := port_uuid, name := "", interfaces := [] }
    let port := { port with name := bridge_name }
    let txn := ovsdb_idl_txn_record txn
      (ovsdb_idl_txn_op.write "Port" port.uuid "name" (ovsdb_datum.string bridge_name))
    let port := { port with interfaces := [iface] }
    let txn := ovsdb_idl_txn_record txn
      (ovsdb_idl_txn_op.write "Port" port.uuid "interfaces" (ovsdb_datum.uuid_set [iface.uuid]))
    -- bridge
    let (bridge_uuid, txn) := ovsdb_idl_txn_insert txn "Bridge"
    let bridge : ovsrec_bridge :=
      { uuid := bridge_uuid, name := "", datapath_type := "", fail_mode := none, ports := [],
        other_config := [], external_ids := [], flow_tables := [] }
    let bridge := { bridge with name := bridge_name }
    let txn := ovsdb_idl_txn_record txn
      (ovsdb_idl_txn_op.write "Bridge" bridge.uuid "name" (ovsdb_datum.string bridge_name))
    let bridge := { bridge with fail_mode := some "secure" }
    let txn := ovsdb_idl_txn_record txn
      (ovsdb_idl_txn_op.write "Bridge" bridge.uuid "fail_mode" (ovsdb_datum.string "secure"))
    let bridge := { bridge with ports := [port] }
    let txn := ovsdb_idl_txn_record txn
      (ovsdb_idl_txn_op.write "Bridge" bridge.uuid "ports" (ovsdb_datum.uuid_set [port.uuid]))
    let oc : smap := []
    let oc := smap_add oc "disable-in-band" "true"
    let ea_s := eth_addr_format br_hwaddr
    let oc := smap_add oc "hwaddr" ea_s
    let bridge := { bridge with other_config := oc }
    let txn := ovsdb_idl_txn_record txn
      (ovsdb_idl_txn_op.write "Bridge" bridge.uuid "other_config" (ovsdb_datum.map oc))
    -- bridges[0 .. n_bridges - 1] copied, bridges[n_bridges] = bridge
    let bridges := cfg.bridges ++ [bridge]
    let txn := ovsdb_idl_txn_record txn
      (ovsdb_idl_txn_op.verify "Open_vSwitch" cfg.uuid "bridges")
    let txn := ovsdb_idl_txn_record txn
      (ovsdb_idl_txn_op.write "Open_vSwitch" cfg.uuid "bridges"
        (ovsdb_datum.uuid_set (bridges.map (fun b => b.uuid))))
    let cfg := { cfg with bridges := bridges }
    (some bridge, txn, cfg :: ovs_table.tail)

/-- `create_br_datapath`: a new `Datapath` row registered under
`datapath_type` in the `datapaths` map of `cfg`. -/
def create_br_datapath (ovs_idl_txn : ovsdb_idl_txn) (cfg : ovsrec_open_vswitch)
    (datapath_type : String) : ovsrec_datapath × ovsdb_idl_txn :=
  let txn := ovsdb_idl_txn_record ovs_idl_txn
    (ovsdb_idl_txn_op.add_comment
      ("ovn-controller: creating bridge datapath '" ++ datapath_type ++ "'"))
  let (dp_uuid, txn) := ovsdb_idl_txn_insert txn "Datapath"
  let dp : ovsrec_datapath := { uuid := dp_uuid }
  let txn := ovsdb_idl_txn_record txn
    (ovsdb_idl_txn_op.verify "Open_vSwitch" cfg.uuid "datapaths")
  let txn := ovsdb_idl_txn_record txn
    (ovsdb_idl_txn_op.update_setkey "Open_vSwitch" cfg.uuid "datapaths" datapath_type
      (ovsdb_datum.uuid dp.uuid))
  (dp, txn)

/-- The array `prefixes` of `update_flow_table_prefixes`. -/
def flow_table_prefixes : List String := ["ip_src", "ip_dst", "ipv6_src", "ipv6_dst"]

/-- The loop `for (i = 1; i < n_flow_tables; i++)` of
`update_flow_table_prefixes`, which stops at the first `value_flow_tables[i]`
that is not the row `value_flow_tables[0]`: the value of `i` after the loop,
from the rows still to visit and the current `i`. -/
def flow_tables_scan (v0 : ovsrec_flow_table) : List ovsrec_flow_table → Nat → Nat
  | [], i => i
  | v :: vs, i => if v.uuid ≠ v0.uuid then i else flow_tables_scan v0 vs (i + 1)

/-- The test `i == N_FLOW_TABLES` after the scan loop of
`update_flow_table_prefixes`: `value_flow_tables[0]` when it holds, `none`
when it does not (without any entry the loop leaves `i = 1`). -/
def flow_tables_same_row (br_int : ovsrec_bridge) : Option ovsrec_flow_table :=
  match br_int.flow_tables with
  | (_, v0) :: rest =>
    if flow_tables_scan v0 (rest.map (fun kv : Int × ovsrec_flow_table => kv.2)) 1 =
        N_FLOW_TABLES then some v0
    else none
  | [] => none

/-- The branch "unexpected configuration" of `update_flow_table_prefixes`: a
new Flow_Table row, set as the value of every key 0..254 of `flow_tables`. -/
def flow_tables_replace (ovs_idl_txn : ovsdb_idl_txn) (br_int : ovsrec_bridge) :
    ovsrec_flow_table × ovsdb_idl_txn × ovsrec_bridge :=
  let (ft_uuid, txn) := ovsdb_idl_txn_insert ovs_idl_txn "Flow_Table"
  let ft : ovsrec_flow_table := { uuid := ft_uuid, prefixes := [] }
  let flow_tables := (List.range N_FLOW_TABLES).map (fun i : Nat => ((i : Int), ft))
  let txn := ovsdb_idl_txn_record txn
    (ovsdb_idl_txn_op.write "Bridge" br_int.uuid "flow_tables"
      (ovsdb_datum.int_uuid_map
        (flow_tables.map (fun kv : Int × ovsrec_flow_table => (kv.1, kv.2.uuid)))))
  (ft, txn, { br_int with flow_tables := flow_tables })

/-- `ovsrec_flow_table_set_prefixes` on the row `ft`, which the bridge reaches
through every entry of `flow_tables` that points to it. -/
def flow_table_set_prefixes (ovs_idl_txn : ovsdb_idl_txn) (br_int : ovsrec_bridge)
    (ft : ovsrec_flow_table) (written : List String) : ovsdb_idl_txn × ovsrec_bridge :=
  let txn := ovsdb_idl_txn_record ovs_idl_txn
    (ovsdb_idl_txn_op.write "Flow_Table" ft.uuid "prefixes" (ovsdb_datum.string_set written))
  let ft1 : ovsrec_flow_table := { ft with prefixes := written }
  (txn,
    { br_int with
      flow_tables := br_int.flow_tables.map
        (fun kv : Int × ovsrec_flow_table =>
          if kv.2.uuid = ft.uuid then (kv.1, ft1) else kv) })

/-- `update_flow_table_prefixes`: the transaction and the bridge row
afterwards; `none` is the failure of the assertion that the IDL schema allows
as many prefixes as the array has (`idl_n_max` is `n_max` of the IDL's
`prefixes` column).  `server_type` is `n_max` of the column type the server
reports, NULL when it reports none. -/
def update_flow_table_prefixes (ovs_idl_txn : ovsdb_idl_txn) (idl_n_max : Nat)
    (server_type : Option Nat) (br_int : ovsrec_bridge) :
    Option (ovsdb_idl_txn × ovsrec_bridge) :=
  if flow_table_prefixes.length ≤ idl_n_max then
    match server_type with
    | none => some (ovs_idl_txn, br_int)
    | some n_max =>
      let max_prefixes := min n_max flow_table_prefixes.length
      let up_to_date : Bool :=
        match br_int.flow_tables with
        | (_, v0) :: _ =>
          br_int.flow_tables.length == N_FLOW_TABLES && v0.prefixes.length == max_prefixes
        | [] => false
      if up_to_date then
        some (ovs_idl_txn, br_int)
      else
        let (ft, txn, br_int) :=
          match flow_tables_same_row br_int with
          | some v0 => (v0, ovs_idl_txn, br_int)
          | none => flow_tables_replace ovs_idl_txn br_int
        some (flow_table_set_prefixes txn br_int ft (flow_table_prefixes.take max_prefixes))
  else
    none

/-- Modelled from the spec: `get_bridge` (not under `src/`), the lookup of the
bridge "with configurable name" in the Bridge table: the first row of that
name, NULL if there is none. -/
def get_bridge (bridge_table : List ovsrec_bridge) (br_name : String) : Option ovsrec_bridge :=
  bridge_table.find? (fun br => br.name = br_name)

/-- `get_br_int`: the integration bridge, NULL without an Open_vSwitch row. -/
def get_br_int (bridge_table : List ovsrec_bridge) (ovs_table : List ovsrec_open_vswitch)
    (chassis_id : String) : Option ovsrec_bridge :=
  match ovsrec_open_vswitch_table_first ovs_table with
  | none => none
  | some _ => get_bridge bridge_table (br_int_name ovs_table chassis_id)

/-- `get_br_datapath`: the datapath registered under `datapath_type`. -/
def get_br_datapath (cfg : ovsrec_open_vswitch) (datapath_type : String) :
    Option ovsrec_datapath :=
  (cfg.datapaths.find? (fun kv => kv.1 = datapath_type)).map (fun kv => kv.2)

/-- What `process_br_int` leaves behind: the transaction, the Open_vSwitch
table, and the two output parameters `*br_int_` and `*br_int_dp` (the latter
keeps its input value NULL when it is not assigned). -/
structure process_br_int_result where
  ovs_idl_txn : Option ovsdb_idl_txn
  ovs_table : List ovsrec_open_vswitch
  br_int : Option ovsrec_bridge
  br_int_dp : Option ovsrec_datapath

/-- `process_br_int`.  `want_dp` says whether the `br_int_dp` pointer is
non-NULL; `chassis_id`, `br_hwaddr`, `idl_n_max` and `server_type` are what
`get_ovs_chassis_id`, `eth_addr_random` and the IDL supply.  `none` is a failed
assertion. -/
def process_br_int (ovs_idl_txn : Option ovsdb_idl_txn) (bridge_table : List ovsrec_bridge)
    (ovs_table : List ovsrec_open_vswitch) (want_dp : Bool)
    (chassis_id : String) (br_hwaddr : eth_addr) (idl_n_max : Nat)
    (server_type : Option Nat) : Option process_br_int_result :=
  let br_int := get_br_int bridge_table ovs_table chassis_id
  match ovs_idl_txn with
  | none =>
    some { ovs_idl_txn := none, ovs_table := ovs_table, br_int := br_int, br_int_dp := none }
  | some txn =>
    let (br_int, txn, ovs_table) :=
      match br_int with
      | none => create_br_int txn ovs_table chassis_id br_hwaddr
      | some br => (some br, txn, ovs_table)
    match br_int with
    | none =>
      some { ovs_idl_txn := some txn, ovs_table := ovs_table, br_int := none,
             br_int_dp := none }
    | some br_int =>
      match ovsrec_open_vswitch_table_first ovs_table with
      | none => none
      | some cfg =>
        let datapath_type : String :=
          match get_chassis_external_id_value cfg.external_ids chassis_id
              "ovn-bridge-datapath-type" none with
          | some t => t
          | none => if br_int.datapath_type ≠ "" then br_int.datapath_type else DEFAULT_DATAPATH
        let (br_int, txn) :=
          if br_int.datapath_type ≠ datapath_type then
            ({ br_int with datapath_type := datapath_type },
             ovsdb_idl_txn_record txn
               (ovsdb_idl_txn_op.write "Bridge" br_int.uuid "datapath_type"
                 (ovsdb_datum.string datapath_type)))
          else (br_int, txn)
        let (br_int, txn) :=
          if br_int.fail_mode ≠ some "secure" then
            ({ br_int with fail_mode := some "secure" },
             ovsdb_idl_txn_record txn
               (ovsdb_idl_txn_op.write "Bridge" br_int.uuid "fail_mode"
                 (ovsdb_datum.string "secure")))
          else (br_int, txn)
        let (br_int_dp, txn) :=
          if want_dp then
            match get_br_datapath cfg datapath_type with
            | some dp => (some dp, txn)
            | none =>
              let (dp, txn) := create_br_datapath txn cfg datapath_type
              (some dp, txn)
          else (none, txn)
        match update_flow_table_prefixes txn idl_n_max server_type br_int with
        | none => none
        | some (txn, br_int) =>
          some { ovs_idl_txn := some txn, ovs_table := ovs_table, br_int := some br_int,
                 br_int_dp := br_int_dp }

/-- A sample transaction with nothing recorded, whose inserts draw the UUIDs
100, 101, ... -/
def sample_ovs_txn : ovsdb_idl_txn :=
  { ops := [], uuid_generate := fun n => 100 + n, n_inserted := 0 }

/-- A sample integration bridge without flow tables, in fail mode
`standalone`. -/
def sample_bridge : ovsrec_bridge :=
  { uuid := 5, name := "br-int", datapath_type := "", fail_mode := some "standalone",
    ports := [], other_config := [], external_ids := [], flow_tables := [] }

/-- A sample Open_vSwitch row that configures the datapath type `netdev`. -/
def sample_open_vswitch : ovsrec_open_vswitch :=
  { uuid := 1, external_ids := [("ovn-bridge-datapath-type", "netdev")],
    bridges := [sample_bridge], datapaths := [] }

/-- A sample integration bridge whose 255 flow-table entries all point to one
Flow_Table row (UUID 9) that has no prefixes yet. -/
def sample_bridge_255 : ovsrec_bridge :=
  { uuid := 5, name := "br-int", datapath_type := "system", fail_mode := some "secure",
    ports := [], other_config := [], external_ids := [],
    flow_tables := (List.range 255).map
      (fun i : Nat => ((i : Int), ({ uuid := 9, prefixes := [] } : ovsrec_flow_table))) }

/-! ## Encapsulation IPs

C strings are Lean strings; `strcmp` orders them by their bytes, which is the
order of the code points of their characters. -/

/-- The tokens `strtok_r` returns one after the other for a string and a set
of delimiter characters: the maximal runs of characters that are not
delimiters, none of them empty.  `cur` holds the characters of the token being
read, last one first. -/
def strtok_tokens (delimiters : List Char) : List Char → List Char → List String
  | [], cur => if cur = [] then [] else [String.mk cur.reverse]
  | c :: cs, cur =>
    if c ∈ delimiters then
      (if cur = [] then strtok_tokens delimiters cs []
       else String.mk cur.reverse :: strtok_tokens delimiters cs [])
    else strtok_tokens delimiters cs (c :: cur)

/-- `sset_add`: a set of strings (`struct sset`, as the list of its members)
with one more member, unchanged if the string is already in it. -/
def sset_add (set : List String) (name : String) : List String :=
  if name ∈ set then set else set ++ [name]

/-- `sset_from_delimited_string`: the set of the tokens of `s`. -/
def sset_from_delimited_string (s : String) (delimiters : String) : List String :=
  (strtok_tokens delimiters.data s.data []).foldl sset_add []

/-- The characters of a string as numbers, for comparison. -/
def string_bytes (s : String) : List Nat := s.data.map Char.toNat

/-- The order of `strcmp(a, b) <= 0`: lexicographic on the characters. -/
def strcmp_le (a b : String) : Prop := string_bytes a ≤ string_bytes b

instance strcmp_le_decidable : DecidableRel strcmp_le :=
  fun a b => inferInstanceAs (Decidable (string_bytes a ≤ string_bytes b))

/-- `sset_sort`: the members of a set in ascending `strcmp` order. -/
def sset_sort (set : List String) : List String := set.insertionSort strcmp_le

/-- `sset_count`: the number of members. -/
def sset_count (set : List String) : Nat := set.length

/-- The search loop of `parse_encap_ips`: the first index `i`, counted from
`i`, at which the array holds `encap_ip_default`. -/
def encap_ip_default_index (encap_ip_default : String) : List String → Nat → Option Nat
  | [], _ => none
  | ip :: ips, i =>
    if encap_ip_default = ip then some i else encap_ip_default_index encap_ip_default ips (i + 1)

/-- The swap of `encap_ips[0]` and `encap_ips[i]`. -/
def encap_ips_swap (encap_ips : List String) (i : Nat) : List String :=
  match encap_ips[0]?, encap_ips[i]? with
  | some first, some ith => (encap_ips.set 0 ith).set i first
  | _, _ => encap_ips

/-- `parse_encap_ips`: `*n_encap_ips` and the array `*encap_ips`.  `none`
stands for the undefined behaviour of the C code without an Open_vSwitch row
(`cfg` is dereferenced) or without `ovn-encap-ip` (the string handed to
`sset_from_delimited_string` is NULL). -/
def parse_encap_ips (ovs_table : List ovsrec_open_vswitch) (chassis_id : String) :
    Option (Nat × List String) :=
  match ovsrec_open_vswitch_table_first ovs_table with
  | none => none
  | some cfg =>
    match get_chassis_external_id_value cfg.external_ids chassis_id "ovn-encap-ip" none with
    | none => none
    | some encap_ips_str =>
      let encap_ip_set := sset_from_delimited_string encap_ips_str ","
      let encap_ips := sset_sort encap_ip_set
      let n_encap_ips := sset_count encap_ip_set
      match get_chassis_external_id_value cfg.external_ids chassis_id
          "ovn-encap-ip-default" none with
      | some encap_ip_default =>
        match encap_ip_default_index encap_ip_default (encap_ips.take n_encap_ips) 0 with
        | some i => some (n_encap_ips, encap_ips_swap encap_ips i)
        | none => some (n_encap_ips, encap_ips)
      | none => some (n_encap_ips, encap_ips)

/-! ## northd version check and northd options -/

/-- A character code as `tolower` maps it (ASCII letters only). -/
def ascii_tolower (c : Nat) : Nat := if 65 ≤ c ∧ c ≤ 90 then c + 32 else c

/-- Whether `strcasecmp(a, b)` is 0. -/
def strcasecmp_eq (a b : String) : Bool :=
  (string_bytes a).map ascii_tolower == (string_bytes b).map ascii_tolower

/-- `smap_get_bool` of the OVS library: with default true every value but
"false" counts as true, with default false only "true" does (letter case is
ignored); an absent key counts as the empty string. -/
def smap_get_bool (m : smap) (key : String) (dflt : Bool) : Bool :=
  let value : String :=
    match smap_get_def m key (some "") with
    | some v => v
    | none => ""
  if dflt then !strcasecmp_eq "false" value else strcasecmp_eq "true" value

/-- Modelled from the spec: `get_chassis_external_id_value_bool`
(`lib/ovn-util.c`, not under `src/`), a boolean configuration key read from
`external_ids` of the Open_vSwitch row, "indexed by chassis name for
overrides": `dflt` when the key is not configured, else the configured string
as `parse_bool` reads it. -/
def get_chassis_external_id_value_bool (parse_bool : String → Bool → Bool)
    (external_ids : smap) (chassis_id : String) (option_key : String) (dflt : Bool) : Bool :=
  match get_chassis_external_id_value external_ids chassis_id option_key none with
  | some value => parse_bool value dflt
  | none => dflt

/-- What a call of `check_northd_version` leaves behind: the value returned,
the function-local static `version_mismatch`, and whether
`engine_set_force_recompute` was called. -/
structure check_northd_version_result where
  ret : Bool
  version_mismatch : Bool
  force_recompute : Bool
  deriving DecidableEq, Repr

/-- `check_northd_version`.  The static `version_mismatch` is the first
argument; `chassis_id` is what `get_ovs_chassis_id` returns. -/
def check_northd_version (version_mismatch : Bool) (parse_bool : String → Bool → Bool)
    (chassis_id : String) (ovs_table : List ovsrec_open_vswitch)
    (sb_global_table : List sbrec_sb_global) (version : String) :
    check_northd_version_result :=
  let enabled : Bool :=
    match ovsrec_open_vswitch_table_first ovs_table with
    | none => false
    | some cfg =>
      get_chassis_external_id_value_bool parse_bool cfg.external_ids chassis_id
        "ovn-match-northd-version" false
  if !enabled then
    { ret := true, version_mismatch := false, force_recompute := false }
  else
    match sbrec_sb_global_table_first sb_global_table with
    | none => { ret := false, version_mismatch := true, force_recompute := false }
    | some sb =>
      let northd_version : String :=
        match smap_get_def sb.options "northd_internal_version" (some "") with
        | some v => v
        | none => ""
      if northd_version ≠ version then
        { ret := false, version_mismatch := true, force_recompute := false }
      else
        { ret := true, version_mismatch := false, force_recompute := version_mismatch }

/-- One call of `check_northd_version`: the two tables and the version. -/
structure northd_version_call where
  ovs_table : List ovsrec_open_vswitch
  sb_global_table : List sbrec_sb_global
  version : String
  deriving DecidableEq, Repr

/-- The results of a sequence of calls, in order, the static starting at
`version_mismatch`. -/
def check_northd_version_results (parse_bool : String → Bool → Bool) (chassis_id : String)
    (version_mismatch : Bool) : List northd_version_call → List check_northd_version_result
  | [] => []
  | c :: cs =>
    let r := check_northd_version version_mismatch parse_bool chassis_id c.ovs_table
      c.sb_global_table c.version
    r :: check_northd_version_results parse_bool chassis_id r.version_mismatch cs

/-- The static `version_mismatch` after a sequence of calls. -/
def check_northd_version_static (parse_bool : String → Bool → Bool) (chassis_id : String)
    (version_mismatch : Bool) : List northd_version_call → Bool
  | [] => version_mismatch
  | c :: cs =>
    check_northd_version_static parse_bool chassis_id
      (check_northd_version version_mismatch parse_bool chassis_id c.ovs_table
        c.sb_global_table c.version).version_mismatch cs

/-- Payload of the `northd_options` node. -/
structure ed_type_northd_options where
  explicit_arp_ns_output : Bool
  always_tunnel : Bool
  register_consolidation : Bool
  enable_ch_nb_cfg_update : Bool
  deriving DecidableEq, Repr

/-- `en_northd_options_run`: recompute the four options from the first
`SB_Global` row. -/
def en_northd_options_run (n_opts : ed_type_northd_options)
    (sb_global_table : List sbrec_sb_global) : engine_node_state × ed_type_northd_options :=
  let sb_global := sbrec_sb_global_table_first sb_global_table
  let n_opts := { n_opts with
    explicit_arp_ns_output :=
      match sb_global with
      | some sb => smap_get_bool sb.options "arp_ns_explicit_output" false
      | none => false }
  let n_opts := { n_opts with
    always_tunnel :=
      match sb_global with
      | some sb => smap_get_bool sb.options "always_tunnel" false
      | none => false }
  let n_opts := { n_opts with
    register_consolidation :=
      match sb_global with
      | some sb => smap_get_bool sb.options "register_consolidation" false
      | none => false }
  let n_opts := { n_opts with
    enable_ch_nb_cfg_update :=
      match sb_global with
      | some sb => smap_get_bool sb.options "enable_chassis_nb_cfg_update" true
      | none => true }
  (engine_node_state.EN_UPDATED, n_opts)

/-- `en_northd_options_sb_sb_global_handler`: update each option that
changed and report whether any did. -/
def en_northd_options_sb_sb_global_handler (n_opts : ed_type_northd_options)
    (sb_global_table : List sbrec_sb_global) :
    engine_input_handler_result × ed_type_northd_options :=
  let sb_global := sbrec_sb_global_table_first sb_global_table
  let result := engine_input_handler_result.EN_HANDLED_UNCHANGED
  let explicit_arp_ns_output : Bool :=
    match sb_global with
    | some sb => smap_get_bool sb.options "arp_ns_explicit_output" false
    | none => false
  let (n_opts, result) :=
    if explicit_arp_ns_output != n_opts.explicit_arp_ns_output then
      ({ n_opts with explicit_arp_ns_output := explicit_arp_ns_output },
       engine_input_handler_result.EN_HANDLED_UPDATED)
    else (n_opts, result)
  let always_tunnel : Bool :=
    match sb_global with
    | some sb => smap_get_bool sb.options "always_tunnel" false
    | none => false
  let (n_opts, result) :=
    if always_tunnel != n_opts.always_tunnel then
      ({ n_opts with always_tunnel := always_tunnel },
       engine_input_handler_result.EN_HANDLED_UPDATED)
    else (n_opts, result)
  let register_consolidation : Bool :=
    match sb_global with
    | some sb => smap_get_bool sb.options "register_consolidation" false
    | none => false
  let (n_opts, result) :=
    if register_consolidation != n_opts.register_consolidation then
      ({ n_opts with register_consolidation := register_consolidation },
       engine_input_handler_result.EN_HANDLED_UPDATED)
    else (n_opts, result)
  let enable_ch_nb_cfg_update : Bool :=
    match sb_global with
    | some sb => smap_get_bool sb.options "enable_chassis_nb_cfg_update" true
    | none => true
  let (n_opts, result) :=
    if enable_ch_nb_cfg_update != n_opts.enable_ch_nb_cfg_update then
      ({ n_opts with enable_ch_nb_cfg_update := enable_ch_nb_cfg_update },
       engine_input_handler_result.EN_HANDLED_UPDATED)
    else (n_opts, result)
  (result, n_opts)

/-! ## Tracked rows and the template-variable node -/

/-- A row of a table's tracked list with what the IDL tells about it
(`sbrec_<table>_is_new`, `sbrec_<table>_is_deleted`).  A deleted row still
shows the columns it had. -/
structure idl_tracked (α : Type) where
  row : α
  is_new : Bool
  is_deleted : Bool
  deriving DecidableEq, Repr

/-- Row of the southbound `Chassis_Template_Var` table; `variables_` is the
column `variables` (a reserved word here). -/
structure sbrec_chassis_template_var where
  uuid : uuid
  chassis : String
  variables_ : smap
  deriving DecidableEq, Repr

/-- `smap_get_node`: the first node of `key`, NULL if absent. -/
def smap_get_node (m : smap) (key : String) : Option (String × String) :=
  m.find? (fun kv => kv.1 = key)

/-- Payload of the `template_vars` node. -/
structure ed_type_template_vars where
  local_templates : smap
  change_tracked : Bool
  new : List String
  deleted : List String
  updated : List String
  deriving DecidableEq, Repr

/-- `template_vars_init`: the variables of the chassis's row replace
`local_templates` if the index on `chassis` finds a row. -/
def template_vars_init (tv_table : List sbrec_chassis_template_var) (chassis : sbrec_chassis)
    (local_templates : smap) : smap :=
  match tv_table.find? (fun tv => tv.chassis = chassis.name) with
  | some tv => tv.variables_
  | none => local_templates

/-- The loop of the branch of `template_vars_update` for a row that is
neither deleted nor new, over the variables of the row. -/
def template_vars_diff (local_templates : smap) :
    List (String × String) → List String × List String → List String × List String
  | [], acc => acc
  | node :: nodes, (new, updated) =>
    match smap_get_node local_templates node.1 with
    | some old =>
      if old.2 ≠ node.2 then
        template_vars_diff local_templates nodes (new, sset_add updated node.1)
      else
        template_vars_diff local_templates nodes (new, updated)
    | none => template_vars_diff local_templates nodes (sset_add new node.1, updated)

/-- `template_vars_update`: `local_templates` and the sets `new`, `deleted`,
`updated` afterwards; `none` is the failure of the assertion that
`local_templates` is empty when the chassis's row is new. -/
def template_vars_update (chassis : sbrec_chassis) (local_templates : smap)
    (new deleted updated : List String) :
    List (idl_tracked sbrec_chassis_template_var) →
      Option (smap × List String × List String × List String)
  | [] => some (local_templates, new, deleted, updated)
  | tv :: rest =>
    if tv.row.chassis ≠ chassis.name then
      template_vars_update chassis local_templates new deleted updated rest
    else if tv.is_deleted then
      let deleted := local_templates.foldl (fun d node => sset_add d node.1) deleted
      some (tv.row.variables_, new, deleted, updated)
    else if tv.is_new then
      if local_templates.length = 0 then
        let new := tv.row.variables_.foldl (fun s node => sset_add s node.1) new
        some (tv.row.variables_, new, deleted, updated)
      else none
    else
      let (new, updated) := template_vars_diff local_templates tv.row.variables_ (new, updated)
      let deleted := local_templates.foldl (fun d node => sset_add d node.1) deleted
      some (tv.row.variables_, new, deleted, updated)

/-- `en_template_vars_run`: clear `local_templates`, then copy the chassis's
row if there is one. -/
def en_template_vars_run (tv_data : ed_type_template_vars)
    (tv_table : List sbrec_chassis_template_var) (chassis : sbrec_chassis) :
    engine_node_state × ed_type_template_vars :=
  let tv_data := { tv_data with local_templates := [] }
  (engine_node_state.EN_UPDATED,
   { tv_data with local_templates := template_vars_init tv_table chassis tv_data.local_templates })

/-- `template_vars_sb_chassis_template_var_handler`. -/
def template_vars_sb_chassis_template_var_handler (tv_data : ed_type_template_vars)
    (tracked : List (idl_tracked sbrec_chassis_template_var)) (chassis : sbrec_chassis) :
    Option (engine_input_handler_result × ed_type_template_vars) :=
  match template_vars_update chassis tv_data.local_templates tv_data.new tv_data.deleted
      tv_data.updated tracked with
  | none => none
  | some (local_templates, new, deleted, updated) =>
    let result :=
      if !new.isEmpty || !deleted.isEmpty || !updated.isEmpty then
        engine_input_handler_result.EN_HANDLED_UPDATED
      else engine_input_handler_result.EN_HANDLED_UNCHANGED
    some (result,
      { local_templates := local_templates, change_tracked := true, new := new,
        deleted := deleted, updated := updated })

/-! ## Connection-tracking zone handlers -/

/-- How a tracked resource changed (`enum en_tracked_resource_type`). -/
inductive en_tracked_resource_type where
  | TRACKED_RESOURCE_NEW
  | TRACKED_RESOURCE_REMOVED
  | TRACKED_RESOURCE_UPDATED
  deriving DecidableEq, Repr

/-- A tracked logical port (`struct tracked_lport`). -/
structure tracked_lport where
  pb : sbrec_port_binding
  tracked_type : en_tracked_resource_type
  deriving DecidableEq, Repr

/-- A tracked datapath (`struct tracked_datapath`) with its tracked ports. -/
structure tracked_datapath where
  dp : sbrec_datapath_binding
  tracked_type : en_tracked_resource_type
  lports : List tracked_lport
  deriving DecidableEq, Repr

/-- What the ct-zone handlers call without defining it, on a zone context of
type `Z`: `ct_zone_handle_port_update` (context, port binding, `updated`,
`scan_start`, `min_ct_zone`, `max_ct_zone`; it returns whether something
changed, the context and `scan_start`), `ct_zone_handle_dp_update`, and
whether the IDL reports the `type` column of a port binding as updated. -/
structure ct_zone_ops (Z : Type) where
  ct_zone_handle_port_update : Z → sbrec_port_binding → Bool → Int → Int → Int → Bool × Z × Int
  ct_zone_handle_dp_update : Z → local_datapath → Bool × Z
  port_binding_type_is_updated : sbrec_port_binding → Bool

/-- Body of the loop over the tracked ports of one datapath in
`ct_zones_runtime_data_handler`; the state is the context, `scan_start` and
`updated`. -/
def ct_zones_handle_lport {Z : Type} (ops : ct_zone_ops Z) (min_ct_zone max_ct_zone : Int)
    (st : Z × Int × Bool) (t_lport : tracked_lport) : Z × Int × Bool :=
  let (ctx, scan_start, updated) := st
  if t_lport.pb.type ≠ "" ∧ t_lport.pb.type ≠ "localport" ∧ t_lport.pb.type ≠ "l3gateway" ∧
      t_lport.pb.type ≠ "localnet" then
    if ops.port_binding_type_is_updated t_lport.pb then
      let r := ops.ct_zone_handle_port_update ctx t_lport.pb false scan_start min_ct_zone
        max_ct_zone
      (r.2.1, r.2.2, updated || r.1)
    else (ctx, scan_start, updated)
  else
    let port_updated : Bool :=
      t_lport.tracked_type = en_tracked_resource_type.TRACKED_RESOURCE_NEW ∨
      t_lport.tracked_type = en_tracked_resource_type.TRACKED_RESOURCE_UPDATED
    let r := ops.ct_zone_handle_port_update ctx t_lport.pb port_updated scan_start min_ct_zone
      max_ct_zone
    (r.2.1, r.2.2, updated || r.1)

/-- The loop over the tracked datapaths of `ct_zones_runtime_data_handler`. -/
def ct_zones_handle_tracked {Z : Type} (ops : ct_zone_ops Z) (min_ct_zone max_ct_zone : Int) :
    List tracked_datapath → Z × Int × Bool → engine_input_handler_result × Z
  | [], (ctx, _, updated) =>
    (if updated then engine_input_handler_result.EN_HANDLED_UPDATED
     else engine_input_handler_result.EN_HANDLED_UNCHANGED, ctx)
  | tdp :: rest, st =>
    if tdp.tracked_type = en_tracked_resource_type.TRACKED_RESOURCE_NEW then
      (engine_input_handler_result.EN_UNHANDLED, st.1)
    else
      ct_zones_handle_tracked ops min_ct_zone max_ct_zone rest
        (tdp.lports.foldl (ct_zones_handle_lport ops min_ct_zone max_ct_zone) st)

/-- `ct_zones_runtime_data_handler`: the result and the zone context
afterwards.  `rt_tracked` and `tracked_dp_bindings` are the fields of the
runtime data, `min_ct_zone` and `max_ct_zone` what `ct_zones_parse_range`
yields. -/
def ct_zones_runtime_data_handler {Z : Type} (ops : ct_zone_ops Z) (rt_tracked : Bool)
    (tracked_dp_bindings : List tracked_datapath) (min_ct_zone max_ct_zone : Int) (ctx : Z) :
    engine_input_handler_result × Z :=
  if !rt_tracked then
    (engine_input_handler_result.EN_UNHANDLED, ctx)
  else
    let scan_start := min_ct_zone
    ct_zones_handle_tracked ops min_ct_zone max_ct_zone tracked_dp_bindings
      (ctx, scan_start, false)

/-- Modelled from the spec: `get_local_datapath` (not under `src/`), the local
datapath of a tunnel key, the "compact identifier" a datapath ships with; NULL
if the datapath is not local. -/
def get_local_datapath (local_datapaths : List local_datapath) (tunnel_key : Int) :
    Option local_datapath :=
  local_datapaths.find? (fun ld => ld.datapath.tunnel_key = tunnel_key)

/-- `ct_zones_datapath_binding_handler` over the tracked rows of
`Datapath_Binding`. -/
def ct_zones_datapath_binding_handler {Z : Type} (ops : ct_zone_ops Z)
    (local_datapaths : List local_datapath) :
    List (idl_tracked sbrec_datapath_binding) → Z → engine_input_handler_result × Z
  | [], ctx => (engine_input_handler_result.EN_HANDLED_UNCHANGED, ctx)
  | dp :: rest, ctx =>
    match get_local_datapath local_datapaths dp.row.tunnel_key with
    | none => ct_zones_datapath_binding_handler ops local_datapaths rest ctx
    | some local_dp =>
      if dp.is_deleted || dp.is_new then
        (engine_input_handler_result.EN_UNHANDLED, ctx)
      else
        let r := ops.ct_zone_handle_dp_update ctx local_dp
        if !r.1 then (engine_input_handler_result.EN_UNHANDLED, r.2)
        else ct_zones_datapath_binding_handler ops local_datapaths rest r.2

/-- A sample zone context: the number of port updates handled; every port
update reports a change, every datapath update succeeds. -/
def sample_ct_zone_ops : ct_zone_ops Nat :=
  { ct_zone_handle_port_update := fun ctx _ _ scan_start _ _ => (true, ctx + 1, scan_start)
    ct_zone_handle_dp_update := fun ctx _ => (true, ctx)
    port_binding_type_is_updated := fun _ => false }

/-! ## Address sets -/

/-- Row of the southbound `Address_Set` table. -/
structure sbrec_address_set where
  uuid : uuid
  name : String
  addresses : List String
  deriving DecidableEq, Repr

/-- What the address-set node calls on constant sets of type `C` without
defining it: `expr_constant_set_create_integers` (the constant set of a list of
addresses) and `expr_constant_set_integers_diff` (the constants added and
those deleted from the first set to the second, each NULL when there is
none). -/
structure expr_constant_set_ops (C : Type) where
  expr_constant_set_create_integers : List String → C
  expr_constant_set_integers_diff : C → C → Option C × Option C

/-- `shash_find_data`: the data stored under `name`, NULL if absent. -/
def shash_find_data {C : Type} (sh : List (String × C)) (name : String) : Option C :=
  (sh.find? (fun kv => kv.1 = name)).map (fun kv => kv.2)

/-- `shash_add`: one more entry. -/
def shash_add {C : Type} (sh : List (String × C)) (name : String) (data : C) :
    List (String × C) :=
  sh ++ [(name, data)]

/-- Modelled from the spec: `expr_const_sets_remove` (not under `src/`), the
"remove" of the address-set delta "add/remove/replace per set": the set of
that name leaves the map. -/
def expr_const_sets_remove {C : Type} (const_sets : List (String × C)) (name : String) :
    List (String × C) :=
  const_sets.filter (fun kv => kv.1 ≠ name)

/-- Modelled from the spec: `expr_const_sets_add` (not under `src/`), the
"add" and "replace" of the address-set delta "add/remove/replace per set":
the set of that name is `cs` afterwards, a set already there is replaced. -/
def expr_const_sets_add {C : Type} (const_sets : List (String × C)) (name : String) (cs : C) :
    List (String × C) :=
  shash_add (expr_const_sets_remove const_sets name) name cs

/-- Modelled from the spec: `expr_const_sets_add_integers` (not under `src/`):
add or replace the set of that name by the constant set of the addresses. -/
def expr_const_sets_add_integers {C : Type} (ops : expr_constant_set_ops C)
    (const_sets : List (String × C)) (name : String) (values : List String) :
    List (String × C) :=
  expr_const_sets_add const_sets name (ops.expr_constant_set_create_integers values)

/-- `addr_sets_init`: every row of the table is added to `addr_sets`. -/
def addr_sets_init {C : Type} (ops : expr_constant_set_ops C)
    (address_set_table : List sbrec_address_set) (addr_sets : List (String × C)) :
    List (String × C) :=
  address_set_table.foldl
    (fun sets as_ => expr_const_sets_add_integers ops sets as_.name as_.addresses) addr_sets

/-- What `addr_sets_update` works on: the cached map and the tracked sets
(`struct ed_type_addr_sets`; `updated` maps a name to its `addr_set_diff`). -/
structure ed_type_addr_sets (C : Type) where
  addr_sets : List (String × C)
  change_tracked : Bool
  new : List String
  deleted : List String
  updated : List (String × (Option C × Option C))

/-- Body of the first loop of `addr_sets_update`. -/
def addr_sets_update_deleted {C : Type} (st : ed_type_addr_sets C)
    (as_ : idl_tracked sbrec_address_set) : ed_type_addr_sets C :=
  if as_.is_deleted then
    { st with addr_sets := expr_const_sets_remove st.addr_sets as_.row.name
              deleted := sset_add st.deleted as_.row.name }
  else st

/-- Body of the second loop of `addr_sets_update`. -/
def addr_sets_update_changed {C : Type} (ops : expr_constant_set_ops C)
    (st : ed_type_addr_sets C) (as_ : idl_tracked sbrec_address_set) : ed_type_addr_sets C :=
  if !as_.is_deleted then
    match shash_find_data st.addr_sets as_.row.name with
    | none =>
      { st with new := sset_add st.new as_.row.name
                addr_sets := expr_const_sets_add_integers ops st.addr_sets as_.row.name
                  as_.row.addresses }
    | some cs_old =>
      let cs_new := ops.expr_constant_set_create_integers as_.row.addresses
      let as_diff := ops.expr_constant_set_integers_diff cs_old cs_new
      if as_diff.1.isNone && as_diff.2.isNone then st
      else
        { st with updated := shash_add st.updated as_.row.name as_diff
                  addr_sets := expr_const_sets_add st.addr_sets as_.row.name cs_new }
  else st

/-- `addr_sets_update` over the tracked rows of `Address_Set`. -/
def addr_sets_update {C : Type} (ops : expr_constant_set_ops C)
    (tracked : List (idl_tracked sbrec_address_set)) (st : ed_type_addr_sets C) :
    ed_type_addr_sets C :=
  tracked.foldl (addr_sets_update_changed ops) (tracked.foldl addr_sets_update_deleted st)

/-- `en_addr_sets_run`: the map is emptied and filled from the table. -/
def en_addr_sets_run {C : Type} (ops : expr_constant_set_ops C) (as_data : ed_type_addr_sets C)
    (as_table : List sbrec_address_set) : engine_node_state × ed_type_addr_sets C :=
  (engine_node_state.EN_UPDATED,
   { as_data with addr_sets := addr_sets_init ops as_table [], change_tracked := false })

/-- `addr_sets_sb_address_set_handler`. -/
def addr_sets_sb_address_set_handler {C : Type} (ops : expr_constant_set_ops C)
    (as_data : ed_type_addr_sets C) (tracked : List (idl_tracked sbrec_address_set)) :
    engine_input_handler_result × ed_type_addr_sets C :=
  let as_data := addr_sets_update ops tracked as_data
  let result :=
    if !as_data.new.isEmpty || !as_data.deleted.isEmpty || !as_data.updated.isEmpty then
      engine_input_handler_result.EN_HANDLED_UPDATED
    else engine_input_handler_result.EN_HANDLED_UNCHANGED
  (result, { as_data with change_tracked := true })

/-- The addresses of the last row of that name, if the rows hold one: the
row an iteration over the rows leaves in a map keyed by name. -/
def address_set_last : List sbrec_address_set → String → Option (List String)
  | [], _ => none
  | as_ :: rest, name =>
    match address_set_last rest name with
    | some addresses => some addresses
    | none => if as_.name = name then some as_.addresses else none

/-- The rows of a tracked list that are not deleted, in order. -/
def tracked_present {α : Type} (tracked : List (idl_tracked α)) : List α :=
  (tracked.filter (fun t => !t.is_deleted)).map (fun t => t.row)

/-- The rows of a tracked list that are deleted, in order. -/
def tracked_deleted {α : Type} (tracked : List (idl_tracked α)) : List α :=
  (tracked.filter (fun t => t.is_deleted)).map (fun t => t.row)

/-- A sample of constant sets: the list of addresses itself, and a diff that
is empty on both sides exactly for equal sets. -/
def sample_expr_constant_set_ops : expr_constant_set_ops (List String) :=
  { expr_constant_set_create_integers := fun values => values
    expr_constant_set_integers_diff := fun cs_old cs_new =>
      if cs_old = cs_new then (none, none) else (some cs_new, some cs_old) }

/-! ## Force recompute at the end of a main-loop iteration -/

/-- Modelled from the spec: `engine_set_force_recompute_immediate` (not under
`src/`) sets the process-wide force-recompute flag "forcing every node to its
recompute path for the next iteration". -/
def engine_set_force_recompute_immediate (_force_recompute : Bool) : Bool := true

/-- Modelled from the spec: `engine_clear_force_recompute` (not under `src/`)
clears the process-wide force-recompute flag. -/
def engine_clear_force_recompute (_force_recompute : Bool) : Bool := false

/-- The statement of `main` after the engine run (lines 7774-7790): the
force-recompute flag afterwards. -/
def main_engine_run_result (engine_has_run engine_need_run engine_canceled : Bool)
    (force_recompute : Bool) : Bool :=
  if !engine_has_run then
    if engine_need_run then engine_set_force_recompute_immediate force_recompute
    else force_recompute
  else if engine_canceled then engine_set_force_recompute_immediate force_recompute
  else engine_clear_force_recompute force_recompute

/-- The largest `int64_t`. -/
def INT64_MAX : Int := 2 ^ 63 - 1

/-- The `int64_t` a 64-bit two's complement machine keeps of an integer. -/
def int64_wrap (x : Int) : Int := (x + 2 ^ 63) % 2 ^ 64 - 2 ^ 63

/-- `ovsdb_idl_loop_next_cfg_inc` on the loop's `next_cfg` (an `int64_t`). -/
def ovsdb_idl_loop_next_cfg_inc (next_cfg : Int) : Int :=
  if next_cfg = INT64_MAX then 0 else int64_wrap (next_cfg + 1)

/-- The statement of `main` after the southbound commit (lines 7846-7856) on
the status `ovsdb_idl_loop_commit_and_wait` returned: the force-recompute flag
and the loop's `next_cfg` afterwards; `none` is `OVS_NOT_REACHED()`. -/
def main_ovnsb_commit (ovnsb_txn_status : Int) (force_recompute : Bool) (next_cfg : Int) :
    Option (Bool × Int) :=
  if ovnsb_txn_status = 0 then
    some (engine_set_force_recompute_immediate force_recompute, next_cfg)
  else if ovnsb_txn_status = 1 then
    some (force_recompute, ovsdb_idl_loop_next_cfg_inc next_cfg)
  else if ovnsb_txn_status = -1 then
    some (force_recompute, next_cfg)
  else none

/-- One iteration of the loop of `main`, as far as it acts on the
force-recompute flag once the engine has or has not run.  A paused iteration
(lines 7335-7339) only serves the unixctl commands and jumps to `loop_done`.
Otherwise the statement of lines 7774-7790 runs only inside
`if (ovsdb_idl_has_ever_connected(...) && northd_version_match && cfg)`
(lines 7430-7431), then `unixctl_server_run` serves the commands (line 7839),
then the statement of lines 7846-7856 runs on the commit status.
`unixctl_force_recompute` tells whether a command served in this iteration set
the flag (`lflow-cache/flush` calls `engine_set_force_recompute_immediate`);
`cfg` tells whether the Open_vSwitch row exists; `force_recompute` is the flag
when the iteration gets there. -/
def main_force_recompute (paused : Bool)
    (ovsdb_idl_has_ever_connected northd_version_match cfg : Bool)
    (engine_has_run engine_need_run engine_canceled : Bool) (unixctl_force_recompute : Bool)
    (ovnsb_txn_status : Int) (force_recompute : Bool) : Option Bool :=
  if paused then
    some (if unixctl_force_recompute then engine_set_force_recompute_immediate force_recompute
          else force_recompute)
  else
    let force_recompute :=
      if ovsdb_idl_has_ever_connected && northd_version_match && cfg then
        main_engine_run_result engine_has_run engine_need_run engine_canceled force_recompute
      else force_recompute
    let force_recompute :=
      if unixctl_force_recompute then engine_set_force_recompute_immediate force_recompute
      else force_recompute
    (main_ovnsb_commit ovnsb_txn_status force_recompute 0).map (fun r => r.1)

/-! ## store_nb_cfg -/

/-- Conversion of a `uint64_t` to the `int64_t` a column setter or `PRId64`
takes. -/
def to_int64 (x : Nat) : Int :=
  if x % 2 ^ 64 < 2 ^ 63 then ((x % 2 ^ 64 : Nat) : Int) else ((x % 2 ^ 64 : Nat) : Int) - 2 ^ 64

/-- `smap_get_ullong`: the value of `key` as parsed by `str_to_ullong` in base
10, `def_` if the key is absent or does not parse. -/
def smap_get_ullong (str_to_ullong : String → Option Nat) (m : smap) (key : String)
    (def_ : Nat) : Nat :=
  match smap_get m key with
  | none => def_
  | some value =>
    match str_to_ullong value with
    | none => def_
    | some ll => ll

/-- Row of the southbound `Chassis_Private` table (the column read here). -/
structure sbrec_chassis_private where
  uuid : uuid
  nb_cfg : Int
  deriving DecidableEq, Repr

/-- What `store_nb_cfg` leaves: the two transactions and the seconds slept. -/
structure store_nb_cfg_result where
  sb_txn : Option ovsdb_idl_txn
  ovs_txn : Option ovsdb_idl_txn
  slept : Nat

/-- `store_nb_cfg`.  `cur_cfg` is `last_acked` of the acknowledged `nb_cfg`
seqnos, `startup_ts` is `daemon_startup_ts()`, `ts_now` is `time_wall_msec()`
(read only when `cur_cfg` is not 0). -/
def store_nb_cfg (str_to_ullong : String → Option Nat) (cur_cfg : Nat) (startup_ts : Int)
    (ts_now : Int) (sb_txn ovs_txn : Option ovsdb_idl_txn)
    (chassis : Option sbrec_chassis_private) (br_int : Option ovsrec_bridge)
    (delay_nb_cfg_report : Nat) (enable_ch_nb_cfg_update : Bool) : store_nb_cfg_result :=
  let ovs_txn : Option ovsdb_idl_txn :=
    match ovs_txn, br_int with
    | some txn, some br =>
      if to_uint64 startup_ts ≠ smap_get_ullong str_to_ullong br.external_ids "ovn-startup-ts" 0
      then
        some (ovsdb_idl_txn_record txn
          (ovsdb_idl_txn_op.update_setkey "Bridge" br.uuid "external_ids" "ovn-startup-ts"
            (ovsdb_datum.string (toString startup_ts))))
      else some txn
    | txn, _ => txn
  if cur_cfg = 0 then
    { sb_txn := sb_txn, ovs_txn := ovs_txn, slept := 0 }
  else
    let sb : Option ovsdb_idl_txn × Nat :=
      match sb_txn, chassis with
      | some txn, some ch =>
        if cur_cfg ≠ to_uint64 ch.nb_cfg ∧ enable_ch_nb_cfg_update = true then
          (some (ovsdb_idl_txn_record
            (ovsdb_idl_txn_record txn
              (ovsdb_idl_txn_op.write "Chassis_Private" ch.uuid "nb_cfg"
                (ovsdb_datum.integer (to_int64 cur_cfg))))
            (ovsdb_idl_txn_op.write "Chassis_Private" ch.uuid "nb_cfg_timestamp"
              (ovsdb_datum.integer ts_now))),
           delay_nb_cfg_report)
        else (some txn, 0)
      | txn, _ => (txn, 0)
    let ovs_txn : Option ovsdb_idl_txn :=
      match ovs_txn, br_int with
      | some txn, some br =>
        if cur_cfg ≠ smap_get_ullong str_to_ullong br.external_ids "ovn-nb-cfg" 0 then
          some (ovsdb_idl_txn_record
            (ovsdb_idl_txn_record txn
              (ovsdb_idl_txn_op.update_setkey "Bridge" br.uuid "external_ids" "ovn-nb-cfg"
                (ovsdb_datum.string (toString (to_int64 cur_cfg)))))
            (ovsdb_idl_txn_op.update_setkey "Bridge" br.uuid "external_ids" "ovn-nb-cfg-ts"
              (ovsdb_datum.string (toString ts_now))))
        else some txn
      | txn, _ => txn
    { sb_txn := sb.1, ovs_txn := ovs_txn, slept := sb.2 }

/-! ## Netlink notify and status nodes -/

/-- Payload of the `route_table_notify` node. -/
structure ed_type_route_table_notify where
  changed : Bool
  deriving DecidableEq, Repr

/-- Payload of the `host_if_monitor` node. -/
structure ed_type_host_if_monitor where
  changed : Bool
  deriving DecidableEq, Repr

/-- Payload of the `neighbor_table_notify` node. -/
structure ed_type_neighbor_table_notify where
  changed : Bool
  deriving DecidableEq, Repr

/-- Payload of the `route_exchange_status` node. -/
structure ed_type_route_exchange_status where
  netlink_trigger_run : Bool
  deriving DecidableEq, Repr

/-- Payload of the `neighbor_exchange_status` node. -/
structure ed_type_neighbor_exchange_status where
  netlink_trigger_run : Bool
  deriving DecidableEq, Repr

/-- `en_route_table_notify_run`: the state returned and the payload left. -/
def en_route_table_notify_run (rtn : ed_type_route_table_notify) :
    engine_node_state × ed_type_route_table_notify :=
  let state :=
    if rtn.changed then engine_node_state.EN_UPDATED else engine_node_state.EN_UNCHANGED
  (state, { rtn with changed := false })

/-- `en_host_if_monitor_run`. -/
def en_host_if_monitor_run (hifm : ed_type_host_if_monitor) :
    engine_node_state × ed_type_host_if_monitor :=
  let state :=
    if hifm.changed then engine_node_state.EN_UPDATED else engine_node_state.EN_UNCHANGED
  (state, { hifm with changed := false })

/-- `en_neighbor_table_notify_run`. -/
def en_neighbor_table_notify_run (ntn : ed_type_neighbor_table_notify) :
    engine_node_state × ed_type_neighbor_table_notify :=
  let state :=
    if ntn.changed then engine_node_state.EN_UPDATED else engine_node_state.EN_UNCHANGED
  (state, { ntn with changed := false })

/-- `en_route_exchange_status_run`. -/
def en_route_exchange_status_run (res : ed_type_route_exchange_status) :
    engine_node_state × ed_type_route_exchange_status :=
  let state :=
    if res.netlink_trigger_run then engine_node_state.EN_UPDATED
    else engine_node_state.EN_UNCHANGED
  (state, { res with netlink_trigger_run := false })

/-- `en_neighbor_exchange_status_run`. -/
def en_neighbor_exchange_status_run (res : ed_type_neighbor_exchange_status) :
    engine_node_state × ed_type_neighbor_exchange_status :=
  let state :=
    if res.netlink_trigger_run then engine_node_state.EN_UPDATED
    else engine_node_state.EN_UNCHANGED
  (state, { res with netlink_trigger_run := false })

/-! ## The interface shadow node -/

/-- Payload of the `ovs_interface_shadow` node: the table it wraps (NULL
before the first run) and the external-ids kept from the last round, by
interface name. -/
structure ed_type_ovs_interface_shadow where
  iface_table : Option (List ovsrec_interface)
  iface_table_external_ids_old : List (String × smap)
  deriving DecidableEq, Repr

/-- `smap_clone`: a map of its own with the same pairs. -/
def smap_clone (src : smap) : smap := src.map (fun kv => (kv.1, kv.2))

/-- `en_ovs_interface_shadow_clear_tracked_data`: the old map is destroyed,
then filled from the rows of the table if there is one. -/
def en_ovs_interface_shadow_clear_tracked_data (data : ed_type_ovs_interface_shadow) :
    ed_type_ovs_interface_shadow :=
  let data := { data with iface_table_external_ids_old := [] }
  match data.iface_table with
  | none => data
  | some iface_table =>
    { data with
      iface_table_external_ids_old :=
        iface_table.foldl
          (fun old iface_rec => shash_add old iface_rec.name (smap_clone iface_rec.external_ids))
          data.iface_table_external_ids_old }

/-! ## Runtime-data handlers of the flow output nodes -/

/-- What `lflow_output_runtime_data_handler` calls without defining it, on the
output context `F` (the desired flow table and what goes with it): each call
returns whether it succeeded and the context it leaves. -/
structure lflow_ops (F : Type) where
  lflow_add_flows_for_datapath : F → sbrec_datapath_binding → Bool × F
  lflow_handle_flows_for_lport : F → sbrec_port_binding → Bool → Bool × F

/-- The loop over the tracked ports of one datapath in
`lflow_output_runtime_data_handler`: false as soon as one call fails. -/
def lflow_handle_lports {F : Type} (ops : lflow_ops F) : List tracked_lport → F → Bool × F
  | [], fo => (true, fo)
  | lport :: rest, fo =>
    let r := ops.lflow_handle_flows_for_lport fo lport.pb
      (lport.tracked_type = en_tracked_resource_type.TRACKED_RESOURCE_REMOVED)
    if !r.1 then (false, r.2) else lflow_handle_lports ops rest r.2

/-- The loop over the tracked datapaths in `lflow_output_runtime_data_handler`. -/
def lflow_handle_tracked {F : Type} (ops : lflow_ops F) :
    List tracked_datapath → F → engine_input_handler_result × F
  | [], fo => (engine_input_handler_result.EN_HANDLED_UPDATED, fo)
  | tdp :: rest, fo =>
    let added : Bool × F :=
      if tdp.tracked_type = en_tracked_resource_type.TRACKED_RESOURCE_NEW then
        ops.lflow_add_flows_for_datapath fo tdp.dp
      else (true, fo)
    if !added.1 then (engine_input_handler_result.EN_UNHANDLED, added.2)
    else
      let r := lflow_handle_lports ops tdp.lports added.2
      if !r.1 then (engine_input_handler_result.EN_UNHANDLED, r.2)
      else lflow_handle_tracked ops rest r.2

/-- `lflow_output_runtime_data_handler`: the result and the output context
afterwards.  `rt_tracked`, `tracked_dp_bindings` and `local_lports_changed`
are the fields of the runtime data. -/
def lflow_output_runtime_data_handler {F : Type} (ops : lflow_ops F) (rt_tracked : Bool)
    (tracked_dp_bindings : List tracked_datapath) (local_lports_changed : Bool) (fo : F) :
    engine_input_handler_result × F :=
  if !rt_tracked then (engine_input_handler_result.EN_UNHANDLED, fo)
  else if tracked_dp_bindings.isEmpty then
    (if local_lports_changed then engine_input_handler_result.EN_HANDLED_UPDATED
     else engine_input_handler_result.EN_HANDLED_UNCHANGED, fo)
  else lflow_handle_tracked ops tracked_dp_bindings fo

/-- The loop over the tracked ports of one datapath in
`pflow_output_runtime_data_handler`; `physical_handle_flows_for_lport` (port
binding, `removed`, flow table) is not defined here. -/
def pflow_handle_lports {P : Type}
    (physical_handle_flows_for_lport : sbrec_port_binding → Bool → P → Bool × P) :
    List tracked_lport → P → Bool × P
  | [], flow_table => (true, flow_table)
  | lport :: rest, flow_table =>
    let removed : Bool :=
      if lport.tracked_type = en_tracked_resource_type.TRACKED_RESOURCE_REMOVED then true
      else false
    let r := physical_handle_flows_for_lport lport.pb removed flow_table
    if !r.1 then (false, r.2)
    else pflow_handle_lports physical_handle_flows_for_lport rest r.2

/-- The loop over the tracked datapaths in `pflow_output_runtime_data_handler`. -/
def pflow_handle_tracked {P : Type}
    (physical_handle_flows_for_lport : sbrec_port_binding → Bool → P → Bool × P) :
    List tracked_datapath → P → engine_input_handler_result × P
  | [], flow_table => (engine_input_handler_result.EN_HANDLED_UPDATED, flow_table)
  | tdp :: rest, flow_table =>
    if tdp.tracked_type ≠ en_tracked_resource_type.TRACKED_RESOURCE_UPDATED then
      (engine_input_handler_result.EN_UNHANDLED, flow_table)
    else
      let r := pflow_handle_lports physical_handle_flows_for_lport tdp.lports flow_table
      if !r.1 then (engine_input_handler_result.EN_UNHANDLED, r.2)
      else pflow_handle_tracked physical_handle_flows_for_lport rest r.2

/-- `pflow_output_runtime_data_handler`: the result and the flow table
afterwards. -/
def pflow_output_runtime_data_handler {P : Type}
    (physical_handle_flows_for_lport : sbrec_port_binding → Bool → P → Bool × P)
    (rt_tracked : Bool) (tracked_dp_bindings : List tracked_datapath) (flow_table : P) :
    engine_input_handler_result × P :=
  if !rt_tracked then (engine_input_handler_result.EN_UNHANDLED, flow_table)
  else if tracked_dp_bindings.isEmpty then
    (engine_input_handler_result.EN_HANDLED_UNCHANGED, flow_table)
  else pflow_handle_tracked physical_handle_flows_for_lport tracked_dp_bindings flow_table

/-! ## The neighbor node's datapath-binding handler -/

/-- `neighbor_sb_datapath_binding_handler` over the tracked rows of
`Datapath_Binding`; `external_ids_is_updated` is what the IDL answers to
`sbrec_datapath_binding_is_updated(dp, SBREC_DATAPATH_BINDING_COL_EXTERNAL_IDS)`. -/
def neighbor_sb_datapath_binding_handler (local_datapaths : List local_datapath)
    (external_ids_is_updated : sbrec_datapath_binding → Bool) :
    List (idl_tracked sbrec_datapath_binding) → engine_input_handler_result
  | [] => engine_input_handler_result.EN_HANDLED_UNCHANGED
  | dp :: rest =>
    if dp.is_new || dp.is_deleted then
      engine_input_handler_result.EN_HANDLED_UNCHANGED
    else
      match get_local_datapath local_datapaths dp.row.tunnel_key with
      | none =>
        neighbor_sb_datapath_binding_handler local_datapaths external_ids_is_updated rest
      | some ld =>
        if !ld.is_switch then
          neighbor_sb_datapath_binding_handler local_datapaths external_ids_is_updated rest
        else if external_ids_is_updated dp.row then
          engine_input_handler_result.EN_UNHANDLED
        else
          neighbor_sb_datapath_binding_handler local_datapaths external_ids_is_updated rest

/-! ## The MAC cache handlers -/

/-- Row of the southbound `MAC_Binding` table; `datapath` is the row the
column points to. -/
structure sbrec_mac_binding where
  uuid : uuid
  logical_port : String
  ip : String
  mac : String
  datapath : sbrec_datapath_binding
  deriving DecidableEq, Repr

/-- Row of the southbound `FDB` table. -/
structure sbrec_fdb where
  uuid : uuid
  mac : String
  dp_key : Int
  port_key : Int
  deriving DecidableEq, Repr

/-- What the MAC-binding side of the cache calls without defining it: `M` is
the map `mac_bindings`, `D` is `struct mac_binding_data`, `B` a cached
`struct mac_binding`.  `mac_binding_add` takes the map, the data, the row and
the timestamp. -/
structure mac_binding_ops (M D B : Type) where
  mac_binding_data_from_sbrec : sbrec_mac_binding → Option D
  mac_binding_find : M → D → Option B
  mac_binding_remove : M → B → M
  mac_binding_add : M → D → sbrec_mac_binding → Int → M
  hmap_count : M → Nat

/-- What the FDB side of the cache calls without defining it: `M` is the map
`fdbs`, `D` is `struct fdb_data`, `B` a cached `struct fdb`.  `fdb_add`
returns the map and the entry; `fdb_set_sbrec_fdb` is the assignment
`fdb->sbrec_fdb = sfdb`. -/
structure fdb_ops (M D B : Type) where
  fdb_data_from_sbrec : sbrec_fdb → Option D
  fdb_find : M → D → Option B
  fdb_remove : M → B → M
  fdb_add : M → D → Int → M × B
  fdb_set_sbrec_fdb : M → B → sbrec_fdb → M
  hmap_count : M → Nat

/-- `mac_binding_add_sb` on the map of cached MAC bindings. -/
def mac_binding_add_sb {M D B : Type} (ops : mac_binding_ops M D B) (mac_bindings : M)
    (smb : sbrec_mac_binding) : M :=
  match ops.mac_binding_data_from_sbrec smb with
  | none => mac_bindings
  | some mb_data => ops.mac_binding_add mac_bindings mb_data smb 0

/-- `mac_binding_remove_sb` on the map of cached MAC bindings. -/
def mac_binding_remove_sb {M D B : Type} (ops : mac_binding_ops M D B) (mac_bindings : M)
    (smb : sbrec_mac_binding) : M :=
  match ops.mac_binding_data_from_sbrec smb with
  | none => mac_bindings
  | some mb_data =>
    match ops.mac_binding_find mac_bindings mb_data with
    | none => mac_bindings
    | some mb => ops.mac_binding_remove mac_bindings mb

/-- `fdb_add_sb` on the map of cached FDB entries. -/
def fdb_add_sb {M D B : Type} (ops : fdb_ops M D B) (fdbs : M) (sfdb : sbrec_fdb) : M :=
  match ops.fdb_data_from_sbrec sfdb with
  | none => fdbs
  | some fdb_data =>
    let r := ops.fdb_add fdbs fdb_data 0
    ops.fdb_set_sbrec_fdb r.1 r.2 sfdb

/-- `fdb_remove_sb` on the map of cached FDB entries. -/
def fdb_remove_sb {M D B : Type} (ops : fdb_ops M D B) (fdbs : M) (sfdb : sbrec_fdb) : M :=
  match ops.fdb_data_from_sbrec sfdb with
  | none => fdbs
  | some fdb_data =>
    match ops.fdb_find fdbs fdb_data with
    | none => fdbs
    | some fdb => ops.fdb_remove fdbs fdb

/-- Body of the loop of `mac_cache_sb_mac_binding_handler`;
`mac_cache_threshold_find` tells whether the cache holds a threshold for a
tunnel key (the handler does not change the thresholds). -/
def mac_cache_handle_mac_binding {M D B : Type} (ops : mac_binding_ops M D B)
    (local_datapaths : List local_datapath) (mac_cache_threshold_find : Int → Bool)
    (mac_bindings : M) (sbrec_mb : idl_tracked sbrec_mac_binding) : M :=
  let mac_bindings :=
    if !sbrec_mb.is_new then mac_binding_remove_sb ops mac_bindings sbrec_mb.row
    else mac_bindings
  if sbrec_mb.is_deleted ||
      (get_local_datapath local_datapaths sbrec_mb.row.datapath.tunnel_key).isNone then
    mac_bindings
  else if mac_cache_threshold_find sbrec_mb.row.datapath.tunnel_key then
    mac_binding_add_sb ops mac_bindings sbrec_mb.row
  else mac_bindings

/-- `mac_cache_sb_mac_binding_handler`: the result and the map of cached MAC
bindings afterwards. -/
def mac_cache_sb_mac_binding_handler {M D B : Type} (ops : mac_binding_ops M D B)
    (local_datapaths : List local_datapath) (mac_cache_threshold_find : Int → Bool)
    (mac_bindings : M) (tracked : List (idl_tracked sbrec_mac_binding)) :
    engine_input_handler_result × M :=
  let previous_size := ops.hmap_count mac_bindings
  let mac_bindings :=
    tracked.foldl (mac_cache_handle_mac_binding ops local_datapaths mac_cache_threshold_find)
      mac_bindings
  if ops.hmap_count mac_bindings ≠ previous_size then
    (engine_input_handler_result.EN_HANDLED_UPDATED, mac_bindings)
  else (engine_input_handler_result.EN_HANDLED_UNCHANGED, mac_bindings)

/-- Body of the loop of `mac_cache_sb_fdb_handler`. -/
def mac_cache_handle_fdb {M D B : Type} (ops : fdb_ops M D B)
    (local_datapaths : List local_datapath) (mac_cache_threshold_find : Int → Bool)
    (fdbs : M) (sbrec_fdb_ : idl_tracked sbrec_fdb) : M :=
  let fdbs := if !sbrec_fdb_.is_new then fdb_remove_sb ops fdbs sbrec_fdb_.row else fdbs
  let local_dp := get_local_datapath local_datapaths sbrec_fdb_.row.dp_key
  if sbrec_fdb_.is_deleted || local_dp.isNone then fdbs
  else if mac_cache_threshold_find sbrec_fdb_.row.dp_key then
    fdb_add_sb ops fdbs sbrec_fdb_.row
  else fdbs

/-- `mac_cache_sb_fdb_handler`: the result and the map of cached FDB entries
afterwards. -/
def mac_cache_sb_fdb_handler {M D B : Type} (ops : fdb_ops M D B)
    (local_datapaths : List local_datapath) (mac_cache_threshold_find : Int → Bool)
    (fdbs : M) (tracked : List (idl_tracked sbrec_fdb)) : engine_input_handler_result × M :=
  let previous_size := ops.hmap_count fdbs
  let fdbs :=
    tracked.foldl (mac_cache_handle_fdb ops local_datapaths mac_cache_threshold_find) fdbs
  if ops.hmap_count fdbs ≠ previous_size then
    (engine_input_handler_result.EN_HANDLED_UPDATED, fdbs)
  else (engine_input_handler_result.EN_HANDLED_UNCHANGED, fdbs)

/-- A sample cache of MAC bindings: the list of (tunnel key, IP, MAC), one
entry per tunnel key and IP. -/
def sample_mac_binding_ops :
    mac_binding_ops (List (Int × String × String)) (Int × String × String)
      (Int × String × String) :=
  { mac_binding_data_from_sbrec := fun smb => some (smb.datapath.tunnel_key, smb.ip, smb.mac)
    mac_binding_find := fun m d => m.find? (fun e => e.1 = d.1 ∧ e.2.1 = d.2.1)
    mac_binding_remove := fun m mb => m.erase mb
    mac_binding_add := fun m d _ _ =>
      if (m.find? (fun e => e.1 = d.1 ∧ e.2.1 = d.2.1)).isSome then
        m.map (fun e => if e.1 = d.1 ∧ e.2.1 = d.2.1 then d else e)
      else m ++ [d]
    hmap_count := fun m => m.length }

/-- A sample cache of FDB entries: the list of (tunnel key, MAC, port key),
one entry per tunnel key and MAC. -/
def sample_fdb_ops :
    fdb_ops (List (Int × String × Int)) (Int × String × Int) (Int × String × Int) :=
  { fdb_data_from_sbrec := fun sfdb => some (sfdb.dp_key, sfdb.mac, sfdb.port_key)
    fdb_find := fun m d => m.find? (fun e => e.1 = d.1 ∧ e.2.1 = d.2.1)
    fdb_remove := fun m fdb => m.erase fdb
    fdb_add := fun m d _ =>
      if (m.find? (fun e => e.1 = d.1 ∧ e.2.1 = d.2.1)).isSome then
        (m.map (fun e => if e.1 = d.1 ∧ e.2.1 = d.2.1 then d else e), d)
      else (m ++ [d], d)
    fdb_set_sbrec_fdb := fun m _ _ => m
    hmap_count := fun m => m.length }

/-! ## Port groups -/

/-- Row of the southbound `Port_Group` table. -/
structure sbrec_port_group where
  uuid : uuid
  name : String
  ports : List String
  deriving DecidableEq, Repr

/-- Payload of the `port_groups` node; `C` is the type of constant sets. -/
structure ed_type_port_groups (C : Type) where
  port_group_ssets : List (String × List String)
  port_groups_cs_local : List (String × C)
  change_tracked : Bool
  new : List String
  deleted : List String
  updated : List String

/-- The found set is emptied and refilled in place: the first entry of that
name gets the new members (`sset_clear` and the `sset_add` loop of
`port_group_ssets_add_or_update` on the set `shash_find_data` returned). -/
def shash_replace_data {C : Type} : List (String × C) → String → C → List (String × C)
  | [], _, _ => []
  | kv :: rest, name, data =>
    if kv.1 = name then (kv.1, data) :: rest
    else kv :: shash_replace_data rest name data

/-- `port_group_ssets_add_or_update`. -/
def port_group_ssets_add_or_update (port_group_ssets : List (String × List String))
    (pg : sbrec_port_group) : List (String × List String) :=
  match shash_find_data port_group_ssets pg.name with
  | some _ => shash_replace_data port_group_ssets pg.name (pg.ports.foldl sset_add [])
  | none => shash_add port_group_ssets pg.name (pg.ports.foldl sset_add [])

/-- `port_group_ssets_delete`: the node `shash_find` returns, if any, is
deleted. -/
def port_group_ssets_delete (port_group_ssets : List (String × List String))
    (pg_name : String) : List (String × List String) :=
  port_group_ssets.eraseP (fun kv => kv.1 = pg_name)

/-- Modelled from the spec: `expr_const_sets_add_strings` (not under `src/`):
the constant set of that name becomes the one made of the given ports
"filtered to the current local-scope" (the set of local lports);
`create_strings` makes the constant set of the ports and the filter. -/
def expr_const_sets_add_strings {C : Type} (create_strings : List String → List String → C)
    (const_sets : List (String × C)) (name : String) (values : List String)
    (filter : List String) : List (String × C) :=
  expr_const_sets_add const_sets name (create_strings values filter)

/-- Body of the loop of `port_groups_init`, on the two maps. -/
def port_groups_init_row {C : Type} (create_strings : List String → List String → C)
    (local_lports : List String) (maps : List (String × List String) × List (String × C))
    (pg : sbrec_port_group) : List (String × List String) × List (String × C) :=
  (port_group_ssets_add_or_update maps.1 pg,
   expr_const_sets_add_strings create_strings maps.2 pg.name pg.ports local_lports)

/-- `port_groups_init`: the two maps after every row of the table is added. -/
def port_groups_init {C : Type} (create_strings : List String → List String → C)
    (port_group_table : List sbrec_port_group) (local_lports : List String)
    (port_group_ssets : List (String × List String))
    (port_groups_cs_local : List (String × C)) :
    List (String × List String) × List (String × C) :=
  port_group_table.foldl (port_groups_init_row create_strings local_lports)
    (port_group_ssets, port_groups_cs_local)

/-- Body of the first loop of `port_groups_update`. -/
def port_groups_update_deleted {C : Type} (st : ed_type_port_groups C)
    (pg : idl_tracked sbrec_port_group) : ed_type_port_groups C :=
  if pg.is_deleted then
    { st with port_groups_cs_local := expr_const_sets_remove st.port_groups_cs_local pg.row.name
              port_group_ssets := port_group_ssets_delete st.port_group_ssets pg.row.name
              deleted := sset_add st.deleted pg.row.name }
  else st

/-- Body of the second loop of `port_groups_update`. -/
def port_groups_update_changed {C : Type} (create_strings : List String → List String → C)
    (local_lports : List String) (st : ed_type_port_groups C)
    (pg : idl_tracked sbrec_port_group) : ed_type_port_groups C :=
  if !pg.is_deleted then
    let st :=
      { st with port_group_ssets := port_group_ssets_add_or_update st.port_group_ssets pg.row
                port_groups_cs_local :=
                  expr_const_sets_add_strings create_strings st.port_groups_cs_local pg.row.name
                    pg.row.ports local_lports }
    if pg.is_new then { st with new := sset_add st.new pg.row.name }
    else { st with updated := sset_add st.updated pg.row.name }
  else st

/-- `port_groups_update` over the tracked rows of `Port_Group`. -/
def port_groups_update {C : Type} (create_strings : List String → List String → C)
    (tracked : List (idl_tracked sbrec_port_group)) (local_lports : List String)
    (st : ed_type_port_groups C) : ed_type_port_groups C :=
  tracked.foldl (port_groups_update_changed create_strings local_lports)
    (tracked.foldl port_groups_update_deleted st)

/-- The ports of the last row of that name, if the rows hold one. -/
def port_group_last : List sbrec_port_group → String → Option (List String)
  | [], _ => none
  | pg :: rest, name =>
    match port_group_last rest name with
    | some ports => some ports
    | none => if pg.name = name then some pg.ports else none

/-! ## Load-balancer data -/

/-- Row of the southbound `Load_Balancer` table. -/
structure sbrec_load_balancer where
  uuid : uuid
  name : String
  deriving DecidableEq, Repr

/-- A VIP of a load balancer with its backends (`struct ovn_lb_vip`). -/
structure ovn_lb_vip where
  vip_str : String
  backends : List String
  deriving DecidableEq, Repr

/-- A load balancer as the controller keeps it (`struct ovn_controller_lb`);
`slb` is the row it was made from. -/
structure ovn_controller_lb where
  slb : sbrec_load_balancer
  proto : Nat
  ct_flush : Bool
  vips : List ovn_lb_vip
  deriving DecidableEq, Repr

/-- What the load-balancer node calls without defining it: `T` is the map of
removed 5-tuples, `D` the dependency manager.  `lb_is_local` answers for the
local datapaths of the runtime data; `objdep_mgr_add` is called with the type
`OBJDEP_TYPE_TEMPLATE`. -/
structure lb_data_ops (T D : Type) where
  ovn_controller_lb_create : sbrec_load_balancer → smap → ovn_controller_lb × List String
  lb_is_local : sbrec_load_balancer → Bool
  ovs_feature_ct_tuple_flush : Bool
  ovn_lb_5tuple_add : T → ovn_lb_vip → String → Nat → T
  ovn_lb_5tuple_find_and_delete : T → ovn_lb_vip → String → Nat → T
  objdep_mgr_add : D → String → uuid → D
  objdep_mgr_remove_obj : D → uuid → D

/-- Payload of the `lb_data` node. -/
structure ed_type_lb_data (T D : Type) where
  local_lbs : List ovn_controller_lb
  removed_tuples : T
  deps_mgr : D
  change_tracked : Bool
  old_lbs : List ovn_controller_lb
  deleted : List uuid
  updated : List uuid
  new : List uuid

/-- Modelled from the spec: `ovn_controller_lb_find` (not under `src/`), the
load balancer of that UUID in a "local projection of the southbound table",
NULL if it holds none. -/
def ovn_controller_lb_find (lbs : List ovn_controller_lb) (uuid_ : uuid) :
    Option ovn_controller_lb :=
  lbs.find? (fun lb => lb.slb.uuid = uuid_)

/-- `uuidset_insert`: a set holds a UUID once. -/
def uuidset_insert (set : List uuid) (uuid_ : uuid) : List uuid :=
  if uuid_ ∈ set then set else set ++ [uuid_]

/-- `uuidset_find_and_delete`. -/
def uuidset_find_and_delete (set : List uuid) (uuid_ : uuid) : List uuid :=
  set.erase uuid_

/-- `lb_data_removed_five_tuples_add`. -/
def lb_data_removed_five_tuples_add {T D : Type} (ops : lb_data_ops T D)
    (lb_data : ed_type_lb_data T D) (lb : ovn_controller_lb) : ed_type_lb_data T D :=
  if !ops.ovs_feature_ct_tuple_flush || !lb.ct_flush then lb_data
  else
    { lb_data with
      removed_tuples :=
        lb.vips.foldl
          (fun tuples vip =>
            vip.backends.foldl
              (fun tuples backend => ops.ovn_lb_5tuple_add tuples vip backend lb.proto) tuples)
          lb_data.removed_tuples }

/-- `lb_data_removed_five_tuples_remove`. -/
def lb_data_removed_five_tuples_remove {T D : Type} (ops : lb_data_ops T D)
    (lb_data : ed_type_lb_data T D) (lb : ovn_controller_lb) : ed_type_lb_data T D :=
  if !ops.ovs_feature_ct_tuple_flush || !lb.ct_flush then lb_data
  else
    { lb_data with
      removed_tuples :=
        lb.vips.foldl
          (fun tuples vip =>
            vip.backends.foldl
              (fun tuples backend =>
                ops.ovn_lb_5tuple_find_and_delete tuples vip backend lb.proto) tuples)
          lb_data.removed_tuples }

/-- `lb_data_local_lb_add`. -/
def lb_data_local_lb_add {T D : Type} (ops : lb_data_ops T D) (lb_data : ed_type_lb_data T D)
    (sbrec_lb : sbrec_load_balancer) (template_vars : smap) (tracked : Bool) :
    ed_type_lb_data T D :=
  let uuid_ := sbrec_lb.uuid
  let created := ops.ovn_controller_lb_create sbrec_lb template_vars
  let lb := created.1
  let lb_data := { lb_data with local_lbs := lb_data.local_lbs ++ [lb] }
  let lb_data :=
    { lb_data with
      deps_mgr :=
        created.2.foldl (fun mgr tv_name => ops.objdep_mgr_add mgr tv_name uuid_)
          lb_data.deps_mgr }
  let lb_data := lb_data_removed_five_tuples_remove ops lb_data lb
  if !tracked then lb_data
  else if (ovn_controller_lb_find lb_data.old_lbs uuid_).isSome then
    { lb_data with updated := uuidset_insert lb_data.updated uuid_
                   deleted := uuidset_find_and_delete lb_data.deleted uuid_ }
  else { lb_data with new := uuidset_insert lb_data.new uuid_ }

/-- `lb_data_local_lb_remove`. -/
def lb_data_local_lb_remove {T D : Type} (ops : lb_data_ops T D)
    (lb_data : ed_type_lb_data T D) (lb : ovn_controller_lb) : ed_type_lb_data T D :=
  let uuid_ := lb.slb.uuid
  let lb_data :=
    { lb_data with deps_mgr := ops.objdep_mgr_remove_obj lb_data.deps_mgr uuid_
                   local_lbs := lb_data.local_lbs.erase lb }
  let lb_data := lb_data_removed_five_tuples_add ops lb_data lb
  { lb_data with old_lbs := lb_data.old_lbs ++ [lb]
                 deleted := uuidset_insert lb_data.deleted uuid_ }

/-- Body of the loop of `lb_data_sb_load_balancer_handler`. -/
def lb_data_handle_tracked_lb {T D : Type} (ops : lb_data_ops T D) (template_vars : smap)
    (lb_data : ed_type_lb_data T D) (sbrec_lb : idl_tracked sbrec_load_balancer) :
    ed_type_lb_data T D :=
  let lb_data :=
    if !sbrec_lb.is_new then
      match ovn_controller_lb_find lb_data.local_lbs sbrec_lb.row.uuid with
      | some lb => lb_data_local_lb_remove ops lb_data lb
      | none => lb_data
    else lb_data
  if sbrec_lb.is_deleted || !ops.lb_is_local sbrec_lb.row then lb_data
  else lb_data_local_lb_add ops lb_data sbrec_lb.row template_vars true

/-- `lb_data_sb_load_balancer_handler`: the result and the payload afterwards. -/
def lb_data_sb_load_balancer_handler {T D : Type} (ops : lb_data_ops T D)
    (lb_data : ed_type_lb_data T D) (template_vars : smap)
    (tracked : List (idl_tracked sbrec_load_balancer)) :
    engine_input_handler_result × ed_type_lb_data T D :=
  let lb_data := tracked.foldl (lb_data_handle_tracked_lb ops template_vars) lb_data
  let lb_data := { lb_data with change_tracked := true }
  if !lb_data.deleted.isEmpty || !lb_data.updated.isEmpty || !lb_data.new.isEmpty then
    (engine_input_handler_result.EN_HANDLED_UPDATED, lb_data)
  else (engine_input_handler_result.EN_HANDLED_UNCHANGED, lb_data)

/-- A sample of the load-balancer collaborators: a load balancer without
VIPs, local exactly when its name is "local"; no 5-tuples and no dependencies
are kept. -/
def sample_lb_data_ops : lb_data_ops Unit Unit :=
  { ovn_controller_lb_create := fun slb _ =>
      ({ slb := slb, proto := 6, ct_flush := false, vips := [] }, [])
    lb_is_local := fun slb => slb.name = "local"
    ovs_feature_ct_tuple_flush := false
    ovn_lb_5tuple_add := fun t _ _ _ => t
    ovn_lb_5tuple_find_and_delete := fun t _ _ _ => t
    objdep_mgr_add := fun d _ _ => d
    objdep_mgr_remove_obj := fun d _ => d }

/-! # Theorems -/

/-- The static variable of `get_nb_cfg` always holds the value returned by the
most recent call made with equal sequence numbers. -/
theorem get_nb_cfg_static_eq (s : Nat) (hist : List nb_cfg_call) :
    get_nb_cfg_static s hist = last_acked_return s hist (get_nb_cfg_returns s hist) := by
  induction hist generalizing s with
  | nil => rfl
  | cons c cs ih =>
    simp only [get_nb_cfg_static, get_nb_cfg_returns, last_acked_return]
    rw [ih]
    congr 1
    unfold get_nb_cfg
    by_cases h : c.cond_seqno = c.expected_cond_seqno <;> simp [h]

/-! ## Facts about conditions -/

/-- Adding a clause to an always-true condition changes nothing. -/
theorem add_clause_of_is_true (cnd : ovsdb_idl_condition) (f : ovsdb_function)
    (col : String) (a : ovsdb_datum) (h : cnd.is_true = true) :
    ovsdb_idl_condition_add_clause cnd f col a = cnd := by
  simp [ovsdb_idl_condition_add_clause, h]

/-- A clause that is not TRUE leaves `is_true` as it was. -/
theorem add_clause_is_true (cnd : ovsdb_idl_condition) (f : ovsdb_function)
    (col : String) (a : ovsdb_datum) (hf : f ≠ ovsdb_function.OVSDB_F_TRUE) :
    (ovsdb_idl_condition_add_clause cnd f col a).is_true = cnd.is_true := by
  unfold ovsdb_idl_condition_add_clause
  split
  · rfl
  · simp only [hf, if_false]
    split
    · rfl
    · split <;> rfl

/-- Clauses already in a condition stay when a clause that is not TRUE is added. -/
theorem mem_add_clause_of_mem (cnd : ovsdb_idl_condition) (f : ovsdb_function)
    (col : String) (a : ovsdb_datum) (hf : f ≠ ovsdb_function.OVSDB_F_TRUE)
    (x : ovsdb_idl_clause) (hx : x ∈ cnd.clauses) :
    x ∈ (ovsdb_idl_condition_add_clause cnd f col a).clauses := by
  unfold ovsdb_idl_condition_add_clause
  split
  · exact hx
  · simp only [hf, if_false]
    split
    · exact hx
    · split
      · exact hx
      · simp [hx]

/-- A comparison clause added to a condition that is not always true is in it. -/
theorem mem_add_clause_self (cnd : ovsdb_idl_condition) (f : ovsdb_function)
    (col : String) (a : ovsdb_datum) (hf : f ≠ ovsdb_function.OVSDB_F_TRUE)
    (hf2 : f ≠ ovsdb_function.OVSDB_F_FALSE) (ht : cnd.is_true = false) :
    ({ function := f, column := col, arg := a } : ovsdb_idl_clause) ∈
      (ovsdb_idl_condition_add_clause cnd f col a).clauses := by
  unfold ovsdb_idl_condition_add_clause
  simp only [ht, hf, hf2, if_false, Bool.false_eq_true]
  split
  · assumption
  · simp

/-- A clause of the condition after an addition was there before or is the
clause added. -/
theorem mem_add_clause_cases (cnd : ovsdb_idl_condition) (f : ovsdb_function)
    (col : String) (a : ovsdb_datum) (hf : f ≠ ovsdb_function.OVSDB_F_TRUE)
    (x : ovsdb_idl_clause)
    (hx : x ∈ (ovsdb_idl_condition_add_clause cnd f col a).clauses) :
    x ∈ cnd.clauses ∨ x = { function := f, column := col, arg := a } := by
  unfold ovsdb_idl_condition_add_clause at hx
  split at hx
  · exact Or.inl hx
  · simp only [hf, if_false] at hx
    split at hx
    · exact Or.inl hx
    · split at hx
      · exact Or.inl hx
      · simpa using hx

/-- A loop of additions to an always-true condition changes nothing. -/
theorem add_clauses_of_is_true (f : ovsdb_function) (col : String) (args : List ovsdb_datum)
    (cnd : ovsdb_idl_condition) (h : cnd.is_true = true) :
    add_clauses f col args cnd = cnd := by
  induction args with
  | nil => rfl
  | cons a as ih =>
    simp only [add_clauses, List.foldl_cons] at ih ⊢
    rw [add_clause_of_is_true cnd f col a h]
    exact ih

/-- A loop of comparison clauses leaves `is_true` as it was. -/
theorem add_clauses_is_true (f : ovsdb_function) (col : String) (args : List ovsdb_datum)
    (cnd : ovsdb_idl_condition) (hf : f ≠ ovsdb_function.OVSDB_F_TRUE) :
    (add_clauses f col args cnd).is_true = cnd.is_true := by
  induction args generalizing cnd with
  | nil => rfl
  | cons a as ih =>
    simp only [add_clauses, List.foldl_cons] at ih ⊢
    rw [ih, add_clause_is_true cnd f col a hf]

/-- A loop of additions keeps the clauses that were there. -/
theorem mem_add_clauses_of_mem (f : ovsdb_function) (col : String) (args : List ovsdb_datum)
    (cnd : ovsdb_idl_condition) (hf : f ≠ ovsdb_function.OVSDB_F_TRUE)
    (x : ovsdb_idl_clause) (hx : x ∈ cnd.clauses) :
    x ∈ (add_clauses f col args cnd).clauses := by
  induction args generalizing cnd with
  | nil => exact hx
  | cons a as ih =>
    simp only [add_clauses, List.foldl_cons] at ih ⊢
    exact ih _ (mem_add_clause_of_mem cnd f col a hf x hx)

/-- After a loop of additions to a condition that is not always true, the
clause of every argument is in the condition. -/
theorem mem_add_clauses_self (f : ovsdb_function) (col : String) (args : List ovsdb_datum)
    (cnd : ovsdb_idl_condition) (hf : f ≠ ovsdb_function.OVSDB_F_TRUE)
    (hf2 : f ≠ ovsdb_function.OVSDB_F_FALSE) (ht : cnd.is_true = false)
    (a : ovsdb_datum) (ha : a ∈ args) :
    ({ function := f, column := col, arg := a } : ovsdb_idl_clause) ∈
      (add_clauses f col args cnd).clauses := by
  induction args generalizing cnd with
  | nil => cases ha
  | cons b bs ih =>
    simp only [add_clauses, List.foldl_cons] at ih ⊢
    rcases List.mem_cons.mp ha with hab | hab
    · subst hab
      exact mem_add_clauses_of_mem f col bs _ hf _ (mem_add_clause_self cnd f col a hf hf2 ht)
    · exact ih _ (by rw [add_clause_is_true cnd f col b hf]; exact ht) hab

/-- A clause found after a loop of additions was there before or belongs to
one of the arguments. -/
theorem mem_add_clauses_cases (f : ovsdb_function) (col : String) (args : List ovsdb_datum)
    (cnd : ovsdb_idl_condition) (hf : f ≠ ovsdb_function.OVSDB_F_TRUE)
    (x : ovsdb_idl_clause) (hx : x ∈ (add_clauses f col args cnd).clauses) :
    x ∈ cnd.clauses ∨ ∃ a ∈ args, x = { function := f, column := col, arg := a } := by
  induction args generalizing cnd with
  | nil => exact Or.inl hx
  | cons b bs ih =>
    simp only [add_clauses, List.foldl_cons] at ih hx
    rcases ih _ hx with h | ⟨a, ha, hxa⟩
    · rcases mem_add_clause_cases cnd f col b hf x h with h1 | h1
      · exact Or.inl h1
      · exact Or.inr ⟨b, List.mem_cons_self _ _, h1⟩
    · exact Or.inr ⟨a, List.mem_cons_of_mem _ ha, hxa⟩

/-- The loop over the local datapaths, condition by condition. -/
theorem foldl_monitor_local_datapath (lds : List local_datapath) (c : sb_conditions) :
    lds.foldl monitor_local_datapath c =
      { c with
        pb := add_clauses ovsdb_function.OVSDB_F_EQ "datapath"
          (lds.map (fun ld => ovsdb_datum.uuid ld.datapath.uuid)) c.pb
        lf := add_clauses ovsdb_function.OVSDB_F_EQ "logical_datapath"
          (lds.map (fun ld => ovsdb_datum.uuid ld.datapath.uuid)) c.lf
        mb := add_clauses ovsdb_function.OVSDB_F_EQ "datapath"
          (lds.map (fun ld => ovsdb_datum.uuid ld.datapath.uuid)) c.mb
        fdb := add_clauses ovsdb_function.OVSDB_F_EQ "dp_key"
          (lds.map (fun ld => ovsdb_datum.integer ld.datapath.tunnel_key)) c.fdb
        mg := add_clauses ovsdb_function.OVSDB_F_EQ "datapath"
          (lds.map (fun ld => ovsdb_datum.uuid ld.datapath.uuid)) c.mg
        dns := add_clauses ovsdb_function.OVSDB_F_INCLUDES "datapaths"
          (lds.map (fun ld => ovsdb_datum.uuid_set [ld.datapath.uuid])) c.dns
        ip_mcast := add_clauses ovsdb_function.OVSDB_F_EQ "datapath"
          (lds.map (fun ld => ovsdb_datum.uuid ld.datapath.uuid)) c.ip_mcast
        nh := add_clauses ovsdb_function.OVSDB_F_EQ "datapath"
          (lds.map (fun ld => ovsdb_datum.uuid ld.datapath.uuid)) c.nh
        ar := add_clauses ovsdb_function.OVSDB_F_EQ "datapath"
          (lds.map (fun ld => ovsdb_datum.uuid ld.datapath.uuid)) c.ar
        amb := add_clauses ovsdb_function.OVSDB_F_EQ "datapath"
          (lds.map (fun ld => ovsdb_datum.uuid ld.datapath.uuid)) c.amb } := by
  induction lds generalizing c with
  | nil => rfl
  | cons ld lds ih =>
    rw [List.foldl_cons, ih]
    simp [monitor_local_datapath, add_clauses]

/-- The loop over the local interfaces leaves `is_true` as it was. -/
theorem foldl_monitor_local_iface_is_true {σ β : Type} (ops : sb_monitor_ops σ β)
    (chassis : Option sbrec_chassis) (b : β) (ifaces : List (String × Nat))
    (pb : ovsdb_idl_condition) :
    (ifaces.foldl (monitor_local_iface ops chassis b) pb).is_true = pb.is_true := by
  induction ifaces generalizing pb with
  | nil => rfl
  | cons n ns ih =>
    rw [List.foldl_cons, ih]
    simp only [monitor_local_iface]
    split
    · split
      · rfl
      · exact add_clause_is_true _ _ _ _ (by decide)
    · exact add_clause_is_true _ _ _ _ (by decide)

/-- The loop over the local interfaces keeps the clauses that were there. -/
theorem foldl_monitor_local_iface_mem {σ β : Type} (ops : sb_monitor_ops σ β)
    (chassis : Option sbrec_chassis) (b : β) (ifaces : List (String × Nat))
    (pb : ovsdb_idl_condition) (x : ovsdb_idl_clause) (hx : x ∈ pb.clauses) :
    x ∈ (ifaces.foldl (monitor_local_iface ops chassis b) pb).clauses := by
  induction ifaces generalizing pb with
  | nil => exact hx
  | cons n ns ih =>
    rw [List.foldl_cons]
    apply ih
    simp only [monitor_local_iface]
    split
    · split
      · exact hx
      · exact mem_add_clause_of_mem _ _ _ _ (by decide) x hx
    · exact mem_add_clause_of_mem _ _ _ _ (by decide) x hx

/-- The loop over the local interfaces only adds clauses on `logical_port`. -/
theorem foldl_monitor_local_iface_cases {σ β : Type} (ops : sb_monitor_ops σ β)
    (chassis : Option sbrec_chassis) (b : β) (ifaces : List (String × Nat))
    (pb : ovsdb_idl_condition) (x : ovsdb_idl_clause)
    (hx : x ∈ (ifaces.foldl (monitor_local_iface ops chassis b) pb).clauses) :
    x ∈ pb.clauses ∨ x.column = "logical_port" := by
  induction ifaces generalizing pb with
  | nil => exact Or.inl hx
  | cons n ns ih =>
    rw [List.foldl_cons] at hx
    rcases ih _ hx with h | h
    · simp only [monitor_local_iface] at h
      split at h
      · split at h
        · exact Or.inl h
        · rcases mem_add_clause_cases _ _ _ _ (by decide) x h with h1 | h1
          · exact Or.inl h1
          · exact Or.inr (by rw [h1])
      · rcases mem_add_clause_cases _ _ _ _ (by decide) x h with h1 | h1
        · exact Or.inl h1
        · exact Or.inr (by rw [h1])
    · exact Or.inr h

/-- C1: `en_sb_ro_run` returns EN_UPDATED exactly when the stored flag was
read-only and a southbound transaction is now available, EN_UNCHANGED in every
other case, and always leaves the flag equal to "no southbound transaction". -/
theorem en_sb_ro_run_spec (ctx : engine_context) (d : ed_type_sb_ro) :
    ((en_sb_ro_run ctx d).1 = engine_node_state.EN_UPDATED ↔
        (d.sb_readonly = true ∧ ctx.ovnsb_idl_txn.isSome = true)) ∧
    (en_sb_ro_run ctx d).1 =
        (if d.sb_readonly = true ∧ ctx.ovnsb_idl_txn.isSome = true
         then engine_node_state.EN_UPDATED else engine_node_state.EN_UNCHANGED) ∧
    (en_sb_ro_run ctx d).2.sb_readonly = !ctx.ovnsb_idl_txn.isSome := by
  obtain ⟨ro⟩ := d
  obtain ⟨ovs, sb⟩ := ctx
  cases ro <;> cases sb <;> simp [en_sb_ro_run]

/-- C2: after any history of calls (the static starting at 0), a call of
`get_nb_cfg` with differing sequence numbers returns the value returned by the
most recent call with equal sequence numbers (0 if none) and keeps the static;
a call with equal sequence numbers returns and remembers `SB_Global.nb_cfg` as
`uint64_t` (0 without a row), which is the column value itself when that is
not negative. -/
theorem get_nb_cfg_spec (hist : List nb_cfg_call) (c : nb_cfg_call) :
    get_nb_cfg (get_nb_cfg_static 0 hist) c.sb_global_table c.cond_seqno
        c.expected_cond_seqno =
      (if c.cond_seqno ≠ c.expected_cond_seqno then
        (last_acked_return 0 hist (get_nb_cfg_returns 0 hist), get_nb_cfg_static 0 hist)
      else
        ((match c.sb_global_table.head? with
          | some sb => to_uint64 sb.nb_cfg
          | none => 0),
         (match c.sb_global_table.head? with
          | some sb => to_uint64 sb.nb_cfg
          | none => 0))) ∧
    (∀ x : Int, 0 ≤ x → x < 2 ^ 63 → (to_uint64 x : Int) = x) := by
  refine ⟨?_, ?_⟩
  · rw [← get_nb_cfg_static_eq]
    unfold get_nb_cfg sbrec_sb_global_table_first
    by_cases h : c.cond_seqno = c.expected_cond_seqno <;> simp [h]
  · intro x h0 h1
    unfold to_uint64
    rw [Int.emod_eq_of_lt h0 (by omega)]
    exact Int.toNat_of_nonneg h0

/-- The block on the local interfaces, when its assertion holds, only changes
`pb`: `is_true` is kept, the clauses that were there stay, and the clauses
added are on `logical_port` or `parent_port`. -/
theorem monitor_local_ifaces_some {σ β : Type} (ops : sb_monitor_ops σ β)
    (chassis : Option sbrec_chassis) (local_ifaces : Option (List (String × Nat)))
    (local_bindings : Option β) (c : sb_conditions)
    (hb : local_ifaces.isSome = true → local_bindings.isSome = true) :
    ∃ pb : ovsdb_idl_condition,
      monitor_local_ifaces ops chassis local_ifaces local_bindings c = some { c with pb := pb } ∧
      pb.is_true = c.pb.is_true ∧
      (∀ x ∈ c.pb.clauses, x ∈ pb.clauses) ∧
      (∀ x ∈ pb.clauses,
        x ∈ c.pb.clauses ∨ x.column = "logical_port" ∨ x.column = "parent_port") := by
  cases local_ifaces with
  | none => exact ⟨c.pb, rfl, rfl, fun x hx => hx, fun x hx => Or.inl hx⟩
  | some ifaces =>
    cases local_bindings with
    | none => simp at hb
    | some b =>
      refine ⟨_, rfl, ?_, ?_, ?_⟩
      · rw [add_clause_is_true _ _ _ _ (by decide), foldl_monitor_local_iface_is_true]
      · intro x hx
        exact mem_add_clause_of_mem _ _ _ _ (by decide) x
          (foldl_monitor_local_iface_mem ops chassis b ifaces c.pb x hx)
      · intro x hx
        rcases mem_add_clause_cases _ _ _ _ (by decide) x hx with h | h
        · rcases foldl_monitor_local_iface_cases ops chassis b ifaces c.pb x h with h1 | h1
          · exact Or.inl h1
          · exact Or.inr (Or.inl h1)
        · exact Or.inr (Or.inr (by rw [h]))

/-- The block on the local datapaths, condition by condition. -/
theorem monitor_local_datapaths_fields (lds : Option (List local_datapath))
    (c : sb_conditions) :
    (monitor_local_datapaths lds c).pb = add_clauses ovsdb_function.OVSDB_F_EQ "datapath"
        ((lds.getD []).map (fun ld => ovsdb_datum.uuid ld.datapath.uuid)) c.pb ∧
    (monitor_local_datapaths lds c).mb = add_clauses ovsdb_function.OVSDB_F_EQ "datapath"
        ((lds.getD []).map (fun ld => ovsdb_datum.uuid ld.datapath.uuid)) c.mb ∧
    (monitor_local_datapaths lds c).mg = add_clauses ovsdb_function.OVSDB_F_EQ "datapath"
        ((lds.getD []).map (fun ld => ovsdb_datum.uuid ld.datapath.uuid)) c.mg ∧
    (monitor_local_datapaths lds c).ip_mcast = add_clauses ovsdb_function.OVSDB_F_EQ "datapath"
        ((lds.getD []).map (fun ld => ovsdb_datum.uuid ld.datapath.uuid)) c.ip_mcast ∧
    (monitor_local_datapaths lds c).nh = add_clauses ovsdb_function.OVSDB_F_EQ "datapath"
        ((lds.getD []).map (fun ld => ovsdb_datum.uuid ld.datapath.uuid)) c.nh ∧
    (monitor_local_datapaths lds c).ar = add_clauses ovsdb_function.OVSDB_F_EQ "datapath"
        ((lds.getD []).map (fun ld => ovsdb_datum.uuid ld.datapath.uuid)) c.ar ∧
    (monitor_local_datapaths lds c).amb = add_clauses ovsdb_function.OVSDB_F_EQ "datapath"
        ((lds.getD []).map (fun ld => ovsdb_datum.uuid ld.datapath.uuid)) c.amb ∧
    (monitor_local_datapaths lds c).fdb = add_clauses ovsdb_function.OVSDB_F_EQ "dp_key"
        ((lds.getD []).map (fun ld => ovsdb_datum.integer ld.datapath.tunnel_key)) c.fdb ∧
    (monitor_local_datapaths lds c).dns = add_clauses ovsdb_function.OVSDB_F_INCLUDES "datapaths"
        ((lds.getD []).map (fun ld => ovsdb_datum.uuid_set [ld.datapath.uuid])) c.dns ∧
    (monitor_local_datapaths lds c).lf =
        (if lds.isSome then
          ovsdb_idl_condition_add_clause
            (add_clauses ovsdb_function.OVSDB_F_EQ "logical_datapath"
              ((lds.getD []).map (fun ld => ovsdb_datum.uuid ld.datapath.uuid)) c.lf)
            ovsdb_function.OVSDB_F_NE "logical_dp_group" ovsdb_datum.empty
         else c.lf) ∧
    (monitor_local_datapaths lds c).ldpg = c.ldpg ∧
    (monitor_local_datapaths lds c).ce = c.ce ∧
    (monitor_local_datapaths lds c).igmp = c.igmp ∧
    (monitor_local_datapaths lds c).chprv = c.chprv ∧
    (monitor_local_datapaths lds c).tv = c.tv ∧
    (monitor_local_datapaths lds c).lr = c.lr := by
  cases lds with
  | none => simp [monitor_local_datapaths, add_clauses]
  | some l => simp [monitor_local_datapaths, foldl_monitor_local_datapath]

/-- Without `monitor_all`, and when the assertion on `local_bindings` holds,
the function reaches `out:` with conditions `c` built from those of the static
blocks (`monitor_chassis` after `monitor_port_types`): `pb` first gets clauses
on `logical_port` and `parent_port` (giving `pb1`), then every datapath-scoped
condition gets the clauses of the local datapaths. -/
theorem update_sb_monitors_conditions_selective {σ β : Type} (ops : sb_monitor_ops σ β)
    (chassis : Option sbrec_chassis) (local_ifaces : Option (List (String × Nat)))
    (local_bindings : Option β) (local_datapaths : Option (List local_datapath))
    (hb : local_ifaces.isSome = true → local_bindings.isSome = true) :
    ∃ (c : sb_conditions) (pb1 : ovsdb_idl_condition),
      update_sb_monitors_conditions ops chassis local_ifaces local_bindings
          local_datapaths false = some c ∧
      pb1.is_true = false ∧
      (∀ x ∈ (monitor_chassis chassis (monitor_port_types sb_conditions_init)).pb.clauses,
        x ∈ pb1.clauses) ∧
      (∀ x ∈ pb1.clauses,
        x ∈ (monitor_chassis chassis (monitor_port_types sb_conditions_init)).pb.clauses ∨
        x.column = "logical_port" ∨ x.column = "parent_port") ∧
      c.pb = add_clauses ovsdb_function.OVSDB_F_EQ "datapath"
        ((local_datapaths.getD []).map (fun ld => ovsdb_datum.uuid ld.datapath.uuid)) pb1 ∧
      c.mb = add_clauses ovsdb_function.OVSDB_F_EQ "datapath"
        ((local_datapaths.getD []).map (fun ld => ovsdb_datum.uuid ld.datapath.uuid))
        (monitor_chassis chassis (monitor_port_types sb_conditions_init)).mb ∧
      c.mg = add_clauses ovsdb_function.OVSDB_F_EQ "datapath"
        ((local_datapaths.getD []).map (fun ld => ovsdb_datum.uuid ld.datapath.uuid))
        (monitor_chassis chassis (monitor_port_types sb_conditions_init)).mg ∧
      c.ip_mcast = add_clauses ovsdb_function.OVSDB_F_EQ "datapath"
        ((local_datapaths.getD []).map (fun ld => ovsdb_datum.uuid ld.datapath.uuid))
        (monitor_chassis chassis (monitor_port_types sb_conditions_init)).ip_mcast ∧
      c.nh = add_clauses ovsdb_function.OVSDB_F_EQ "datapath"
        ((local_datapaths.getD []).map (fun ld => ovsdb_datum.uuid ld.datapath.uuid))
        (monitor_chassis chassis (monitor_port_types sb_conditions_init)).nh ∧
      c.ar = add_clauses ovsdb_function.OVSDB_F_EQ "datapath"
        ((local_datapaths.getD []).map (fun ld => ovsdb_datum.uuid ld.datapath.uuid))
        (monitor_chassis chassis (monitor_port_types sb_conditions_init)).ar ∧
      c.amb = add_clauses ovsdb_function.OVSDB_F_EQ "datapath"
        ((local_datapaths.getD []).map (fun ld => ovsdb_datum.uuid ld.datapath.uuid))
        (monitor_chassis chassis (monitor_port_types sb_conditions_init)).amb ∧
      c.fdb = add_clauses ovsdb_function.OVSDB_F_EQ "dp_key"
        ((local_datapaths.getD []).map (fun ld => ovsdb_datum.integer ld.datapath.tunnel_key))
        (monitor_chassis chassis (monitor_port_types sb_conditions_init)).fdb ∧
      c.dns = add_clauses ovsdb_function.OVSDB_F_INCLUDES "datapaths"
        ((local_datapaths.getD []).map (fun ld => ovsdb_datum.uuid_set [ld.datapath.uuid]))
        (monitor_chassis chassis (monitor_port_types sb_conditions_init)).dns ∧
      c.lf =
        (if local_datapaths.isSome then
          ovsdb_idl_condition_add_clause
            (add_clauses ovsdb_function.OVSDB_F_EQ "logical_datapath"
              ((local_datapaths.getD []).map (fun ld => ovsdb_datum.uuid ld.datapath.uuid))
              (monitor_chassis chassis (monitor_port_types sb_conditions_init)).lf)
            ovsdb_function.OVSDB_F_NE "logical_dp_group" ovsdb_datum.empty
         else (monitor_chassis chassis (monitor_port_types sb_conditions_init)).lf) ∧
      c.ldpg = (monitor_chassis chassis (monitor_port_types sb_conditions_init)).ldpg ∧
      c.ce = (monitor_chassis chassis (monitor_port_types sb_conditions_init)).ce ∧
      c.igmp = (monitor_chassis chassis (monitor_port_types sb_conditions_init)).igmp ∧
      c.chprv = (monitor_chassis chassis (monitor_port_types sb_conditions_init)).chprv ∧
      c.tv = (monitor_chassis chassis (monitor_port_types sb_conditions_init)).tv ∧
      c.lr = (monitor_chassis chassis (monitor_port_types sb_conditions_init)).lr := by
  obtain ⟨pb, h1, h2, h3, h4⟩ := monitor_local_ifaces_some ops chassis local_ifaces
    local_bindings (monitor_chassis chassis (monitor_port_types sb_conditions_init)) hb
  have hf := monitor_local_datapaths_fields local_datapaths
    { monitor_chassis chassis (monitor_port_types sb_conditions_init) with pb := pb }
  obtain ⟨f1, f2, f3, f4, f5, f6, f7, f8, f9, f10, f11, f12, f13, f14, f15, f16⟩ := hf
  refine ⟨monitor_local_datapaths local_datapaths
    { monitor_chassis chassis (monitor_port_types sb_conditions_init) with pb := pb }, pb,
    ?_, ?_, h3, h4, f1, f2, f3, f4, f5, f6, f7, f8, f9, f10, f11, f12, f13, f14, f15, f16⟩
  · simp only [update_sb_monitors_conditions, Bool.false_eq_true, if_false, h1]
  · rw [h2]
    cases chassis <;> rfl

/-- A clause that was not in a condition and is in it after the loop over the
local datapaths is the clause of one of them. -/
theorem mem_local_datapath_clauses (f : ovsdb_function) (col : String)
    (g : local_datapath → ovsdb_datum) (lds : List local_datapath)
    (cnd : ovsdb_idl_condition) (hf : f ≠ ovsdb_function.OVSDB_F_TRUE)
    (x : ovsdb_idl_clause) (h0 : x ∉ cnd.clauses)
    (hx : x ∈ (add_clauses f col (lds.map g) cnd).clauses) :
    ∃ d ∈ lds, x = { function := f, column := col, arg := g d } := by
  rcases mem_add_clauses_cases f col _ cnd hf x hx with h | ⟨a, ha, h⟩
  · exact absurd h h0
  · obtain ⟨d, hd, hda⟩ := List.mem_map.mp ha
    exact ⟨d, hd, by rw [h, hda]⟩

/-- The conditions of the datapath-scoped tables before the loop over the
local datapaths: empty, except `advertised_route` in startup mode. -/
theorem monitor_chassis_fields (chassis : Option sbrec_chassis) :
    (monitor_chassis chassis (monitor_port_types sb_conditions_init)).lf =
      OVSDB_IDL_CONDITION_INIT ∧
    (monitor_chassis chassis (monitor_port_types sb_conditions_init)).mb =
      OVSDB_IDL_CONDITION_INIT ∧
    (monitor_chassis chassis (monitor_port_types sb_conditions_init)).mg =
      OVSDB_IDL_CONDITION_INIT ∧
    (monitor_chassis chassis (monitor_port_types sb_conditions_init)).ip_mcast =
      OVSDB_IDL_CONDITION_INIT ∧
    (monitor_chassis chassis (monitor_port_types sb_conditions_init)).nh =
      OVSDB_IDL_CONDITION_INIT ∧
    (monitor_chassis chassis (monitor_port_types sb_conditions_init)).amb =
      OVSDB_IDL_CONDITION_INIT ∧
    (monitor_chassis chassis (monitor_port_types sb_conditions_init)).fdb =
      OVSDB_IDL_CONDITION_INIT ∧
    (monitor_chassis chassis (monitor_port_types sb_conditions_init)).dns =
      OVSDB_IDL_CONDITION_INIT ∧
    (monitor_chassis chassis (monitor_port_types sb_conditions_init)).ar =
      (if chassis.isSome then OVSDB_IDL_CONDITION_INIT
       else { clauses := [], is_true := true }) ∧
    (∀ x ∈ (monitor_chassis chassis (monitor_port_types sb_conditions_init)).pb.clauses,
      x.column ≠ "datapath") := by
  cases chassis with
  | none =>
    refine ⟨rfl, rfl, rfl, rfl, rfl, rfl, rfl, rfl, rfl, ?_⟩
    decide
  | some ch =>
    refine ⟨rfl, rfl, rfl, rfl, rfl, rfl, rfl, rfl, rfl, ?_⟩
    intro x hx
    simp [monitor_chassis, monitor_port_types, sb_conditions_init,
      ovsdb_idl_condition_add_clause, OVSDB_IDL_CONDITION_INIT] at hx
    rcases hx with h | h | h | h | h | h | h <;> (subst h; simp)

/-- C3: with `monitor_all = true`, whatever the chassis, local interfaces,
local bindings and local datapaths, `update_sb_monitors` returns, and the
condition it passes for each of the sixteen tables is the unconditional true
condition with no clause. -/
theorem update_sb_monitors_monitor_all {σ β : Type} (ops : sb_monitor_ops σ β) (idl : σ)
    (chassis : Option sbrec_chassis) (local_ifaces : Option (List (String × Nat)))
    (local_bindings : Option β) (local_datapaths : Option (List local_datapath)) :
    ∃ c : sb_conditions,
      update_sb_monitors_conditions ops chassis local_ifaces local_bindings
        local_datapaths true = some c ∧
      (sb_condition_requests c).map (fun r => r.1) =
        [sb_table.port_binding, sb_table.logical_flow, sb_table.logical_dp_group,
         sb_table.mac_binding, sb_table.fdb, sb_table.multicast_group, sb_table.dns,
         sb_table.controller_event, sb_table.ip_multicast, sb_table.igmp_group,
         sb_table.chassis_private, sb_table.chassis_template_var, sb_table.ecmp_nexthop,
         sb_table.advertised_route, sb_table.learned_route,
         sb_table.advertised_mac_binding] ∧
      (∀ r ∈ sb_condition_requests c,
        r.2.2 = ({ clauses := [], is_true := true } : ovsdb_idl_condition)) ∧
      (update_sb_monitors ops idl chassis local_ifaces local_bindings
        local_datapaths true).isSome = true := by
  refine ⟨monitor_all_tables sb_conditions_init, rfl, rfl, ?_, rfl⟩
  intro r hr
  simp only [sb_condition_requests, List.mem_cons, List.mem_singleton, List.not_mem_nil,
    or_false] at hr
  rcases hr with h | h | h | h | h | h | h | h | h | h | h | h | h | h | h | h <;>
    (subst h; rfl)

/-- C4: in startup mode (`chassis = NULL`, `monitor_all = false`) the
`chassis_private` and `advertised_route` conditions are the unconditional true
condition and `port_binding` has the clauses `type == "l2gateway"` and
`type == "l3gateway"` besides `"patch"`, `"chassisredirect"` and `"external"`;
with a chassis none of the startup clauses is added and `chassis_private` is
exactly `name == chassis name`. -/
theorem update_sb_monitors_startup {σ β : Type} (ops : sb_monitor_ops σ β)
    (local_ifaces : Option (List (String × Nat))) (local_bindings : Option β)
    (local_datapaths : Option (List local_datapath))
    (hb : local_ifaces.isSome = true → local_bindings.isSome = true) :
    (∃ c : sb_conditions,
      update_sb_monitors_conditions ops none local_ifaces local_bindings
        local_datapaths false = some c ∧
      c.chprv = { clauses := [], is_true := true } ∧
      c.ar = { clauses := [], is_true := true } ∧
      c.pb.is_true = false ∧
      ({ function := ovsdb_function.OVSDB_F_EQ, column := "type",
         arg := ovsdb_datum.string "l2gateway" } : ovsdb_idl_clause) ∈ c.pb.clauses ∧
      ({ function := ovsdb_function.OVSDB_F_EQ, column := "type",
         arg := ovsdb_datum.string "l3gateway" } : ovsdb_idl_clause) ∈ c.pb.clauses ∧
      ({ function := ovsdb_function.OVSDB_F_EQ, column := "type",
         arg := ovsdb_datum.string "patch" } : ovsdb_idl_clause) ∈ c.pb.clauses ∧
      ({ function := ovsdb_function.OVSDB_F_EQ, column := "type",
         arg := ovsdb_datum.string "chassisredirect" } : ovsdb_idl_clause) ∈ c.pb.clauses ∧
      ({ function := ovsdb_function.OVSDB_F_EQ, column := "type",
         arg := ovsdb_datum.string "external" } : ovsdb_idl_clause) ∈ c.pb.clauses) ∧
    (∀ ch : sbrec_chassis, ∃ c : sb_conditions,
      update_sb_monitors_conditions ops (some ch) local_ifaces local_bindings
        local_datapaths false = some c ∧
      ({ function := ovsdb_function.OVSDB_F_EQ, column := "type",
         arg := ovsdb_datum.string "l2gateway" } : ovsdb_idl_clause) ∉ c.pb.clauses ∧
      ({ function := ovsdb_function.OVSDB_F_EQ, column := "type",
         arg := ovsdb_datum.string "l3gateway" } : ovsdb_idl_clause) ∉ c.pb.clauses ∧
      c.ar.is_true = false ∧
      c.chprv = { clauses := [{ function := ovsdb_function.OVSDB_F_EQ, column := "name",
                                arg := ovsdb_datum.string ch.name }],
                  is_true := false }) := by
  constructor
  · obtain ⟨c, pb, heq, ht, hsub, -, hpb, -, -, -, -, har, -, -, -, -, -, -, -, hchprv, -, -⟩ :=
      update_sb_monitors_conditions_selective ops none local_ifaces local_bindings
        local_datapaths hb
    have key : ∀ x ∈ (monitor_chassis none (monitor_port_types sb_conditions_init)).pb.clauses,
        x ∈ c.pb.clauses := by
      intro x hx
      rw [hpb]
      exact mem_add_clauses_of_mem _ _ _ _ (by decide) x (hsub x hx)
    refine ⟨c, heq, ?_, ?_, ?_, key _ ?_, key _ ?_, key _ ?_, key _ ?_, key _ ?_⟩
    · rw [hchprv]; rfl
    · rw [har, add_clauses_of_is_true _ _ _ _ rfl]; rfl
    · rw [hpb, add_clauses_is_true _ _ _ _ (by decide)]
      exact ht
    all_goals decide
  · intro ch
    obtain ⟨c, pb, heq, -, -, horig, hpb, -, -, -, -, har, -, -, -, -, -, -, -, hchprv, -, -⟩ :=
      update_sb_monitors_conditions_selective ops (some ch) local_ifaces local_bindings
        local_datapaths hb
    have key : ∀ x : ovsdb_idl_clause, x.column = "type" →
        x.arg = ovsdb_datum.string "l2gateway" ∨ x.arg = ovsdb_datum.string "l3gateway" →
        x ∉ c.pb.clauses := by
      intro x hcol harg hx
      rw [hpb] at hx
      rcases mem_add_clauses_cases _ _ _ _ (by decide) x hx with h | ⟨a, -, h⟩
      · rcases horig x h with h1 | h1 | h1
        · simp [monitor_chassis, monitor_port_types, sb_conditions_init,
            ovsdb_idl_condition_add_clause, OVSDB_IDL_CONDITION_INIT] at h1
          rcases h1 with h1 | h1 | h1 | h1 | h1 | h1 | h1 <;>
            (subst h1; revert hcol harg; simp)
        · rw [hcol] at h1; revert h1; decide
        · rw [hcol] at h1; revert h1; decide
      · rw [h] at hcol; simp at hcol
    refine ⟨c, heq, key _ rfl (Or.inl rfl), key _ rfl (Or.inr rfl), ?_, ?_⟩
    · rw [har, add_clauses_is_true _ _ _ _ (by decide)]; rfl
    · rw [hchprv]
      simp [monitor_chassis, monitor_port_types, sb_conditions_init,
        ovsdb_idl_condition_add_clause, OVSDB_IDL_CONDITION_INIT]

/-- Witness for C4: startup with one unbound interface and one local datapath. -/
theorem update_sb_monitors_startup_witness :
    ((some [("vif1", 1)] : Option (List (String × Nat))).isSome = true →
      (some [] : Option (List sbrec_port_binding)).isSome = true) ∧
    ∃ c : sb_conditions,
      update_sb_monitors_conditions sample_sb_monitor_ops none (some [("vif1", 1)])
        (some []) (some [{ datapath := { uuid := 7, tunnel_key := 3 } }]) false = some c ∧
      c.chprv = { clauses := [], is_true := true } ∧
      c.ar = { clauses := [], is_true := true } :=
  ⟨fun _ => rfl,
   (update_sb_monitors_startup sample_sb_monitor_ops (some [("vif1", 1)]) (some [])
      (some [{ datapath := { uuid := 7, tunnel_key := 3 } }]) (fun _ => rfl)).1.imp
    (fun _ h => ⟨h.1, h.2.1, h.2.2.1⟩)⟩

/-- The datapath clauses of `update_sb_monitors` for any chassis argument: with
`monitor_all = false` and a local-datapaths map, for every local datapath `d`
of the map the conditions of `port_binding`, `logical_flow`, `mac_binding`,
`multicast_group`, `ip_multicast`, `ecmp_nexthop` and `advertised_mac_binding`
contain `datapath == uuid(d)`, `fdb` contains `dp_key == tunnel_key(d)` and
`dns` contains `datapaths includes uuid(d)`; `advertised_route` contains
`datapath == uuid(d)` when there is a chassis; and a datapath clause in any of
these conditions belongs to a datapath of the map. -/
theorem local_datapath_clauses_any_chassis {σ β : Type} (ops : sb_monitor_ops σ β)
    (chassis : Option sbrec_chassis) (local_ifaces : Option (List (String × Nat)))
    (local_bindings : Option β) (lds : List local_datapath)
    (hb : local_ifaces.isSome = true → local_bindings.isSome = true) :
    ∃ c : sb_conditions,
      update_sb_monitors_conditions ops chassis local_ifaces local_bindings
        (some lds) false = some c ∧
      (∀ d ∈ lds,
        ({ function := ovsdb_function.OVSDB_F_EQ, column := "datapath",
           arg := ovsdb_datum.uuid d.datapath.uuid } : ovsdb_idl_clause) ∈ c.pb.clauses ∧
        ({ function := ovsdb_function.OVSDB_F_EQ, column := "logical_datapath",
           arg := ovsdb_datum.uuid d.datapath.uuid } : ovsdb_idl_clause) ∈ c.lf.clauses ∧
        ({ function := ovsdb_function.OVSDB_F_EQ, column := "datapath",
           arg := ovsdb_datum.uuid d.datapath.uuid } : ovsdb_idl_clause) ∈ c.mb.clauses ∧
        ({ function := ovsdb_function.OVSDB_F_EQ, column := "datapath",
           arg := ovsdb_datum.uuid d.datapath.uuid } : ovsdb_idl_clause) ∈ c.mg.clauses ∧
        ({ function := ovsdb_function.OVSDB_F_EQ, column := "datapath",
           arg := ovsdb_datum.uuid d.datapath.uuid } : ovsdb_idl_clause) ∈ c.ip_mcast.clauses ∧
        ({ function := ovsdb_function.OVSDB_F_EQ, column := "datapath",
           arg := ovsdb_datum.uuid d.datapath.uuid } : ovsdb_idl_clause) ∈ c.nh.clauses ∧
        ({ function := ovsdb_function.OVSDB_F_EQ, column := "datapath",
           arg := ovsdb_datum.uuid d.datapath.uuid } : ovsdb_idl_clause) ∈ c.amb.clauses ∧
        ({ function := ovsdb_function.OVSDB_F_EQ, column := "dp_key",
           arg := ovsdb_datum.integer d.datapath.tunnel_key } : ovsdb_idl_clause) ∈
          c.fdb.clauses ∧
        ({ function := ovsdb_function.OVSDB_F_INCLUDES, column := "datapaths",
           arg := ovsdb_datum.uuid_set [d.datapath.uuid] } : ovsdb_idl_clause) ∈
          c.dns.clauses ∧
        (chassis.isSome = true →
          ({ function := ovsdb_function.OVSDB_F_EQ, column := "datapath",
             arg := ovsdb_datum.uuid d.datapath.uuid } : ovsdb_idl_clause) ∈ c.ar.clauses)) ∧
      (chassis = none → c.ar = { clauses := [], is_true := true }) ∧
      (∀ u : uuid,
        (({ function := ovsdb_function.OVSDB_F_EQ, column := "datapath",
            arg := ovsdb_datum.uuid u } : ovsdb_idl_clause) ∈
            c.pb.clauses ++ c.mb.clauses ++ c.mg.clauses ++ c.ip_mcast.clauses ++
              c.nh.clauses ++ c.ar.clauses ++ c.amb.clauses ∨
         ({ function := ovsdb_function.OVSDB_F_EQ, column := "logical_datapath",
            arg := ovsdb_datum.uuid u } : ovsdb_idl_clause) ∈ c.lf.clauses ∨
         ({ function := ovsdb_function.OVSDB_F_INCLUDES, column := "datapaths",
            arg := ovsdb_datum.uuid_set [u] } : ovsdb_idl_clause) ∈ c.dns.clauses) →
        ∃ d ∈ lds, d.datapath.uuid = u) ∧
      (∀ k : Int,
        ({ function := ovsdb_function.OVSDB_F_EQ, column := "dp_key",
           arg := ovsdb_datum.integer k } : ovsdb_idl_clause) ∈ c.fdb.clauses →
        ∃ d ∈ lds, d.datapath.tunnel_key = k) := by
  obtain ⟨c, pb, heq, ht, hsub, horig, hpb, hmb, hmg, hip, hnh, har, hamb, hfdb, hdns, hlf, -⟩ :=
    update_sb_monitors_conditions_selective ops chassis local_ifaces local_bindings
      (some lds) hb
  simp only [Option.getD_some] at hpb hmb hmg hip hnh har hamb hfdb hdns hlf
  simp only [Option.isSome_some, if_true] at hlf
  obtain ⟨slf, smb, smg, sip, snh, samb, sfdb, sdns, sar, spb⟩ := monitor_chassis_fields chassis
  rw [smb] at hmb
  rw [smg] at hmg
  rw [sip] at hip
  rw [snh] at hnh
  rw [samb] at hamb
  rw [sfdb] at hfdb
  rw [sdns] at hdns
  rw [slf] at hlf
  rw [sar] at har
  refine ⟨c, heq, ?_, ?_, ?_, ?_⟩
  · intro d hd
    have hu : ovsdb_datum.uuid d.datapath.uuid ∈
        lds.map (fun ld => ovsdb_datum.uuid ld.datapath.uuid) :=
      List.mem_map_of_mem (fun ld => ovsdb_datum.uuid ld.datapath.uuid) hd
    refine ⟨?_, ?_, ?_, ?_, ?_, ?_, ?_, ?_, ?_, ?_⟩
    · rw [hpb]
      exact mem_add_clauses_self _ _ _ _ (by decide) (by decide) ht _ hu
    · rw [hlf]
      exact mem_add_clause_of_mem _ _ _ _ (by decide) _
        (mem_add_clauses_self _ _ _ _ (by decide) (by decide) rfl _ hu)
    · rw [hmb]
      exact mem_add_clauses_self _ _ _ _ (by decide) (by decide) rfl _ hu
    · rw [hmg]
      exact mem_add_clauses_self _ _ _ _ (by decide) (by decide) rfl _ hu
    · rw [hip]
      exact mem_add_clauses_self _ _ _ _ (by decide) (by decide) rfl _ hu
    · rw [hnh]
      exact mem_add_clauses_self _ _ _ _ (by decide) (by decide) rfl _ hu
    · rw [hamb]
      exact mem_add_clauses_self _ _ _ _ (by decide) (by decide) rfl _ hu
    · rw [hfdb]
      exact mem_add_clauses_self _ _ _ _ (by decide) (by decide) rfl _
        (List.mem_map_of_mem (fun ld => ovsdb_datum.integer ld.datapath.tunnel_key) hd)
    · rw [hdns]
      exact mem_add_clauses_self _ _ _ _ (by decide) (by decide) rfl _
        (List.mem_map_of_mem (fun ld => ovsdb_datum.uuid_set [ld.datapath.uuid]) hd)
    · intro hc
      rw [har, hc]
      exact mem_add_clauses_self _ _ _ _ (by decide) (by decide) rfl _ hu
  · intro hc
    rw [har, hc]
    exact add_clauses_of_is_true _ _ _ _ rfl
  · intro u hu
    have fromInit : ∀ cnd : ovsdb_idl_condition, cnd.clauses = [] →
        ({ function := ovsdb_function.OVSDB_F_EQ, column := "datapath",
           arg := ovsdb_datum.uuid u } : ovsdb_idl_clause) ∈
          (add_clauses ovsdb_function.OVSDB_F_EQ "datapath"
            (lds.map (fun ld => ovsdb_datum.uuid ld.datapath.uuid)) cnd).clauses →
        ∃ d ∈ lds, d.datapath.uuid = u := by
      intro cnd hc hx
      obtain ⟨d, hd, he⟩ := mem_local_datapath_clauses _ _ _ lds cnd (by decide) _
        (by rw [hc]; exact List.not_mem_nil _) hx
      exact ⟨d, hd, by simp at he; exact he.symm⟩
    rcases hu with hu | hu | hu
    · simp only [List.mem_append] at hu
      rcases hu with (((((hu | hu) | hu) | hu) | hu) | hu) | hu
      · rw [hpb] at hu
        obtain ⟨d, hd, he⟩ := mem_local_datapath_clauses _ _ _ lds pb (by decide) _
          (by
            intro hin
            rcases horig _ hin with h1 | h1 | h1
            · exact spb _ h1 rfl
            · simp at h1
            · simp at h1) hu
        exact ⟨d, hd, by simp at he; exact he.symm⟩
      · rw [hmb] at hu; exact fromInit _ rfl hu
      · rw [hmg] at hu; exact fromInit _ rfl hu
      · rw [hip] at hu; exact fromInit _ rfl hu
      · rw [hnh] at hu; exact fromInit _ rfl hu
      · rw [har] at hu
        refine fromInit _ ?_ hu
        cases chassis <;> rfl
      · rw [hamb] at hu; exact fromInit _ rfl hu
    · rw [hlf] at hu
      rcases mem_add_clause_cases _ _ _ _ (by decide) _ hu with h | h
      · obtain ⟨d, hd, he⟩ := mem_local_datapath_clauses _ _ _ lds _ (by decide) _
          (by simp [OVSDB_IDL_CONDITION_INIT]) h
        exact ⟨d, hd, by simp at he; exact he.symm⟩
      · simp at h
    · rw [hdns] at hu
      obtain ⟨d, hd, he⟩ := mem_local_datapath_clauses _ _ _ lds _ (by decide) _
        (by simp [OVSDB_IDL_CONDITION_INIT]) hu
      exact ⟨d, hd, by simp at he; exact he.symm⟩
  · intro k hk
    rw [hfdb] at hk
    obtain ⟨d, hd, he⟩ := mem_local_datapath_clauses _ _ _ lds _ (by decide) _
      (by simp [OVSDB_IDL_CONDITION_INIT]) hk
    exact ⟨d, hd, by simp at he; exact he.symm⟩

/-- C5: `update_sb_monitors` with `monitor_all = false`, a local-datapaths map
and the chassis every call with a map passes: for every local datapath `d` of
the map the conditions of `port_binding`, `logical_flow`, `mac_binding`,
`multicast_group`, `ip_multicast`, `ecmp_nexthop`, `advertised_route` and
`advertised_mac_binding` contain `datapath == uuid(d)` (`logical_datapath` for
`logical_flow`), `fdb` contains `dp_key == tunnel_key(d)` and `dns` contains
`datapaths includes uuid(d)`; and a datapath clause in any of these conditions
belongs to a datapath of the map. -/
theorem update_sb_monitors_local_datapaths {σ β : Type} (ops : sb_monitor_ops σ β)
    (chassis : sbrec_chassis) (local_ifaces : Option (List (String × Nat)))
    (local_bindings : Option β) (lds : List local_datapath)
    (hb : local_ifaces.isSome = true → local_bindings.isSome = true) :
    ∃ c : sb_conditions,
      update_sb_monitors_conditions ops (some chassis) local_ifaces local_bindings
        (some lds) false = some c ∧
      (∀ d ∈ lds,
        ({ function := ovsdb_function.OVSDB_F_EQ, column := "datapath",
           arg := ovsdb_datum.uuid d.datapath.uuid } : ovsdb_idl_clause) ∈ c.pb.clauses ∧
        ({ function := ovsdb_function.OVSDB_F_EQ, column := "logical_datapath",
           arg := ovsdb_datum.uuid d.datapath.uuid } : ovsdb_idl_clause) ∈ c.lf.clauses ∧
        ({ function := ovsdb_function.OVSDB_F_EQ, column := "datapath",
           arg := ovsdb_datum.uuid d.datapath.uuid } : ovsdb_idl_clause) ∈ c.mb.clauses ∧
        ({ function := ovsdb_function.OVSDB_F_EQ, column := "datapath",
           arg := ovsdb_datum.uuid d.datapath.uuid } : ovsdb_idl_clause) ∈ c.mg.clauses ∧
        ({ function := ovsdb_function.OVSDB_F_EQ, column := "datapath",
           arg := ovsdb_datum.uuid d.datapath.uuid } : ovsdb_idl_clause) ∈ c.ip_mcast.clauses ∧
        ({ function := ovsdb_function.OVSDB_F_EQ, column := "datapath",
           arg := ovsdb_datum.uuid d.datapath.uuid } : ovsdb_idl_clause) ∈ c.nh.clauses ∧
        ({ function := ovsdb_function.OVSDB_F_EQ, column := "datapath",
           arg := ovsdb_datum.uuid d.datapath.uuid } : ovsdb_idl_clause) ∈ c.ar.clauses ∧
        ({ function := ovsdb_function.OVSDB_F_EQ, column := "datapath",
           arg := ovsdb_datum.uuid d.datapath.uuid } : ovsdb_idl_clause) ∈ c.amb.clauses ∧
        ({ function := ovsdb_function.OVSDB_F_EQ, column := "dp_key",
           arg := ovsdb_datum.integer d.datapath.tunnel_key } : ovsdb_idl_clause) ∈
          c.fdb.clauses ∧
        ({ function := ovsdb_function.OVSDB_F_INCLUDES, column := "datapaths",
           arg := ovsdb_datum.uuid_set [d.datapath.uuid] } : ovsdb_idl_clause) ∈
          c.dns.clauses) ∧
      (∀ u : uuid,
        (({ function := ovsdb_function.OVSDB_F_EQ, column := "datapath",
            arg := ovsdb_datum.uuid u } : ovsdb_idl_clause) ∈
            c.pb.clauses ++ c.mb.clauses ++ c.mg.clauses ++ c.ip_mcast.clauses ++
              c.nh.clauses ++ c.ar.clauses ++ c.amb.clauses ∨
         ({ function := ovsdb_function.OVSDB_F_EQ, column := "logical_datapath",
            arg := ovsdb_datum.uuid u } : ovsdb_idl_clause) ∈ c.lf.clauses ∨
         ({ function := ovsdb_function.OVSDB_F_INCLUDES, column := "datapaths",
            arg := ovsdb_datum.uuid_set [u] } : ovsdb_idl_clause) ∈ c.dns.clauses) →
        ∃ d ∈ lds, d.datapath.uuid = u) ∧
      (∀ k : Int,
        ({ function := ovsdb_function.OVSDB_F_EQ, column := "dp_key",
           arg := ovsdb_datum.integer k } : ovsdb_idl_clause) ∈ c.fdb.clauses →
        ∃ d ∈ lds, d.datapath.tunnel_key = k) := by
  obtain ⟨c, h1, h2, _, h4, h5⟩ :=
    local_datapath_clauses_any_chassis ops (some chassis) local_ifaces local_bindings lds hb
  refine ⟨c, h1, ?_, h4, h5⟩
  intro d hd
  obtain ⟨a1, a2, a3, a4, a5, a6, a7, a8, a9, a10⟩ := h2 d hd
  exact ⟨a1, a2, a3, a4, a5, a6, a10 rfl, a7, a8, a9⟩

/-- Witness for C5: a chassis, one interface that is not bound yet, and two
local datapaths. -/
theorem update_sb_monitors_local_datapaths_witness :
    ((some [("vif1", 1)] : Option (List (String × Nat))).isSome = true →
      (some [] : Option (List sbrec_port_binding)).isSome = true) ∧
    ∃ c : sb_conditions,
      update_sb_monitors_conditions sample_sb_monitor_ops
        (some { uuid := 1, name := "hv1" }) (some [("vif1", 1)]) (some [])
        (some [{ datapath := { uuid := 7, tunnel_key := 3 } },
               { datapath := { uuid := 8, tunnel_key := 4 } }]) false = some c ∧
      ({ function := ovsdb_function.OVSDB_F_EQ, column := "datapath",
         arg := ovsdb_datum.uuid 8 } : ovsdb_idl_clause) ∈ c.ar.clauses ∧
      ({ function := ovsdb_function.OVSDB_F_EQ, column := "dp_key",
         arg := ovsdb_datum.integer 4 } : ovsdb_idl_clause) ∈ c.fdb.clauses :=
  ⟨fun _ => rfl,
   (update_sb_monitors_local_datapaths sample_sb_monitor_ops
      { uuid := 1, name := "hv1" } (some [("vif1", 1)]) (some [])
      [{ datapath := { uuid := 7, tunnel_key := 3 } },
       { datapath := { uuid := 8, tunnel_key := 4 } }] (fun _ => rfl)).imp
    (fun _ h =>
      ⟨h.1, (h.2.1 { datapath := { uuid := 8, tunnel_key := 4 } } (by simp)).2.2.2.2.2.2.1,
        (h.2.1 { datapath := { uuid := 8, tunnel_key := 4 } } (by simp)).2.2.2.2.2.2.2.2.1⟩)⟩

/-- C6: with `monitor_all = false` the `port_binding` condition contains
`type == "patch"`, `type == "chassisredirect"` and `type == "external"`, and
with a chassis it also contains `chassis == uuid(chassis)` and
`requested_chassis == uuid(chassis)`, while `controller_event` and `igmp_group`
contain `chassis == uuid(chassis)`. -/
theorem update_sb_monitors_chassis_clauses {σ β : Type} (ops : sb_monitor_ops σ β)
    (chassis : Option sbrec_chassis) (local_ifaces : Option (List (String × Nat)))
    (local_bindings : Option β) (local_datapaths : Option (List local_datapath))
    (hb : local_ifaces.isSome = true → local_bindings.isSome = true) :
    ∃ c : sb_conditions,
      update_sb_monitors_conditions ops chassis local_ifaces local_bindings
        local_datapaths false = some c ∧
      ({ function := ovsdb_function.OVSDB_F_EQ, column := "type",
         arg := ovsdb_datum.string "patch" } : ovsdb_idl_clause) ∈ c.pb.clauses ∧
      ({ function := ovsdb_function.OVSDB_F_EQ, column := "type",
         arg := ovsdb_datum.string "chassisredirect" } : ovsdb_idl_clause) ∈ c.pb.clauses ∧
      ({ function := ovsdb_function.OVSDB_F_EQ, column := "type",
         arg := ovsdb_datum.string "external" } : ovsdb_idl_clause) ∈ c.pb.clauses ∧
      (∀ ch : sbrec_chassis, chassis = some ch →
        ({ function := ovsdb_function.OVSDB_F_EQ, column := "chassis",
           arg := ovsdb_datum.uuid ch.uuid } : ovsdb_idl_clause) ∈ c.pb.clauses ∧
        ({ function := ovsdb_function.OVSDB_F_EQ, column := "requested_chassis",
           arg := ovsdb_datum.uuid ch.uuid } : ovsdb_idl_clause) ∈ c.pb.clauses ∧
        ({ function := ovsdb_function.OVSDB_F_EQ, column := "chassis",
           arg := ovsdb_datum.uuid ch.uuid } : ovsdb_idl_clause) ∈ c.ce.clauses ∧
        ({ function := ovsdb_function.OVSDB_F_EQ, column := "chassis",
           arg := ovsdb_datum.uuid ch.uuid } : ovsdb_idl_clause) ∈ c.igmp.clauses) := by
  obtain ⟨c, pb, heq, -, hsub, -, hpb, -, -, -, -, -, -, -, -, -, -, hce, higmp, -⟩ :=
    update_sb_monitors_conditions_selective ops chassis local_ifaces local_bindings
      local_datapaths hb
  have key : ∀ x ∈ (monitor_chassis chassis (monitor_port_types sb_conditions_init)).pb.clauses,
      x ∈ c.pb.clauses := by
    intro x hx
    rw [hpb]
    exact mem_add_clauses_of_mem _ _ _ _ (by decide) x (hsub x hx)
  refine ⟨c, heq, key _ ?_, key _ ?_, key _ ?_, ?_⟩
  · cases chassis <;>
      simp [monitor_chassis, monitor_port_types, sb_conditions_init,
        ovsdb_idl_condition_add_clause, OVSDB_IDL_CONDITION_INIT]
  · cases chassis <;>
      simp [monitor_chassis, monitor_port_types, sb_conditions_init,
        ovsdb_idl_condition_add_clause, OVSDB_IDL_CONDITION_INIT]
  · cases chassis <;>
      simp [monitor_chassis, monitor_port_types, sb_conditions_init,
        ovsdb_idl_condition_add_clause, OVSDB_IDL_CONDITION_INIT]
  · intro ch hch
    subst hch
    refine ⟨key _ ?_, key _ ?_, ?_, ?_⟩
    · simp [monitor_chassis, monitor_port_types, sb_conditions_init,
        ovsdb_idl_condition_add_clause, OVSDB_IDL_CONDITION_INIT]
    · simp [monitor_chassis, monitor_port_types, sb_conditions_init,
        ovsdb_idl_condition_add_clause, OVSDB_IDL_CONDITION_INIT]
    · rw [hce]
      simp [monitor_chassis, monitor_port_types, sb_conditions_init,
        ovsdb_idl_condition_add_clause, OVSDB_IDL_CONDITION_INIT]
    · rw [higmp]
      simp [monitor_chassis, monitor_port_types, sb_conditions_init,
        ovsdb_idl_condition_add_clause, OVSDB_IDL_CONDITION_INIT]

/-- Witness for C6: a chassis with a bound VIF and one local datapath. -/
theorem update_sb_monitors_chassis_clauses_witness :
    ((some [("vif1", 1)] : Option (List (String × Nat))).isSome = true →
      (some [{ uuid := 20, logical_port := "vif1", type := "", parent_port := none,
               chassis := some { uuid := 1, name := "hv1" } }] :
        Option (List sbrec_port_binding)).isSome = true) ∧
    ∃ c : sb_conditions,
      update_sb_monitors_conditions sample_sb_monitor_ops
        (some { uuid := 1, name := "hv1" }) (some [("vif1", 1)])
        (some [{ uuid := 20, logical_port := "vif1", type := "", parent_port := none,
                 chassis := some { uuid := 1, name := "hv1" } }])
        (some [{ datapath := { uuid := 7, tunnel_key := 3 } }]) false = some c ∧
      ({ function := ovsdb_function.OVSDB_F_EQ, column := "type",
         arg := ovsdb_datum.string "patch" } : ovsdb_idl_clause) ∈ c.pb.clauses ∧
      ({ function := ovsdb_function.OVSDB_F_EQ, column := "chassis",
         arg := ovsdb_datum.uuid 1 } : ovsdb_idl_clause) ∈ c.igmp.clauses :=
  ⟨fun _ => rfl,
   (update_sb_monitors_chassis_clauses sample_sb_monitor_ops
      (some { uuid := 1, name := "hv1" }) (some [("vif1", 1)])
      (some [{ uuid := 20, logical_port := "vif1", type := "", parent_port := none,
               chassis := some { uuid := 1, name := "hv1" } }])
      (some [{ datapath := { uuid := 7, tunnel_key := 3 } }]) (fun _ => rfl)).imp
    (fun _ h => ⟨h.1, h.2.1, (h.2.2.2.2 { uuid := 1, name := "hv1" } rfl).2.2.2⟩)⟩

/-- The running maximum over `cond_seqnos`: it is at least the start value and
every element, and it is the start value or one of the elements. -/
theorem foldl_max_spec (l : List Nat) (init : Nat) :
    init ≤ l.foldl (fun acc s => max acc s) init ∧
    (∀ s ∈ l, s ≤ l.foldl (fun acc s => max acc s) init) ∧
    (l.foldl (fun acc s => max acc s) init ∈ l ∨
      l.foldl (fun acc s => max acc s) init = init) := by
  induction l generalizing init with
  | nil => simp
  | cons a as ih =>
    obtain ⟨h1, h2, h3⟩ := ih (max init a)
    simp only [List.foldl_cons, List.mem_cons]
    refine ⟨le_trans (le_max_left _ _) h1, ?_, ?_⟩
    · intro s hs
      rcases hs with hs | hs
      · subst hs; exact le_trans (le_max_right _ _) h1
      · exact h2 s hs
    · rcases h3 with h3 | h3
      · exact Or.inl (Or.inr h3)
      · rcases max_choice init a with hm | hm
        · exact Or.inr (by rw [h3, hm])
        · exact Or.inl (Or.inl (by rw [h3, hm]))

/-- Every entry of `cond_seqnos` is what the set-condition call of its table
returned on the IDL as it then was, or 0 for an optional table that the server
schema lacks; there is one entry per request. -/
theorem cond_seqnos_entries {σ β : Type} (ops : sb_monitor_ops σ β)
    (reqs : List (sb_table × Bool × ovsdb_idl_condition)) (idl : σ) :
    List.Forall₂
      (fun req s =>
        ∃ idl_i : σ,
          (req.2.1 = true ∧ ops.server_has_table idl_i req.1 = false ∧ s = 0) ∨
          ((req.2.1 = true → ops.server_has_table idl_i req.1 = true) ∧
            s = (ops.set_condition idl_i req.1 req.2.2).1))
      reqs (cond_seqnos ops idl reqs).1 := by
  induction reqs generalizing idl with
  | nil => exact List.Forall₂.nil
  | cons r rs ih =>
    obtain ⟨table, optional, cond⟩ := r
    simp only [cond_seqnos]
    refine List.Forall₂.cons ?_ (ih _)
    refine ⟨idl, ?_⟩
    cases optional with
    | false =>
      right
      exact ⟨by simp, by simp [sb_table_set_req_mon_condition]⟩
    | true =>
      by_cases hs : ops.server_has_table idl table = true
      · right
        exact ⟨fun _ => hs, by simp [sb_table_set_opt_mon_condition, hs]⟩
      · left
        simp only [Bool.not_eq_true] at hs
        exact ⟨rfl, hs, by simp [sb_table_set_opt_mon_condition, hs]⟩

/-- C7: `update_sb_monitors` returns the maximum of the sequence numbers of
its sixteen set-condition requests, an optional table missing from the server
schema counting 0: the value returned is at least every per-table number and
is one of them or 0. -/
theorem update_sb_monitors_expected_seqno {σ β : Type} (ops : sb_monitor_ops σ β) (idl : σ)
    (chassis : Option sbrec_chassis) (local_ifaces : Option (List (String × Nat)))
    (local_bindings : Option β) (local_datapaths : Option (List local_datapath))
    (monitor_all : Bool)
    (hb : monitor_all = false → local_ifaces.isSome = true → local_bindings.isSome = true) :
    ∃ (c : sb_conditions) (expected : Nat),
      update_sb_monitors_conditions ops chassis local_ifaces local_bindings
        local_datapaths monitor_all = some c ∧
      update_sb_monitors ops idl chassis local_ifaces local_bindings local_datapaths
        monitor_all = some (expected, (cond_seqnos ops idl (sb_condition_requests c)).2) ∧
      (cond_seqnos ops idl (sb_condition_requests c)).1.length = 16 ∧
      List.Forall₂
        (fun req s =>
          ∃ idl_i : σ,
            (req.2.1 = true ∧ ops.server_has_table idl_i req.1 = false ∧ s = 0) ∨
            ((req.2.1 = true → ops.server_has_table idl_i req.1 = true) ∧
              s = (ops.set_condition idl_i req.1 req.2.2).1))
        (sb_condition_requests c) (cond_seqnos ops idl (sb_condition_requests c)).1 ∧
      (∀ s ∈ (cond_seqnos ops idl (sb_condition_requests c)).1, s ≤ expected) ∧
      (expected ∈ (cond_seqnos ops idl (sb_condition_requests c)).1 ∨ expected = 0) := by
  have hc : ∃ c : sb_conditions,
      update_sb_monitors_conditions ops chassis local_ifaces local_bindings
        local_datapaths monitor_all = some c := by
    cases monitor_all with
    | true => exact ⟨_, rfl⟩
    | false =>
      obtain ⟨c, -, h, -⟩ := update_sb_monitors_conditions_selective ops chassis local_ifaces
        local_bindings local_datapaths (hb rfl)
      exact ⟨c, h⟩
  obtain ⟨c, hc⟩ := hc
  obtain ⟨-, h2, h3⟩ := foldl_max_spec (cond_seqnos ops idl (sb_condition_requests c)).1 0
  have hent := cond_seqnos_entries ops (sb_condition_requests c) idl
  refine ⟨c, _, hc, ?_, ?_, hent, h2, h3⟩
  · simp only [update_sb_monitors, hc]
  · rw [← List.Forall₂.length_eq hent]
    rfl

/-- Witness for C7: on the sample IDL, which starts at sequence number 0 and
lacks the `advertised_mac_binding` table, fifteen requests are acknowledged at
1 to 15 and the function returns 15. -/
theorem update_sb_monitors_expected_seqno_witness :
    (false = false → (none : Option (List (String × Nat))).isSome = true →
      (none : Option (List sbrec_port_binding)).isSome = true) ∧
    (∃ (c : sb_conditions) (expected : Nat),
      update_sb_monitors_conditions sample_sb_monitor_ops
        (some { uuid := 1, name := "hv1" }) none none
        (some [{ datapath := { uuid := 7, tunnel_key := 3 } }]) false = some c ∧
      update_sb_monitors sample_sb_monitor_ops 0 (some { uuid := 1, name := "hv1" }) none none
        (some [{ datapath := { uuid := 7, tunnel_key := 3 } }]) false =
          some (expected, (cond_seqnos sample_sb_monitor_ops 0 (sb_condition_requests c)).2) ∧
      (∀ s ∈ (cond_seqnos sample_sb_monitor_ops 0 (sb_condition_requests c)).1,
        s ≤ expected)) ∧
    update_sb_monitors sample_sb_monitor_ops 0 (some { uuid := 1, name := "hv1" }) none none
      (some [{ datapath := { uuid := 7, tunnel_key := 3 } }]) false = some (15, 15) :=
  ⟨fun _ h => h,
   (update_sb_monitors_expected_seqno sample_sb_monitor_ops 0
      (some { uuid := 1, name := "hv1" }) none none
      (some [{ datapath := { uuid := 7, tunnel_key := 3 } }]) false (fun _ h => h)).imp
    (fun _ h => h.imp (fun _ h2 => ⟨h2.1, h2.2.1, h2.2.2.2.2.1⟩)),
   rfl⟩

/-- C8: without an Open_vSwitch row `create_br_int` returns NULL and records
nothing in the transaction; with a row `cfg` it inserts one interface, one port
and one bridge, the bridge has the configured name (`"br-int"` when no name is
configured), `fail_mode` `"secure"`, `other_config` exactly
`disable-in-band=true` and `hwaddr`, one port with one internal interface of
the same name, and the `bridges` column of `cfg` becomes the previous list
followed by the new bridge. -/
theorem create_br_int_spec (txn : ovsdb_idl_txn) (cfg : ovsrec_open_vswitch)
    (rest : List ovsrec_open_vswitch) (chassis_id : String) (br_hwaddr : eth_addr) :
    create_br_int txn [] chassis_id br_hwaddr = (none, txn, []) ∧
    ∃ (bridge : ovsrec_bridge) (port : ovsrec_port) (iface : ovsrec_interface)
      (txn1 : ovsdb_idl_txn),
      create_br_int txn (cfg :: rest) chassis_id br_hwaddr =
        (some bridge, txn1, { cfg with bridges := cfg.bridges ++ [bridge] } :: rest) ∧
      (cfg.bridges ++ [bridge]).length = cfg.bridges.length + 1 ∧
      bridge.name = br_int_name (cfg :: rest) chassis_id ∧
      (smap_get cfg.external_ids ("ovn-bridge-" ++ chassis_id) = none →
        smap_get cfg.external_ids "ovn-bridge" = none → bridge.name = "br-int") ∧
      (∀ v, smap_get cfg.external_ids ("ovn-bridge-" ++ chassis_id) = none →
        smap_get cfg.external_ids "ovn-bridge" = some v → bridge.name = v) ∧
      bridge.fail_mode = some "secure" ∧
      bridge.other_config =
        [("disable-in-band", "true"), ("hwaddr", eth_addr_format br_hwaddr)] ∧
      bridge.ports = [port] ∧
      port.name = bridge.name ∧
      port.interfaces = [iface] ∧
      iface.name = bridge.name ∧
      iface.type = "internal" ∧
      (txn1.ops.filter (fun op =>
          match op with
          | ovsdb_idl_txn_op.insert _ _ => true
          | _ => false)) =
        (txn.ops.filter (fun op =>
          match op with
          | ovsdb_idl_txn_op.insert _ _ => true
          | _ => false)) ++
        [ovsdb_idl_txn_op.insert "Interface" iface.uuid,
         ovsdb_idl_txn_op.insert "Port" port.uuid,
         ovsdb_idl_txn_op.insert "Bridge" bridge.uuid] ∧
      ovsdb_idl_txn_op.write "Open_vSwitch" cfg.uuid "bridges"
        (ovsdb_datum.uuid_set ((cfg.bridges ++ [bridge]).map (fun b => b.uuid))) ∈ txn1.ops := by
  refine ⟨rfl, _, _, _, _, rfl, by simp, rfl, ?_, ?_, rfl, rfl, rfl, rfl, rfl, rfl, rfl, ?_, ?_⟩
  · intro h1 h2
    simp [br_int_name, ovsrec_open_vswitch_table_first, get_chassis_external_id_value,
      smap_get_def, h1, h2, DEFAULT_BRIDGE_NAME]
  · intro v h1 h2
    simp [br_int_name, ovsrec_open_vswitch_table_first, get_chassis_external_id_value,
      smap_get_def, h1, h2]
  · simp [ovsdb_idl_txn_record, ovsdb_idl_txn_insert, List.filter_append]
  · simp [ovsdb_idl_txn_record, ovsdb_idl_txn_insert]

/-- Distinct keys within 0..254 are at most 255, and 255 of them are all of
0..254. -/
theorem flow_table_keys_cover (keys : List Int) (hnd : keys.Nodup)
    (hr : ∀ k ∈ keys, 0 ≤ k ∧ k ≤ 254) :
    keys.length ≤ 255 ∧
    (keys.length = 255 → ∀ i : Int, 0 ≤ i → i ≤ 254 → i ∈ keys) := by
  have hsub : keys.toFinset ⊆ Finset.Icc (0 : Int) 254 := by
    intro k hk
    rw [List.mem_toFinset] at hk
    exact Finset.mem_Icc.mpr (hr k hk)
  have hcard : keys.toFinset.card = keys.length := List.toFinset_card_of_nodup hnd
  have hIcc : (Finset.Icc (0 : Int) 254).card = 255 := by
    rw [Int.card_Icc]; rfl
  constructor
  · rw [← hcard, ← hIcc]
    exact Finset.card_le_card hsub
  · intro hlen i h0 h1
    have hall : keys.toFinset = Finset.Icc (0 : Int) 254 :=
      Finset.eq_of_subset_of_card_le hsub (by rw [hIcc, hcard, hlen])
    have hi : i ∈ Finset.Icc (0 : Int) 254 := Finset.mem_Icc.mpr ⟨h0, h1⟩
    rw [← hall] at hi
    exact List.mem_toFinset.mp hi

/-- The scan loop ends between its start index and the number of rows. -/
theorem flow_tables_scan_bounds (v0 : ovsrec_flow_table) (vs : List ovsrec_flow_table)
    (i : Nat) :
    i ≤ flow_tables_scan v0 vs i ∧ flow_tables_scan v0 vs i ≤ i + vs.length := by
  induction vs generalizing i with
  | nil => simp [flow_tables_scan]
  | cons v vs ih =>
    simp only [flow_tables_scan, List.length_cons]
    split
    · omega
    · have := ih (i + 1)
      omega

/-- The scan loop runs to the end only if every row is the first row. -/
theorem flow_tables_scan_all (v0 : ovsrec_flow_table) (vs : List ovsrec_flow_table)
    (i : Nat) (h : flow_tables_scan v0 vs i = i + vs.length) :
    ∀ v ∈ vs, v.uuid = v0.uuid := by
  induction vs generalizing i with
  | nil => intro v hv; cases hv
  | cons w ws ih =>
    simp only [flow_tables_scan, List.length_cons] at h
    split at h
    · omega
    · rename_i hw
      intro v hv
      rcases List.mem_cons.mp hv with hv | hv
      · subst hv
        simpa using hw
      · exact ih (i + 1) (by omega) v hv

/-- The branch that replaces `flow_tables`, followed by the write of the
prefixes: the three calls recorded and the 255 entries of the bridge. -/
theorem flow_tables_replace_set_prefixes (txn : ovsdb_idl_txn) (br_int : ovsrec_bridge)
    (written : List String) :
    (flow_table_set_prefixes (flow_tables_replace txn br_int).2.1
        (flow_tables_replace txn br_int).2.2 (flow_tables_replace txn br_int).1 written).1.ops =
      txn.ops ++
        [ovsdb_idl_txn_op.insert "Flow_Table" (txn.uuid_generate txn.n_inserted),
         ovsdb_idl_txn_op.write "Bridge" br_int.uuid "flow_tables"
           (ovsdb_datum.int_uuid_map
             ((List.range 255).map (fun i : Nat => ((i : Int), txn.uuid_generate txn.n_inserted)))),
         ovsdb_idl_txn_op.write "Flow_Table" (txn.uuid_generate txn.n_inserted) "prefixes"
           (ovsdb_datum.string_set written)] ∧
    (flow_table_set_prefixes (flow_tables_replace txn br_int).2.1
        (flow_tables_replace txn br_int).2.2 (flow_tables_replace txn br_int).1
        written).2.flow_tables =
      (List.range 255).map (fun i : Nat =>
        ((i : Int),
         ({ uuid := txn.uuid_generate txn.n_inserted, prefixes := written } :
           ovsrec_flow_table))) := by
  constructor
  · simp [flow_table_set_prefixes, flow_tables_replace, ovsdb_idl_txn_record,
      ovsdb_idl_txn_insert, N_FLOW_TABLES, Function.comp_def]
  · simp [flow_table_set_prefixes, flow_tables_replace, ovsdb_idl_txn_record,
      ovsdb_idl_txn_insert, N_FLOW_TABLES, Function.comp_def]

/-- When the scan finds the same row everywhere and the keys are distinct and
within 0..254, the bridge has 255 entries, all for the first row, one per
index. -/
theorem flow_tables_same_row_some (br_int : ovsrec_bridge) (v0 : ovsrec_flow_table)
    (hnd : (br_int.flow_tables.map (fun kv => kv.1)).Nodup)
    (hr : ∀ k ∈ br_int.flow_tables.map (fun kv => kv.1), 0 ≤ k ∧ k ≤ 254)
    (hs : flow_tables_same_row br_int = some v0) :
    br_int.flow_tables.length = 255 ∧
    (∀ kv ∈ br_int.flow_tables, kv.2.uuid = v0.uuid) ∧
    (∀ i : Int, 0 ≤ i → i ≤ 254 → ∃ row, (i, row) ∈ br_int.flow_tables) := by
  obtain ⟨hlen, hcover⟩ := flow_table_keys_cover _ hnd hr
  rw [List.length_map] at hlen hcover
  unfold flow_tables_same_row at hs
  cases hft : br_int.flow_tables with
  | nil => rw [hft] at hs; simp at hs
  | cons kv0 rest =>
    rw [hft] at hs hlen
    obtain ⟨k0, w0⟩ := kv0
    simp only [N_FLOW_TABLES] at hs
    split at hs
    · rename_i hscan
      have hv : w0 = v0 := Option.some.inj hs
      subst hv
      have hb := flow_tables_scan_bounds w0
        (rest.map (fun kv : Int × ovsrec_flow_table => kv.2)) 1
      rw [hscan, List.length_map] at hb
      simp only [List.length_cons] at hlen
      have hrl : rest.length = 254 := by omega
      have hall := flow_tables_scan_all w0
        (rest.map (fun kv : Int × ovsrec_flow_table => kv.2)) 1
        (by rw [hscan, List.length_map, hrl])
      have hlen255 : br_int.flow_tables.length = 255 := by
        rw [hft, List.length_cons, hrl]
      refine ⟨by rw [← hft]; exact hlen255, ?_, ?_⟩
      · intro kv hkv
        rcases List.mem_cons.mp hkv with h | h
        · rw [h]
        · exact hall kv.2 (List.mem_map_of_mem _ h)
      · intro i h0 h1
        have hi := hcover hlen255 i h0 h1
        obtain ⟨kv, hkv, hk⟩ := List.mem_map.mp hi
        rw [hft] at hkv
        exact ⟨kv.2, by rw [← hk]; exact hkv⟩
    · simp at hs

/-- C9: `update_flow_table_prefixes` either writes nothing, or writes the
first `min(server n_max, 4)` of `ip_src, ip_dst, ipv6_src, ipv6_dst` as the
prefixes of one Flow_Table row `ft` to which every table index 0..254 of the
bridge then maps: `ft` is the row all 255 entries of the bridge already pointed
to (keys distinct and within 0..254), or a freshly inserted row, and then
`flow_tables` is replaced by the 255 pairs `(i, ft)`. -/
theorem update_flow_table_prefixes_spec (txn : ovsdb_idl_txn) (idl_n_max : Nat)
    (server_type : Option Nat) (br_int : ovsrec_bridge)
    (hidl : flow_table_prefixes.length ≤ idl_n_max)
    (hnd : (br_int.flow_tables.map (fun kv => kv.1)).Nodup)
    (hr : ∀ k ∈ br_int.flow_tables.map (fun kv => kv.1), 0 ≤ k ∧ k ≤ 254) :
    ∃ (txn1 : ovsdb_idl_txn) (br1 : ovsrec_bridge),
      update_flow_table_prefixes txn idl_n_max server_type br_int = some (txn1, br1) ∧
      ((txn1 = txn ∧ br1 = br_int) ∨
       ∃ (ft : uuid) (n_max : Nat),
        server_type = some n_max ∧
        (∀ i : Int, 0 ≤ i → i ≤ 254 →
          ∃ row : ovsrec_flow_table, (i, row) ∈ br1.flow_tables ∧ row.uuid = ft ∧
            row.prefixes = ["ip_src", "ip_dst", "ipv6_src", "ipv6_dst"].take (min n_max 4)) ∧
        ((br_int.flow_tables.length = 255 ∧
          (∀ kv ∈ br_int.flow_tables, kv.2.uuid = ft) ∧
          txn1.ops = txn.ops ++
            [ovsdb_idl_txn_op.write "Flow_Table" ft "prefixes"
              (ovsdb_datum.string_set
                (["ip_src", "ip_dst", "ipv6_src", "ipv6_dst"].take (min n_max 4)))]) ∨
         (txn1.ops = txn.ops ++
            [ovsdb_idl_txn_op.insert "Flow_Table" ft,
             ovsdb_idl_txn_op.write "Bridge" br_int.uuid "flow_tables"
               (ovsdb_datum.int_uuid_map ((List.range 255).map (fun i : Nat => ((i : Int), ft)))),
             ovsdb_idl_txn_op.write "Flow_Table" ft "prefixes"
              (ovsdb_datum.string_set
                (["ip_src", "ip_dst", "ipv6_src", "ipv6_dst"].take (min n_max 4)))] ∧
          br1.flow_tables.map (fun kv => (kv.1, kv.2.uuid)) =
            (List.range 255).map (fun i : Nat => ((i : Int), ft))))) := by
  unfold update_flow_table_prefixes
  rw [if_pos hidl]
  cases server_type with
  | none => exact ⟨txn, br_int, rfl, Or.inl ⟨rfl, rfl⟩⟩
  | some n_max =>
    simp only []
    split
    · exact ⟨txn, br_int, rfl, Or.inl ⟨rfl, rfl⟩⟩
    · have hmin : flow_table_prefixes.take (min n_max flow_table_prefixes.length) =
          ["ip_src", "ip_dst", "ipv6_src", "ipv6_dst"].take (min n_max 4) := rfl
      rw [hmin]
      cases hs : flow_tables_same_row br_int with
      | some v0 =>
        dsimp only
        obtain ⟨hlen, hall, hcov⟩ := flow_tables_same_row_some br_int v0 hnd hr hs
        refine ⟨_, _, rfl, Or.inr ⟨v0.uuid, n_max, rfl, ?_, Or.inl ⟨hlen, hall, rfl⟩⟩⟩
        intro i h0 h1
        obtain ⟨row, hrow⟩ := hcov i h0 h1
        refine ⟨{ v0 with
          prefixes := (List.take (min n_max 4) ["ip_src", "ip_dst", "ipv6_src", "ipv6_dst"]) },
          ?_, rfl, rfl⟩
        simp only [flow_table_set_prefixes, List.mem_map]
        have hu : row.uuid = v0.uuid := hall (i, row) hrow
        exact ⟨(i, row), hrow, by simp only [hu, if_true]⟩
      | none =>
        dsimp only
        obtain ⟨h1, h2⟩ := flow_tables_replace_set_prefixes txn br_int
          (["ip_src", "ip_dst", "ipv6_src", "ipv6_dst"].take (min n_max 4))
        refine ⟨_, _, rfl, Or.inr ⟨txn.uuid_generate txn.n_inserted, n_max, rfl, ?_,
          Or.inr ⟨h1, ?_⟩⟩⟩
        · intro i h0 h3
          refine ⟨{ uuid := txn.uuid_generate txn.n_inserted,
                    prefixes :=
                      (List.take (min n_max 4) ["ip_src", "ip_dst", "ipv6_src", "ipv6_dst"]) },
            ?_, rfl, rfl⟩
          change _ ∈ (flow_table_set_prefixes (flow_tables_replace txn br_int).2.1
            (flow_tables_replace txn br_int).2.2 (flow_tables_replace txn br_int).1
            (List.take (min n_max 4) ["ip_src", "ip_dst", "ipv6_src", "ipv6_dst"])).2.flow_tables
          rw [h2, List.mem_map]
          refine ⟨i.toNat, List.mem_range.mpr (by omega), ?_⟩
          rw [Int.toNat_of_nonneg h0]
        · change List.map _ (flow_table_set_prefixes (flow_tables_replace txn br_int).2.1
            (flow_tables_replace txn br_int).2.2 (flow_tables_replace txn br_int).1
            (List.take (min n_max 4)
              ["ip_src", "ip_dst", "ipv6_src", "ipv6_dst"])).2.flow_tables = _
          rw [h2]
          simp [Function.comp_def]

/-- Witness for C9: a bridge whose 255 entries point to one row without
prefixes, and a server that allows three prefixes. -/
theorem update_flow_table_prefixes_spec_witness :
    (flow_table_prefixes.length ≤ 4 ∧
      (sample_bridge_255.flow_tables.map (fun kv => kv.1)).Nodup ∧
      ∀ k ∈ sample_bridge_255.flow_tables.map (fun kv => kv.1), 0 ≤ k ∧ k ≤ 254) ∧
    ∃ (txn1 : ovsdb_idl_txn) (br1 : ovsrec_bridge),
      update_flow_table_prefixes sample_ovs_txn 4 (some 3) sample_bridge_255 =
        some (txn1, br1) ∧
      ((txn1 = sample_ovs_txn ∧ br1 = sample_bridge_255) ∨
       ∃ (ft : uuid) (n_max : Nat),
        some 3 = some n_max ∧
        (∀ i : Int, 0 ≤ i → i ≤ 254 →
          ∃ row : ovsrec_flow_table, (i, row) ∈ br1.flow_tables ∧ row.uuid = ft ∧
            row.prefixes = ["ip_src", "ip_dst", "ipv6_src", "ipv6_dst"].take (min n_max 4))) := by
  have hnd : (sample_bridge_255.flow_tables.map (fun kv => kv.1)).Nodup := by
    simp only [sample_bridge_255, List.map_map]
    exact (List.nodup_range 255).map (fun a b h => by simpa using h)
  have hr : ∀ k ∈ sample_bridge_255.flow_tables.map (fun kv => kv.1), 0 ≤ k ∧ k ≤ 254 := by
    intro k hk
    simp only [sample_bridge_255, List.map_map, List.mem_map, List.mem_range,
      Function.comp_apply] at hk
    obtain ⟨a, ha, rfl⟩ := hk
    omega
  exact ⟨⟨by decide, hnd, hr⟩,
    (update_flow_table_prefixes_spec sample_ovs_txn 4 (some 3) sample_bridge_255 (by decide)
      hnd hr).imp
    (fun _ h => h.imp (fun _ h2 =>
      ⟨h2.1, h2.2.imp id (fun h3 => h3.imp (fun _ h4 => h4.imp (fun _ h5 => ⟨h5.1, h5.2.1⟩)))⟩))⟩

/-- The calls `update_flow_table_prefixes` records are added at the end of the
transaction, none of them writes a Bridge column other than `flow_tables`, and
the other columns of the bridge row are left as they were. -/
theorem update_flow_table_prefixes_ops (txn : ovsdb_idl_txn) (idl_n_max : Nat)
    (server_type : Option Nat) (br_int : ovsrec_bridge)
    (hidl : flow_table_prefixes.length ≤ idl_n_max) :
    ∃ (txn1 : ovsdb_idl_txn) (br1 : ovsrec_bridge) (extra : List ovsdb_idl_txn_op),
      update_flow_table_prefixes txn idl_n_max server_type br_int = some (txn1, br1) ∧
      txn1.ops = txn.ops ++ extra ∧
      (∀ op ∈ extra, ∀ (row : uuid) (col : String) (v : ovsdb_datum),
        op = ovsdb_idl_txn_op.write "Bridge" row col v → col = "flow_tables") ∧
      (∀ op ∈ extra, ∀ (table : String) (row : uuid),
        op = ovsdb_idl_txn_op.insert table row → table = "Flow_Table") ∧
      br1.uuid = br_int.uuid ∧ br1.name = br_int.name ∧
      br1.datapath_type = br_int.datapath_type ∧ br1.fail_mode = br_int.fail_mode := by
  unfold update_flow_table_prefixes
  rw [if_pos hidl]
  cases server_type with
  | none => exact ⟨txn, br_int, [], rfl, by simp, by simp, by simp, rfl, rfl, rfl, rfl⟩
  | some n_max =>
    simp only []
    split
    · exact ⟨txn, br_int, [], rfl, by simp, by simp, by simp, rfl, rfl, rfl, rfl⟩
    · cases hs : flow_tables_same_row br_int with
      | some v0 =>
        dsimp only
        refine ⟨_, _,
          [ovsdb_idl_txn_op.write "Flow_Table" v0.uuid "prefixes"
            (ovsdb_datum.string_set
              (flow_table_prefixes.take (min n_max flow_table_prefixes.length)))],
          rfl, rfl, ?_, ?_, rfl, rfl, rfl, rfl⟩
        · intro op hop row col v hv
          rw [List.mem_singleton] at hop
          rw [hop] at hv
          simp at hv
        · intro op hop table row hv
          rw [List.mem_singleton] at hop
          rw [hop] at hv
          simp at hv
      | none =>
        dsimp only
        obtain ⟨h1, -⟩ := flow_tables_replace_set_prefixes txn br_int
          (flow_table_prefixes.take (min n_max flow_table_prefixes.length))
        refine ⟨_, _, _, rfl, h1, ?_, ?_, rfl, rfl, rfl, rfl⟩
        · intro op hop row col v hv
          simp only [List.mem_cons, List.mem_singleton, List.not_mem_nil, or_false] at hop
          rcases hop with h | h | h
          · rw [h] at hv; simp at hv
          · rw [h] at hv; simp at hv; exact hv.2.1.symm
          · rw [h] at hv; simp at hv
        · intro op hop table row hv
          simp only [List.mem_cons, List.mem_singleton, List.not_mem_nil, or_false] at hop
          rcases hop with h | h | h
          · rw [h] at hv; simp at hv; exact hv.1.symm
          · rw [h] at hv; simp at hv
          · rw [h] at hv; simp at hv

/-- C10: without an OVS transaction `process_br_int` records nothing and
hands back the bridge it found, unchanged (none if there is none).  With a
transaction and an integration bridge `br`, the datapath type enforced is the
configured `ovn-bridge-datapath-type` if present, else the bridge's own
`datapath_type` if not empty, else `"system"`; `datapath_type` is written
exactly when it differs from that value, `fail_mode` is written, to
`"secure"`, exactly when it is unset or not `"secure"`, and no bridge is
inserted. -/
theorem process_br_int_spec (txn : ovsdb_idl_txn) (bridge_table : List ovsrec_bridge)
    (ovs_table : List ovsrec_open_vswitch) (want_dp : Bool) (chassis_id : String)
    (br_hwaddr : eth_addr) (idl_n_max : Nat) (server_type : Option Nat) (br : ovsrec_bridge)
    (hidl : flow_table_prefixes.length ≤ idl_n_max)
    (hbr : get_br_int bridge_table ovs_table chassis_id = some br) :
    (∀ (bt : List ovsrec_bridge) (ot : List ovsrec_open_vswitch),
      process_br_int none bt ot want_dp chassis_id br_hwaddr idl_n_max server_type =
        some { ovs_idl_txn := none, ovs_table := ot,
               br_int := get_br_int bt ot chassis_id, br_int_dp := none }) ∧
    ∃ (cfg : ovsrec_open_vswitch) (dt : String) (r : process_br_int_result)
      (txn1 : ovsdb_idl_txn) (br1 : ovsrec_bridge) (new : List ovsdb_idl_txn_op),
      ovsrec_open_vswitch_table_first ovs_table = some cfg ∧
      dt = (match get_chassis_external_id_value cfg.external_ids chassis_id
              "ovn-bridge-datapath-type" none with
            | some t => t
            | none => if br.datapath_type ≠ "" then br.datapath_type else "system") ∧
      process_br_int (some txn) bridge_table ovs_table want_dp chassis_id br_hwaddr
        idl_n_max server_type = some r ∧
      r.ovs_idl_txn = some txn1 ∧ r.br_int = some br1 ∧ r.ovs_table = ovs_table ∧
      txn1.ops = txn.ops ++ new ∧
      br1.uuid = br.uuid ∧ br1.datapath_type = dt ∧ br1.fail_mode = some "secure" ∧
      (∀ v : ovsdb_datum,
        ovsdb_idl_txn_op.write "Bridge" br.uuid "datapath_type" v ∈ new ↔
          (v = ovsdb_datum.string dt ∧ br.datapath_type ≠ dt)) ∧
      (∀ v : ovsdb_datum,
        ovsdb_idl_txn_op.write "Bridge" br.uuid "fail_mode" v ∈ new ↔
          (v = ovsdb_datum.string "secure" ∧ br.fail_mode ≠ some "secure")) ∧
      (∀ u : uuid, ovsdb_idl_txn_op.insert "Bridge" u ∉ new) := by
  have hres : ∀ (T T1 : ovsdb_idl_txn) (B B1 : ovsrec_bridge),
      update_flow_table_prefixes T idl_n_max server_type B = some (T1, B1) →
      ∃ extra : List ovsdb_idl_txn_op, T1.ops = T.ops ++ extra ∧
        (∀ (col : String) (v : ovsdb_datum), col ≠ "flow_tables" →
          ovsdb_idl_txn_op.write "Bridge" br.uuid col v ∉ extra) ∧
        (∀ u : uuid, ovsdb_idl_txn_op.insert "Bridge" u ∉ extra) ∧
        B1.uuid = B.uuid ∧ B1.datapath_type = B.datapath_type ∧ B1.fail_mode = B.fail_mode := by
    intro T T1 B B1 h
    obtain ⟨t, b, extra, he, h1, h2, h3, h4, -, h5, h6⟩ :=
      update_flow_table_prefixes_ops T idl_n_max server_type B hidl
    rw [he] at h
    obtain ⟨rfl, rfl⟩ := Prod.mk.inj (Option.some.inj h)
    refine ⟨extra, h1, ?_, ?_, h4, h5, h6⟩
    · intro col v hc hin
      exact hc (h2 _ hin _ _ _ rfl)
    · intro u hin
      have := h3 _ hin _ _ rfl
      revert this
      decide
  have hsome : ∀ (T : ovsdb_idl_txn) (B : ovsrec_bridge),
      update_flow_table_prefixes T idl_n_max server_type B ≠ none := by
    intro T B h
    obtain ⟨t, b, extra, he, -⟩ := update_flow_table_prefixes_ops T idl_n_max server_type B hidl
    rw [he] at h
    cases h
  constructor
  · intro bt ot
    rfl
  · cases hcfg : ovsrec_open_vswitch_table_first ovs_table with
    | none => simp [get_br_int, hcfg] at hbr
    | some cfg =>
      obtain ⟨dt, hdt⟩ : ∃ dt : String, dt =
          (match get_chassis_external_id_value cfg.external_ids chassis_id
              "ovn-bridge-datapath-type" none with
            | some t => t
            | none => if br.datapath_type ≠ "" then br.datapath_type else "system") := ⟨_, rfl⟩
      refine ⟨cfg, dt, ?_⟩
      simp only [process_br_int, hbr, hcfg, DEFAULT_DATAPATH, ← hdt]
      by_cases h1 : br.datapath_type = dt <;> by_cases h2 : br.fail_mode = some "secure" <;>
        cases want_dp <;> cases hdp : get_br_datapath cfg dt <;>
        simp only [h1, h2, ne_eq, not_true_eq_false, not_false_eq_true, if_true, if_false,
          Bool.false_eq_true] <;>
        split
      all_goals first
        | (rename_i heq; exact absurd heq (hsome _ _))
        | (rename_i x t b heq
           obtain ⟨extra, hops, hw, hi, hu, hd, hf⟩ := hres _ _ _ _ heq
           have hw1 := hw "datapath_type" 
           have hw2 := hw "fail_mode"
           refine ⟨_, t, b, t.ops.drop txn.ops.length, trivial, trivial, rfl, rfl, rfl, rfl, ?_⟩
           simp [hops, hu, hd, hf, hi, hw1, hw2, h1, h2, ovsdb_idl_txn_record, create_br_datapath,
             ovsdb_idl_txn_insert])

/-- Witness for C10: the sample bridge (fail mode `standalone`, no datapath
type) under a configuration that asks for `netdev`. -/
theorem process_br_int_spec_witness :
    (flow_table_prefixes.length ≤ 4 ∧
      get_br_int [sample_bridge] [sample_open_vswitch] "hv1" = some sample_bridge) ∧
    ∃ (cfg : ovsrec_open_vswitch) (dt : String) (r : process_br_int_result),
      ovsrec_open_vswitch_table_first [sample_open_vswitch] = some cfg ∧
      dt = (match get_chassis_external_id_value cfg.external_ids "hv1"
              "ovn-bridge-datapath-type" none with
            | some t => t
            | none =>
              if sample_bridge.datapath_type ≠ "" then sample_bridge.datapath_type
              else "system") ∧
      process_br_int (some sample_ovs_txn) [sample_bridge] [sample_open_vswitch] true "hv1"
        { ea0 := 2, ea1 := 0, ea2 := 0, ea3 := 0, ea4 := 0, ea5 := 1 } 4 (some 3) = some r :=
  ⟨⟨by decide, by decide⟩,
   (process_br_int_spec sample_ovs_txn [sample_bridge] [sample_open_vswitch] true "hv1"
      { ea0 := 2, ea1 := 0, ea2 := 0, ea3 := 0, ea4 := 0, ea5 := 1 } 4 (some 3) sample_bridge
      (by decide) (by decide)).2.imp
    (fun _ h => h.imp (fun _ h2 => h2.imp (fun _ h3 =>
      match h3 with
      | ⟨_, _, _, h4, h5, h6, _⟩ => ⟨h4, h5, h6⟩)))⟩

/-- A set built by `sset_add` has no duplicate, and its members are the
members it had and the strings added. -/
theorem foldl_sset_add_spec (l : List String) (acc : List String) (hacc : acc.Nodup) :
    (l.foldl sset_add acc).Nodup ∧ ∀ t, t ∈ l.foldl sset_add acc ↔ (t ∈ acc ∨ t ∈ l) := by
  induction l generalizing acc with
  | nil => simp [hacc]
  | cons a as ih =>
    have hn : (sset_add acc a).Nodup := by
      unfold sset_add
      split
      · exact hacc
      · rename_i h
        exact List.Nodup.append hacc (List.nodup_singleton a) (by simpa using h)
    obtain ⟨h1, h2⟩ := ih (sset_add acc a) hn
    refine ⟨h1, ?_⟩
    intro t
    rw [List.foldl_cons, h2]
    unfold sset_add
    split
    · rename_i h
      constructor
      · rintro (h3 | h3)
        · exact Or.inl h3
        · exact Or.inr (List.mem_cons_of_mem _ h3)
      · rintro (h3 | h3)
        · exact Or.inl h3
        · rcases List.mem_cons.mp h3 with h4 | h4
          · subst h4; exact Or.inl h
          · exact Or.inr h4
    · simp only [List.mem_append, List.mem_singleton, List.mem_cons]
      tauto

/-- The order `strcmp_le` is total. -/
theorem strcmp_le_total (a b : String) : strcmp_le a b ∨ strcmp_le b a :=
  le_total (string_bytes a) (string_bytes b)

/-- The order `strcmp_le` is transitive. -/
theorem strcmp_le_trans (a b c : String) (h1 : strcmp_le a b) (h2 : strcmp_le b c) :
    strcmp_le a c :=
  le_trans h1 h2

/-- `sset_sort` returns the members of the set, each once, in ascending order. -/
theorem sset_sort_spec (set : List String) :
    (sset_sort set).Perm set ∧ (sset_sort set).Sorted strcmp_le := by
  haveI : IsTotal String strcmp_le := ⟨strcmp_le_total⟩
  haveI : IsTrans String strcmp_le := ⟨strcmp_le_trans⟩
  exact ⟨List.perm_insertionSort _ _, List.sorted_insertionSort _ _⟩

/-- The search loop finds the default only where the array holds it, and
fails only if the array does not hold it. -/
theorem encap_ip_default_index_spec (d : String) (l : List String) (base : Nat) :
    (∀ i, encap_ip_default_index d l base = some i →
      base ≤ i ∧ l[i - base]? = some d) ∧
    (encap_ip_default_index d l base = none → d ∉ l) := by
  induction l generalizing base with
  | nil => simp [encap_ip_default_index]
  | cons a as ih =>
    obtain ⟨h1, h2⟩ := ih (base + 1)
    simp only [encap_ip_default_index]
    split
    · rename_i h
      subst h
      refine ⟨?_, by simp⟩
      intro i hi
      obtain rfl := Option.some.inj hi
      simp
    · rename_i h
      refine ⟨?_, ?_⟩
      · intro i hi
        obtain ⟨h3, h4⟩ := h1 i hi
        refine ⟨by omega, ?_⟩
        have : i - base = (i - (base + 1)) + 1 := by omega
        rw [this, List.getElem?_cons_succ]
        exact h4
      · intro hn
        have := h2 hn
        simp [h, this]

/-- Swapping the first element with the one at `i` permutes the array and puts
that element first. -/
theorem encap_ips_swap_spec (l : List String) (i : Nat) (d : String)
    (hi : l[i]? = some d) :
    (encap_ips_swap l i).Perm l ∧ (encap_ips_swap l i)[0]? = some d := by
  cases l with
  | nil => simp at hi
  | cons a as =>
    cases i with
    | zero =>
      simp only [List.getElem?_cons_zero, Option.some.injEq] at hi
      subst hi
      simp [encap_ips_swap]
    | succ j =>
      simp only [List.getElem?_cons_succ] at hi
      have hj : j < as.length := by
        rcases Nat.lt_or_ge j as.length with h | h
        · exact h
        · rw [List.getElem?_eq_none h] at hi; cases hi
      simp only [encap_ips_swap, List.getElem?_cons_zero, List.getElem?_cons_succ, hi,
        List.set_cons_zero, List.set_cons_succ]
      refine ⟨?_, by simp⟩
      have hset : as.set j a = as.take j ++ a :: as.drop (j + 1) := by
        rw [List.set_eq_take_append_cons_drop, if_pos hj]
      have has : as = as.take j ++ d :: as.drop (j + 1) := by
        have hd : as[j] = d := by
          rw [List.getElem?_eq_getElem hj] at hi
          exact Option.some.inj hi
        conv_lhs => rw [← List.take_append_drop j as]
        rw [List.drop_eq_getElem_cons hj, hd]
      rw [hset]
      conv_rhs => rw [has]
      have p1 : (d :: (as.take j ++ a :: as.drop (j + 1))).Perm
          (d :: a :: (as.take j ++ as.drop (j + 1))) :=
        List.Perm.cons d List.perm_middle
      have p2 : (a :: (as.take j ++ d :: as.drop (j + 1))).Perm
          (a :: d :: (as.take j ++ as.drop (j + 1))) :=
        List.Perm.cons a List.perm_middle
      exact p1.trans ((List.Perm.swap a d _).trans p2.symm)

/-- C11: with `ovn-encap-ip` configured, `parse_encap_ips` returns as
`n_encap_ips` the number of distinct comma-separated values and as array a
permutation of them; a configured `ovn-encap-ip-default` that is one of the
values is at index 0; without a default, or with a default that is not among
the values, the array is in ascending order. -/
theorem parse_encap_ips_spec (cfg : ovsrec_open_vswitch) (rest : List ovsrec_open_vswitch)
    (chassis_id : String) (encap_ips_str : String)
    (hstr : get_chassis_external_id_value cfg.external_ids chassis_id "ovn-encap-ip" none =
      some encap_ips_str) :
    ∃ encap_ips : List String,
      parse_encap_ips (cfg :: rest) chassis_id =
        some ((sset_from_delimited_string encap_ips_str ",").length, encap_ips) ∧
      (sset_from_delimited_string encap_ips_str ",").Nodup ∧
      (∀ t, t ∈ sset_from_delimited_string encap_ips_str "," ↔
        t ∈ strtok_tokens [','] encap_ips_str.data []) ∧
      encap_ips.Perm (sset_from_delimited_string encap_ips_str ",") ∧
      (∀ d, get_chassis_external_id_value cfg.external_ids chassis_id
            "ovn-encap-ip-default" none = some d →
          d ∈ strtok_tokens [','] encap_ips_str.data [] → encap_ips[0]? = some d) ∧
      ((get_chassis_external_id_value cfg.external_ids chassis_id
            "ovn-encap-ip-default" none = none ∨
        ∃ d, get_chassis_external_id_value cfg.external_ids chassis_id
            "ovn-encap-ip-default" none = some d ∧
          d ∉ strtok_tokens [','] encap_ips_str.data []) →
        encap_ips.Sorted strcmp_le) := by
  obtain ⟨hnd, hmem⟩ := foldl_sset_add_spec (strtok_tokens ",".data encap_ips_str.data []) []
    List.nodup_nil
  have hmem2 : ∀ t, t ∈ sset_from_delimited_string encap_ips_str "," ↔
      t ∈ strtok_tokens [','] encap_ips_str.data [] := by
    intro t
    have := hmem t
    simpa [sset_from_delimited_string] using this
  obtain ⟨hperm, hsorted⟩ := sset_sort_spec (sset_from_delimited_string encap_ips_str ",")
  have htake : (sset_sort (sset_from_delimited_string encap_ips_str ",")).take
      (sset_count (sset_from_delimited_string encap_ips_str ",")) =
      sset_sort (sset_from_delimited_string encap_ips_str ",") := by
    apply List.take_of_length_le
    rw [hperm.length_eq]
    exact le_refl _
  cases hdef : get_chassis_external_id_value cfg.external_ids chassis_id
      "ovn-encap-ip-default" none with
  | none =>
    simp only [parse_encap_ips, ovsrec_open_vswitch_table_first, List.head?_cons, hstr, htake,
      hdef]
    refine ⟨_, rfl, hnd, hmem2, hperm, ?_, fun _ => hsorted⟩
    intro d hd
    cases hd
  | some d =>
    cases hidx : encap_ip_default_index d
        (sset_sort (sset_from_delimited_string encap_ips_str ",")) 0 with
    | none =>
      have hnot := (encap_ip_default_index_spec d _ 0).2 hidx
      have hnot2 : d ∉ strtok_tokens [','] encap_ips_str.data [] := by
        intro h
        exact hnot (hperm.mem_iff.mpr ((hmem2 d).mpr h))
      simp only [parse_encap_ips, ovsrec_open_vswitch_table_first, List.head?_cons, hstr,
        htake, hdef, hidx]
      refine ⟨_, rfl, hnd, hmem2, hperm, ?_, fun _ => hsorted⟩
      intro d2 hd2 hin
      obtain rfl := Option.some.inj hd2
      exact absurd hin hnot2
    | some i =>
      obtain ⟨-, hget⟩ := (encap_ip_default_index_spec d _ 0).1 i hidx
      rw [Nat.sub_zero] at hget
      obtain ⟨hp, hhead⟩ := encap_ips_swap_spec _ i d hget
      have hin : d ∈ strtok_tokens [','] encap_ips_str.data [] := by
        have := List.getElem?_mem hget
        exact (hmem2 d).mp (hperm.mem_iff.mp this)
      simp only [parse_encap_ips, ovsrec_open_vswitch_table_first, List.head?_cons, hstr,
        htake, hdef, hidx]
      refine ⟨_, rfl, hnd, hmem2, hp.trans hperm, ?_, ?_⟩
      · intro d2 hd2 _
        obtain rfl := Option.some.inj hd2
        exact hhead
      · rintro (h | ⟨d2, hd2, hnin⟩)
        · cases h
        · obtain rfl := Option.some.inj hd2
          exact absurd hin hnin

/-- Witness for C11: three values, one repeated, with the larger one as
default. -/
theorem parse_encap_ips_spec_witness :
    get_chassis_external_id_value
        [("ovn-encap-ip", "10.0.0.2,10.0.0.1,10.0.0.2"), ("ovn-encap-ip-default", "10.0.0.2")]
        "hv1" "ovn-encap-ip" none = some "10.0.0.2,10.0.0.1,10.0.0.2" ∧
    (∃ encap_ips : List String,
      parse_encap_ips
        [{ uuid := 1,
           external_ids :=
             [("ovn-encap-ip", "10.0.0.2,10.0.0.1,10.0.0.2"),
              ("ovn-encap-ip-default", "10.0.0.2")],
           bridges := [], datapaths := [] }] "hv1" =
        some ((sset_from_delimited_string "10.0.0.2,10.0.0.1,10.0.0.2" ",").length,
          encap_ips) ∧
      encap_ips.Perm (sset_from_delimited_string "10.0.0.2,10.0.0.1,10.0.0.2" ",")) ∧
    parse_encap_ips
        [{ uuid := 1,
           external_ids :=
             [("ovn-encap-ip", "10.0.0.2,10.0.0.1,10.0.0.2"),
              ("ovn-encap-ip-default", "10.0.0.2")],
           bridges := [], datapaths := [] }] "hv1" = some (2, ["10.0.0.2", "10.0.0.1"]) :=
  ⟨by decide,
   (parse_encap_ips_spec
      { uuid := 1,
        external_ids :=
          [("ovn-encap-ip", "10.0.0.2,10.0.0.1,10.0.0.2"),
           ("ovn-encap-ip-default", "10.0.0.2")],
        bridges := [], datapaths := [] } [] "hv1" "10.0.0.2,10.0.0.1,10.0.0.2"
      (by decide)).imp (fun _ h => ⟨h.1, h.2.2.2.1⟩),
   by decide⟩

/-- C12: `check_northd_version` returns false exactly when
`ovn-match-northd-version` is enabled (an Open_vSwitch row exists and the
option reads true) and `SB_Global` has no row or its
`options:northd_internal_version` (the empty string when absent) differs from
the controller's version; so it returns true whenever the option is disabled
or there is no Open_vSwitch row. -/
theorem check_northd_version_ret (flag : Bool) (parse_bool : String → Bool → Bool)
    (chassis_id : String) (ovs_table : List ovsrec_open_vswitch)
    (sb_global_table : List sbrec_sb_global) (version : String) :
    ((check_northd_version flag parse_bool chassis_id ovs_table sb_global_table
        version).ret = false ↔
      ((∃ cfg, ovs_table.head? = some cfg ∧
          get_chassis_external_id_value_bool parse_bool cfg.external_ids chassis_id
            "ovn-match-northd-version" false = true) ∧
        (sb_global_table.head? = none ∨
          ∃ sb, sb_global_table.head? = some sb ∧
            (match smap_get sb.options "northd_internal_version" with
              | some v => v
              | none => "") ≠ version))) ∧
    (ovs_table.head? = none →
      (check_northd_version flag parse_bool chassis_id ovs_table sb_global_table
        version).ret = true) ∧
    (∀ cfg, ovs_table.head? = some cfg →
      get_chassis_external_id_value_bool parse_bool cfg.external_ids chassis_id
        "ovn-match-northd-version" false = false →
      (check_northd_version flag parse_bool chassis_id ovs_table sb_global_table
        version).ret = true) := by
  unfold check_northd_version ovsrec_open_vswitch_table_first sbrec_sb_global_table_first
  cases ho : ovs_table.head? with
  | none => simp
  | some cfg =>
    cases he : get_chassis_external_id_value_bool parse_bool cfg.external_ids chassis_id
        "ovn-match-northd-version" false with
    | false => simp [he]
    | true =>
      cases hs : sb_global_table.head? with
      | none => simp [he]
      | some sb =>
        cases hv : smap_get sb.options "northd_internal_version" with
        | none =>
          by_cases hver : "" = version <;> simp [he, smap_get_def, hv, hver]
        | some v =>
          by_cases hver : v = version <;> simp [he, smap_get_def, hv, hver]

/-- After a call the static `version_mismatch` is the negation of the value
returned. -/
theorem check_northd_version_mismatch_eq (flag : Bool) (parse_bool : String → Bool → Bool)
    (chassis_id : String) (ovs_table : List ovsrec_open_vswitch)
    (sb_global_table : List sbrec_sb_global) (version : String) :
    (check_northd_version flag parse_bool chassis_id ovs_table sb_global_table
        version).version_mismatch =
      !(check_northd_version flag parse_bool chassis_id ovs_table sb_global_table
        version).ret := by
  unfold check_northd_version ovsrec_open_vswitch_table_first sbrec_sb_global_table_first
  cases ho : ovs_table.head? with
  | none => simp
  | some cfg =>
    cases he : get_chassis_external_id_value_bool parse_bool cfg.external_ids chassis_id
        "ovn-match-northd-version" false with
    | false => simp [he]
    | true =>
      cases hs : sb_global_table.head? with
      | none => simp [he]
      | some sb =>
        cases hv : smap_get sb.options "northd_internal_version" with
        | none =>
          by_cases hver : "" = version <;> simp [he, smap_get_def, hv, hver]
        | some v =>
          by_cases hver : v = version <;> simp [he, smap_get_def, hv, hver]

/-- The static `version_mismatch` after a history of calls is the negation of
what the last call returned, and its initial value when there was no call. -/
theorem check_northd_version_static_eq (parse_bool : String → Bool → Bool)
    (chassis_id : String) (flag : Bool) (hist : List northd_version_call) :
    check_northd_version_static parse_bool chassis_id flag hist =
      (match (check_northd_version_results parse_bool chassis_id flag hist).getLast? with
       | some r => !r.ret
       | none => flag) := by
  induction hist generalizing flag with
  | nil => rfl
  | cons c cs ih =>
    simp only [check_northd_version_static, check_northd_version_results]
    rw [ih]
    cases hcs : check_northd_version_results parse_bool chassis_id
        (check_northd_version flag parse_bool chassis_id c.ovs_table c.sb_global_table
          c.version).version_mismatch cs with
    | nil =>
      simp only [List.getLast?_nil, List.getLast?_singleton]
      exact check_northd_version_mismatch_eq _ _ _ _ _ _
    | cons r rs =>
      rw [List.getLast?_cons_cons]
      cases hl : (r :: rs).getLast? with
      | none => simp at hl
      | some x => rfl

/-- C13: the flag `version_mismatch` after a call is true exactly when the call
returned false; a call requests force-recompute exactly when version matching
is enabled, the versions are equal and the flag was true on entry, and, the
flag starting false, that is exactly when the previous call returned false; a
call that finds matching disabled never requests it. -/
theorem check_northd_version_flag (parse_bool : String → Bool → Bool) (chassis_id : String)
    (flag : Bool) (hist : List northd_version_call) (c : northd_version_call) :
    (check_northd_version flag parse_bool chassis_id c.ovs_table c.sb_global_table
        c.version).version_mismatch =
      !(check_northd_version flag parse_bool chassis_id c.ovs_table c.sb_global_table
        c.version).ret ∧
    ((check_northd_version flag parse_bool chassis_id c.ovs_table c.sb_global_table
        c.version).force_recompute = true ↔
      ((∃ cfg, c.ovs_table.head? = some cfg ∧
          get_chassis_external_id_value_bool parse_bool cfg.external_ids chassis_id
            "ovn-match-northd-version" false = true) ∧
        (∃ sb, c.sb_global_table.head? = some sb ∧
            (match smap_get sb.options "northd_internal_version" with
              | some v => v
              | none => "") = c.version) ∧
        flag = true)) ∧
    ((check_northd_version (check_northd_version_static parse_bool chassis_id false hist)
        parse_bool chassis_id c.ovs_table c.sb_global_table c.version).force_recompute = true ↔
      ((check_northd_version (check_northd_version_static parse_bool chassis_id false hist)
          parse_bool chassis_id c.ovs_table c.sb_global_table c.version).ret = true ∧
        (∃ cfg, c.ovs_table.head? = some cfg ∧
          get_chassis_external_id_value_bool parse_bool cfg.external_ids chassis_id
            "ovn-match-northd-version" false = true) ∧
        ∃ r, (check_northd_version_results parse_bool chassis_id false hist).getLast? = some r ∧
          r.ret = false)) ∧
    ((∀ cfg, c.ovs_table.head? = some cfg →
        get_chassis_external_id_value_bool parse_bool cfg.external_ids chassis_id
          "ovn-match-northd-version" false = false) →
      (check_northd_version flag parse_bool chassis_id c.ovs_table c.sb_global_table
        c.version).force_recompute = false) := by
  have key : ∀ f : Bool,
      (check_northd_version f parse_bool chassis_id c.ovs_table c.sb_global_table
          c.version).version_mismatch =
        !(check_northd_version f parse_bool chassis_id c.ovs_table c.sb_global_table
          c.version).ret ∧
      ((check_northd_version f parse_bool chassis_id c.ovs_table c.sb_global_table
          c.version).force_recompute = true ↔
        ((∃ cfg, c.ovs_table.head? = some cfg ∧
            get_chassis_external_id_value_bool parse_bool cfg.external_ids chassis_id
              "ovn-match-northd-version" false = true) ∧
          (∃ sb, c.sb_global_table.head? = some sb ∧
              (match smap_get sb.options "northd_internal_version" with
                | some v => v
                | none => "") = c.version) ∧
          f = true)) ∧
      ((check_northd_version f parse_bool chassis_id c.ovs_table c.sb_global_table
          c.version).force_recompute = true →
        (check_northd_version f parse_bool chassis_id c.ovs_table c.sb_global_table
          c.version).ret = true) ∧
      ((check_northd_version f parse_bool chassis_id c.ovs_table c.sb_global_table
          c.version).ret = true →
        (∃ cfg, c.ovs_table.head? = some cfg ∧
            get_chassis_external_id_value_bool parse_bool cfg.external_ids chassis_id
              "ovn-match-northd-version" false = true) →
        (∃ sb, c.sb_global_table.head? = some sb ∧
              (match smap_get sb.options "northd_internal_version" with
                | some v => v
                | none => "") = c.version)) := by
    intro f
    unfold check_northd_version ovsrec_open_vswitch_table_first sbrec_sb_global_table_first
    cases ho : c.ovs_table.head? with
    | none => simp
    | some cfg =>
      cases he : get_chassis_external_id_value_bool parse_bool cfg.external_ids chassis_id
          "ovn-match-northd-version" false with
      | false => simp [he]
      | true =>
        cases hs : c.sb_global_table.head? with
        | none => simp [he]
        | some sb =>
          cases hv : smap_get sb.options "northd_internal_version" with
          | none =>
            by_cases hver : "" = c.version <;> simp [he, smap_get_def, hv, hver]
          | some v =>
            by_cases hver : v = c.version <;> simp [he, smap_get_def, hv, hver]
  obtain ⟨k1, k2, -, -⟩ := key flag
  refine ⟨k1, k2, ?_, ?_⟩
  · obtain ⟨-, j2, j3, j4⟩ := key (check_northd_version_static parse_bool chassis_id false hist)
    rw [check_northd_version_static_eq] at j2 j3 j4 ⊢
    constructor
    · intro h
      obtain ⟨h1, h2, h3⟩ := j2.mp h
      refine ⟨j3 h, h1, ?_⟩
      cases hl : (check_northd_version_results parse_bool chassis_id false hist).getLast? with
      | none => rw [hl] at h3; simp at h3
      | some r =>
        rw [hl] at h3
        exact ⟨r, rfl, by simpa using h3⟩
    · rintro ⟨h1, h2, r, hr, hr2⟩
      refine j2.mpr ⟨h2, j4 h1 h2, ?_⟩
      rw [hr]
      simp [hr2]
  · intro hdis
    cases hf : (check_northd_version flag parse_bool chassis_id c.ovs_table c.sb_global_table
        c.version).force_recompute with
    | false => rfl
    | true =>
      obtain ⟨⟨cfg, hc, he⟩, -⟩ := k2.mp hf
      rw [hdis cfg hc] at he
      cases he

/-- `smap_get_bool` of an absent key is the default. -/
theorem smap_get_bool_absent (m : smap) (key : String) (dflt : Bool)
    (h : smap_get m key = none) : smap_get_bool m key dflt = dflt := by
  unfold smap_get_bool
  simp only [smap_get_def, h]
  cases dflt
  · decide
  · decide

/-- C15: the handler of `SB_Global` changes leaves the four cached northd
options as a recompute on the same table does (false, false, false, true
without a row or without the key), and returns EN_HANDLED_UPDATED exactly
when one of the four values differs from the prior state, otherwise
EN_HANDLED_UNCHANGED. -/
theorem en_northd_options_handler_refines_run (n_opts : ed_type_northd_options)
    (sb_global_table : List sbrec_sb_global) :
    (en_northd_options_sb_sb_global_handler n_opts sb_global_table).2 =
      (en_northd_options_run n_opts sb_global_table).2 ∧
    ((en_northd_options_sb_sb_global_handler n_opts sb_global_table).1 =
        engine_input_handler_result.EN_HANDLED_UPDATED ↔
      ((en_northd_options_run n_opts sb_global_table).2.explicit_arp_ns_output ≠
          n_opts.explicit_arp_ns_output ∨
        (en_northd_options_run n_opts sb_global_table).2.always_tunnel ≠
          n_opts.always_tunnel ∨
        (en_northd_options_run n_opts sb_global_table).2.register_consolidation ≠
          n_opts.register_consolidation ∨
        (en_northd_options_run n_opts sb_global_table).2.enable_ch_nb_cfg_update ≠
          n_opts.enable_ch_nb_cfg_update)) ∧
    ((en_northd_options_sb_sb_global_handler n_opts sb_global_table).1 =
        engine_input_handler_result.EN_HANDLED_UPDATED ∨
      (en_northd_options_sb_sb_global_handler n_opts sb_global_table).1 =
        engine_input_handler_result.EN_HANDLED_UNCHANGED) ∧
    (sb_global_table = [] →
      (en_northd_options_run n_opts sb_global_table).2 =
        { explicit_arp_ns_output := false, always_tunnel := false,
          register_consolidation := false, enable_ch_nb_cfg_update := true }) ∧
    (∀ sb rest, sb_global_table = sb :: rest →
      (smap_get sb.options "arp_ns_explicit_output" = none →
        (en_northd_options_run n_opts sb_global_table).2.explicit_arp_ns_output = false) ∧
      (smap_get sb.options "always_tunnel" = none →
        (en_northd_options_run n_opts sb_global_table).2.always_tunnel = false) ∧
      (smap_get sb.options "register_consolidation" = none →
        (en_northd_options_run n_opts sb_global_table).2.register_consolidation = false) ∧
      (smap_get sb.options "enable_chassis_nb_cfg_update" = none →
        (en_northd_options_run n_opts sb_global_table).2.enable_ch_nb_cfg_update = true)) := by
  have main : ∀ x1 x2 x3 x4 : Bool, ∀ n : ed_type_northd_options,
      let h1 := if (x1 != n.explicit_arp_ns_output) = true then
          (({ n with explicit_arp_ns_output := x1 } : ed_type_northd_options),
            engine_input_handler_result.EN_HANDLED_UPDATED)
        else (n, engine_input_handler_result.EN_HANDLED_UNCHANGED)
      let h2 := if (x2 != h1.1.always_tunnel) = true then
          (({ h1.1 with always_tunnel := x2 } : ed_type_northd_options),
            engine_input_handler_result.EN_HANDLED_UPDATED)
        else (h1.1, h1.2)
      let h3 := if (x3 != h2.1.register_consolidation) = true then
          (({ h2.1 with register_consolidation := x3 } : ed_type_northd_options),
            engine_input_handler_result.EN_HANDLED_UPDATED)
        else (h2.1, h2.2)
      let h4 := if (x4 != h3.1.enable_ch_nb_cfg_update) = true then
          (({ h3.1 with enable_ch_nb_cfg_update := x4 } : ed_type_northd_options),
            engine_input_handler_result.EN_HANDLED_UPDATED)
        else (h3.1, h3.2)
      h4.1 = { explicit_arp_ns_output := x1, always_tunnel := x2,
               register_consolidation := x3, enable_ch_nb_cfg_update := x4 } ∧
      (h4.2 = engine_input_handler_result.EN_HANDLED_UPDATED ↔
        (x1 ≠ n.explicit_arp_ns_output ∨ x2 ≠ n.always_tunnel ∨
          x3 ≠ n.register_consolidation ∨ x4 ≠ n.enable_ch_nb_cfg_update)) ∧
      (h4.2 = engine_input_handler_result.EN_HANDLED_UPDATED ∨
        h4.2 = engine_input_handler_result.EN_HANDLED_UNCHANGED) := by
    intro x1 x2 x3 x4 n
    obtain ⟨a, b, c, d⟩ := n
    cases x1 <;> cases x2 <;> cases x3 <;> cases x4 <;> cases a <;> cases b <;> cases c <;>
      cases d <;> decide
  cases hsb : sb_global_table with
  | nil =>
    have m := main false false false true n_opts
    refine ⟨m.1, m.2.1, m.2.2, fun _ => rfl, ?_⟩
    intro sb rest h
    cases h
  | cons sb rest =>
    have m := main (smap_get_bool sb.options "arp_ns_explicit_output" false)
      (smap_get_bool sb.options "always_tunnel" false)
      (smap_get_bool sb.options "register_consolidation" false)
      (smap_get_bool sb.options "enable_chassis_nb_cfg_update" true) n_opts
    refine ⟨m.1, m.2.1, m.2.2, (fun h => by cases h), ?_⟩
    intro sb2 rest2 h
    obtain ⟨rfl, rfl⟩ := List.cons.inj h
    exact ⟨smap_get_bool_absent sb.options "arp_ns_explicit_output" false,
      smap_get_bool_absent sb.options "always_tunnel" false,
      smap_get_bool_absent sb.options "register_consolidation" false,
      smap_get_bool_absent sb.options "enable_chassis_nb_cfg_update" true⟩

/-! ## Connection-tracking zone handlers (C14) -/

theorem ct_zones_handle_tracked_unhandled {Z : Type} (ops : ct_zone_ops Z)
    (min_ct_zone max_ct_zone : Int) (tracked : List tracked_datapath) (st : Z × Int × Bool) :
    (ct_zones_handle_tracked ops min_ct_zone max_ct_zone tracked st).1 =
        engine_input_handler_result.EN_UNHANDLED ↔
      ∃ tdp ∈ tracked, tdp.tracked_type = en_tracked_resource_type.TRACKED_RESOURCE_NEW := by
  induction tracked generalizing st with
  | nil =>
    obtain ⟨ctx, scan_start, updated⟩ := st
    cases updated <;> simp [ct_zones_handle_tracked]
  | cons tdp rest ih =>
    by_cases h : tdp.tracked_type = en_tracked_resource_type.TRACKED_RESOURCE_NEW
    · simp [ct_zones_handle_tracked, h]
    · simp [ct_zones_handle_tracked, h, ih]

theorem ct_zones_datapath_binding_handler_unhandled {Z : Type} (ops : ct_zone_ops Z)
    (local_datapaths : List local_datapath) (rows : List (idl_tracked sbrec_datapath_binding))
    (ctx : Z)
    (h : ∃ dp ∈ rows, (get_local_datapath local_datapaths dp.row.tunnel_key).isSome = true ∧
      (dp.is_deleted = true ∨ dp.is_new = true)) :
    (ct_zones_datapath_binding_handler ops local_datapaths rows ctx).1 =
      engine_input_handler_result.EN_UNHANDLED := by
  induction rows generalizing ctx with
  | nil => simp at h
  | cons dp rest ih =>
    cases hl : get_local_datapath local_datapaths dp.row.tunnel_key with
    | none =>
      simp only [ct_zones_datapath_binding_handler, hl]
      apply ih
      obtain ⟨d, hd, hloc, hch⟩ := h
      rcases List.mem_cons.mp hd with rfl | hd
      · simp [hl] at hloc
      · exact ⟨d, hd, hloc, hch⟩
    | some local_dp =>
      simp only [ct_zones_datapath_binding_handler, hl]
      by_cases hdn : (dp.is_deleted || dp.is_new) = true
      · simp [hdn]
      · simp only [hdn, Bool.false_eq_true, if_false]
        by_cases hup : (ops.ct_zone_handle_dp_update ctx local_dp).1 = true
        · simp only [hup, Bool.not_true, Bool.false_eq_true, if_false]
          apply ih
          obtain ⟨d, hd, hloc, hch⟩ := h
          rcases List.mem_cons.mp hd with rfl | hd
          · exfalso; apply hdn; simpa using hch
          · exact ⟨d, hd, hloc, hch⟩
        · simp [hup]

/-- C14 (counterexample): the tracked set of the runtime data holds a datapath
whose tracked type is removed, and `ct_zones_runtime_data_handler` returns
`EN_HANDLED_UNCHANGED`, not `EN_UNHANDLED`. -/
theorem ct_zones_runtime_data_handler_removed_handled :
    (∃ tdp ∈ [({ dp := { uuid := 7, tunnel_key := 3 },
                 tracked_type := en_tracked_resource_type.TRACKED_RESOURCE_REMOVED,
                 lports := [] } : tracked_datapath)],
        tdp.tracked_type = en_tracked_resource_type.TRACKED_RESOURCE_REMOVED) ∧
      (ct_zones_runtime_data_handler sample_ct_zone_ops true
        [{ dp := { uuid := 7, tunnel_key := 3 },
           tracked_type := en_tracked_resource_type.TRACKED_RESOURCE_REMOVED,
           lports := [] }] 1 65535 0).1 = engine_input_handler_result.EN_HANDLED_UNCHANGED := by
  refine ⟨⟨_, List.mem_singleton.mpr rfl, rfl⟩, ?_⟩
  decide

/-- C14 (amended): `ct_zones_runtime_data_handler` returns `EN_UNHANDLED`
exactly when the runtime data carries no tracked data or its tracked set
holds a datapath whose tracked type is new; a removed tracked datapath alone
does not make it unhandled.  The fall-back for a removed datapath is in
`ct_zones_datapath_binding_handler`, which returns `EN_UNHANDLED` whenever a
tracked `Datapath_Binding` row of a local datapath is deleted or new. -/
theorem ct_zones_runtime_data_handler_unhandled {Z : Type} (ops : ct_zone_ops Z)
    (rt_tracked : Bool) (tracked_dp_bindings : List tracked_datapath)
    (min_ct_zone max_ct_zone : Int) (ctx : Z) (local_datapaths : List local_datapath)
    (rows : List (idl_tracked sbrec_datapath_binding)) :
    ((ct_zones_runtime_data_handler ops rt_tracked tracked_dp_bindings min_ct_zone max_ct_zone
        ctx).1 = engine_input_handler_result.EN_UNHANDLED ↔
      (rt_tracked = false ∨ ∃ tdp ∈ tracked_dp_bindings,
        tdp.tracked_type = en_tracked_resource_type.TRACKED_RESOURCE_NEW)) ∧
    ((∃ dp ∈ rows, (get_local_datapath local_datapaths dp.row.tunnel_key).isSome = true ∧
        (dp.is_deleted = true ∨ dp.is_new = true)) →
      (ct_zones_datapath_binding_handler ops local_datapaths rows ctx).1 =
        engine_input_handler_result.EN_UNHANDLED) := by
  refine ⟨?_, ct_zones_datapath_binding_handler_unhandled ops local_datapaths rows ctx⟩
  cases rt_tracked with
  | false => simp [ct_zones_runtime_data_handler]
  | true =>
    simp only [ct_zones_runtime_data_handler, Bool.not_true, Bool.false_eq_true, if_false,
      ct_zones_handle_tracked_unhandled]
    simp

/-! ## Template variables (C17, C18) -/

theorem foldl_sset_add_keys (m : smap) (acc : List String) :
    ∀ k, k ∈ m.foldl (fun d node => sset_add d node.1) acc ↔ (k ∈ acc ∨ k ∈ m.map Prod.fst) := by
  induction m generalizing acc with
  | nil => simp
  | cons a as ih =>
    intro k
    simp only [List.foldl_cons, ih, List.map_cons, List.mem_cons]
    unfold sset_add
    split
    · rename_i h
      constructor
      · rintro (h1 | h1)
        · exact Or.inl h1
        · exact Or.inr (Or.inr h1)
      · rintro (h1 | h1 | h1)
        · exact Or.inl h1
        · exact Or.inl (h1 ▸ h)
        · exact Or.inr h1
    · simp only [List.mem_append, List.mem_singleton]
      tauto

theorem template_vars_diff_spec (local_templates : smap) (nodes : List (String × String))
    (new updated : List String) :
    (∀ k, k ∈ (template_vars_diff local_templates nodes (new, updated)).1 ↔
      (k ∈ new ∨ (k ∈ nodes.map Prod.fst ∧ smap_get_node local_templates k = none))) ∧
    (∀ k, k ∈ (template_vars_diff local_templates nodes (new, updated)).2 ↔
      (k ∈ updated ∨ ∃ v, (k, v) ∈ nodes ∧
        ∃ old, smap_get_node local_templates k = some old ∧ old.2 ≠ v)) := by
  induction nodes generalizing new updated with
  | nil => simp [template_vars_diff]
  | cons node nodes ih =>
    obtain ⟨nk, nv⟩ := node
    cases hold : smap_get_node local_templates nk with
    | none =>
      simp only [template_vars_diff, hold]
      obtain ⟨h1, h2⟩ := ih (sset_add new nk) updated
      constructor
      · intro k
        rw [h1 k]
        have hs : k ∈ sset_add new nk ↔ (k ∈ new ∨ k = nk) := by
          unfold sset_add
          split
          · rename_i h
            constructor
            · exact Or.inl
            · rintro (h3 | h3)
              · exact h3
              · exact h3 ▸ h
          · simp
        rw [hs]
        simp only [List.map_cons, List.mem_cons]
        constructor
        · rintro ((h3 | h3) | h3)
          · exact Or.inl h3
          · exact Or.inr ⟨Or.inl h3, h3 ▸ hold⟩
          · exact Or.inr ⟨Or.inr h3.1, h3.2⟩
        · rintro (h3 | ⟨h3 | h3, h4⟩)
          · exact Or.inl (Or.inl h3)
          · exact Or.inl (Or.inr h3)
          · exact Or.inr ⟨h3, h4⟩
      · intro k
        rw [h2 k]
        constructor
        · rintro (h3 | ⟨v, h3, h4⟩)
          · exact Or.inl h3
          · exact Or.inr ⟨v, List.mem_cons_of_mem _ h3, h4⟩
        · rintro (h3 | ⟨v, h3, old, h4, h5⟩)
          · exact Or.inl h3
          · rcases List.mem_cons.mp h3 with h6 | h6
            · have hk : k = nk := congrArg Prod.fst h6
              rw [hk, hold] at h4
              cases h4
            · exact Or.inr ⟨v, h6, old, h4, h5⟩
    | some old =>
      by_cases hne : old.2 = nv
      · simp only [template_vars_diff, hold, hne, ne_eq, not_true_eq_false, if_false]
        obtain ⟨h1, h2⟩ := ih new updated
        constructor
        · intro k
          rw [h1 k]
          simp only [List.map_cons, List.mem_cons]
          constructor
          · rintro (h3 | h3)
            · exact Or.inl h3
            · exact Or.inr ⟨Or.inr h3.1, h3.2⟩
          · rintro (h3 | ⟨h3 | h3, h4⟩)
            · exact Or.inl h3
            · rw [h3, hold] at h4
              cases h4
            · exact Or.inr ⟨h3, h4⟩
        · intro k
          rw [h2 k]
          constructor
          · rintro (h3 | ⟨v, h3, h4⟩)
            · exact Or.inl h3
            · exact Or.inr ⟨v, List.mem_cons_of_mem _ h3, h4⟩
          · rintro (h3 | ⟨v, h3, old2, h4, h5⟩)
            · exact Or.inl h3
            · rcases List.mem_cons.mp h3 with h6 | h6
              · have hk : k = nk := congrArg Prod.fst h6
                have hv : v = nv := congrArg Prod.snd h6
                rw [hk, hold] at h4
                cases h4
                exact absurd (hne.trans hv.symm) h5
              · exact Or.inr ⟨v, h6, old2, h4, h5⟩
      · simp only [template_vars_diff, hold, hne, ne_eq, not_false_eq_true, if_true]
        obtain ⟨h1, h2⟩ := ih new (sset_add updated nk)
        constructor
        · intro k
          rw [h1 k]
          simp only [List.map_cons, List.mem_cons]
          constructor
          · rintro (h3 | h3)
            · exact Or.inl h3
            · exact Or.inr ⟨Or.inr h3.1, h3.2⟩
          · rintro (h3 | ⟨h3 | h3, h4⟩)
            · exact Or.inl h3
            · rw [h3, hold] at h4
              cases h4
            · exact Or.inr ⟨h3, h4⟩
        · intro k
          rw [h2 k]
          have hs : k ∈ sset_add updated nk ↔ (k ∈ updated ∨ k = nk) := by
            unfold sset_add
            split
            · rename_i h
              constructor
              · exact Or.inl
              · rintro (h3 | h3)
                · exact h3
                · exact h3 ▸ h
            · simp
          rw [hs]
          constructor
          · rintro ((h3 | h3) | ⟨v, h3, h4⟩)
            · exact Or.inl h3
            · exact Or.inr ⟨nv, h3 ▸ List.mem_cons_self _ _, old, h3 ▸ hold, hne⟩
            · exact Or.inr ⟨v, List.mem_cons_of_mem _ h3, h4⟩
          · rintro (h3 | ⟨v, h3, old2, h4, h5⟩)
            · exact Or.inl (Or.inl h3)
            · rcases List.mem_cons.mp h3 with h6 | h6
              · exact Or.inl (Or.inr (congrArg Prod.fst h6))
              · exact Or.inr ⟨v, h6, old2, h4, h5⟩

/-- C17: when the tracked row of this chassis is deleted, `template_vars_update`
leaves in `local_templates` the variables the deleted row had, whereas the
recompute `en_template_vars_run` on a table without a row of the chassis
leaves `local_templates` empty. -/
theorem template_vars_update_deleted_row (chassis : sbrec_chassis) (tv_data : ed_type_template_vars)
    (tv : idl_tracked sbrec_chassis_template_var)
    (rest : List (idl_tracked sbrec_chassis_template_var))
    (tv_table : List sbrec_chassis_template_var)
    (hch : tv.row.chassis = chassis.name) (hdel : tv.is_deleted = true)
    (htable : ∀ r ∈ tv_table, r.chassis ≠ chassis.name) :
    (∃ new deleted updated,
      template_vars_update chassis tv_data.local_templates tv_data.new tv_data.deleted
        tv_data.updated (tv :: rest) = some (tv.row.variables_, new, deleted, updated)) ∧
    (en_template_vars_run tv_data tv_table chassis).2.local_templates = [] := by
  constructor
  · exact ⟨tv_data.new,
      tv_data.local_templates.foldl (fun d node => sset_add d node.1) tv_data.deleted,
      tv_data.updated, by simp [template_vars_update, hch, hdel]⟩
  · have hfind : tv_table.find? (fun r => r.chassis = chassis.name) = none := by
      rw [List.find?_eq_none]
      intro r hr
      simpa using htable r hr
    simp [en_template_vars_run, template_vars_init, hfind]

/-- Witness of C17: the deleted row of chassis "hv1" had the variable
`a = 1`; the handler leaves `a = 1` in `local_templates`, the recompute on the
empty table leaves nothing. -/
theorem template_vars_update_deleted_row_witness :
    (∃ new deleted updated,
      template_vars_update { uuid := 1, name := "hv1" } [("a", "1")] [] [] []
        [{ row := { uuid := 5, chassis := "hv1", variables_ := [("a", "1")] },
           is_new := false, is_deleted := true }]
        = some ([("a", "1")], new, deleted, updated)) ∧
    (en_template_vars_run
      { local_templates := [("a", "1")], change_tracked := false, new := [], deleted := [],
        updated := [] } [] { uuid := 1, name := "hv1" }).2.local_templates = [] :=
  template_vars_update_deleted_row { uuid := 1, name := "hv1" }
    { local_templates := [("a", "1")], change_tracked := false, new := [], deleted := [],
      updated := [] }
    { row := { uuid := 5, chassis := "hv1", variables_ := [("a", "1")] },
      is_new := false, is_deleted := true } [] [] rfl rfl (by simp)

/-- C18: when the tracked row of this chassis is updated (neither deleted nor
new) and the three sets start empty, `template_vars_update` leaves in `new`
the keys of the row's variables absent from the cached `local_templates`, in
`updated` the keys present in both with a different value, and in `deleted`
every key of the cached `local_templates`, also those still in the row. -/
theorem template_vars_update_updated_row_sets (chassis : sbrec_chassis) (local_templates : smap)
    (tv : idl_tracked sbrec_chassis_template_var)
    (rest : List (idl_tracked sbrec_chassis_template_var))
    (hch : tv.row.chassis = chassis.name) (hdel : tv.is_deleted = false)
    (hnew : tv.is_new = false) :
    ∃ new deleted updated,
      template_vars_update chassis local_templates [] [] [] (tv :: rest)
        = some (tv.row.variables_, new, deleted, updated) ∧
      (∀ k, k ∈ new ↔
        (k ∈ tv.row.variables_.map Prod.fst ∧ smap_get_node local_templates k = none)) ∧
      (∀ k, k ∈ updated ↔ ∃ v, (k, v) ∈ tv.row.variables_ ∧
        ∃ old, smap_get_node local_templates k = some old ∧ old.2 ≠ v) ∧
      (∀ k, k ∈ deleted ↔ k ∈ local_templates.map Prod.fst) := by
  obtain ⟨h1, h2⟩ := template_vars_diff_spec local_templates tv.row.variables_ [] []
  refine ⟨(template_vars_diff local_templates tv.row.variables_ ([], [])).1,
    local_templates.foldl (fun d node => sset_add d node.1) [],
    (template_vars_diff local_templates tv.row.variables_ ([], [])).2, ?_, ?_, ?_, ?_⟩
  · simp [template_vars_update, hch, hdel, hnew]
  · intro k
    simpa using h1 k
  · intro k
    simpa using h2 k
  · intro k
    simpa using foldl_sset_add_keys local_templates [] k

/-- Witness of C18: from `a = 1, b = 2` to `a = 1, b = 3, c = 4` the sets are
`new = {c}`, `updated = {b}` and `deleted = {a, b}`. -/
theorem template_vars_update_updated_row_sets_witness :
    template_vars_update { uuid := 1, name := "hv1" } [("a", "1"), ("b", "2")] [] [] []
        [{ row := { uuid := 5, chassis := "hv1",
                    variables_ := [("a", "1"), ("b", "3"), ("c", "4")] },
           is_new := false, is_deleted := false }]
      = some ([("a", "1"), ("b", "3"), ("c", "4")], ["c"], ["a", "b"], ["b"]) ∧
    ∃ new deleted updated,
      template_vars_update { uuid := 1, name := "hv1" } [("a", "1"), ("b", "2")] [] [] []
        [{ row := { uuid := 5, chassis := "hv1",
                    variables_ := [("a", "1"), ("b", "3"), ("c", "4")] },
           is_new := false, is_deleted := false }]
        = some ([("a", "1"), ("b", "3"), ("c", "4")], new, deleted, updated) ∧
      (∀ k, k ∈ new ↔
        (k ∈ [("a", "1"), ("b", "3"), ("c", "4")].map Prod.fst ∧
          smap_get_node [("a", "1"), ("b", "2")] k = none)) ∧
      (∀ k, k ∈ updated ↔ ∃ v, (k, v) ∈ [("a", "1"), ("b", "3"), ("c", "4")] ∧
        ∃ old, smap_get_node [("a", "1"), ("b", "2")] k = some old ∧ old.2 ≠ v) ∧
      (∀ k, k ∈ deleted ↔ k ∈ [("a", "1"), ("b", "2")].map Prod.fst) :=
  ⟨by decide,
   template_vars_update_updated_row_sets { uuid := 1, name := "hv1" } [("a", "1"), ("b", "2")]
    { row := { uuid := 5, chassis := "hv1",
               variables_ := [("a", "1"), ("b", "3"), ("c", "4")] },
      is_new := false, is_deleted := false } [] rfl rfl rfl⟩

/-! ## Force recompute at the end of an iteration (C19) -/

/-- C19 as stated fails when the guard of the engine part is false: the
southbound IDL has connected and the Open_vSwitch row exists but the northd
version does not match, the engine did not run although a run was needed, no
command set the flag and the commit is done (status 1); the flag, clear
before, is still clear at the end of the iteration. -/
theorem main_force_recompute_guard_false :
    main_force_recompute false true false true false true false false 1 false = some false := by
  decide

/-- C19 (amended): a paused iteration leaves the force-recompute flag as it
was unless a unixctl command set it.  In an iteration that is not paused, with
a southbound commit status of 0 (failed), 1 (done) or -1 (in progress; any
other status is not reached): if the southbound IDL has ever connected, the
northd version matches and the Open_vSwitch row exists, the flag is set
whenever the engine ran and was canceled, or did not run although a run was
needed, or a command set it, or the commit failed; it is cleared exactly when
the engine ran without cancellation, no command set it and the commit did not
fail; and when the engine did not run and no run was needed it is set if the
commit failed or a command set it and keeps its value otherwise.  If that
guard is false the engine's outcome is not consulted: the flag is set if the
commit failed or a command set it and keeps its value otherwise. -/
theorem main_force_recompute_spec
    (ovsdb_idl_has_ever_connected northd_version_match cfg : Bool)
    (engine_has_run engine_need_run engine_canceled : Bool) (unixctl_force_recompute : Bool)
    (ovnsb_txn_status : Int) (force_recompute : Bool) :
    main_force_recompute true ovsdb_idl_has_ever_connected northd_version_match cfg
        engine_has_run engine_need_run engine_canceled unixctl_force_recompute ovnsb_txn_status
        force_recompute = some (unixctl_force_recompute || force_recompute) ∧
    (¬ (ovnsb_txn_status = 0 ∨ ovnsb_txn_status = 1 ∨ ovnsb_txn_status = -1) →
      main_force_recompute false ovsdb_idl_has_ever_connected northd_version_match cfg
        engine_has_run engine_need_run engine_canceled unixctl_force_recompute ovnsb_txn_status
        force_recompute = none) ∧
    ((ovnsb_txn_status = 0 ∨ ovnsb_txn_status = 1 ∨ ovnsb_txn_status = -1) →
      ∃ flag,
        main_force_recompute false ovsdb_idl_has_ever_connected northd_version_match cfg
          engine_has_run engine_need_run engine_canceled unixctl_force_recompute
          ovnsb_txn_status force_recompute = some flag ∧
        ((ovsdb_idl_has_ever_connected && northd_version_match && cfg) = true →
          (((engine_has_run = true ∧ engine_canceled = true) ∨
              (engine_has_run = false ∧ engine_need_run = true) ∨
              unixctl_force_recompute = true ∨ ovnsb_txn_status = 0) →
            flag = true) ∧
          ((engine_has_run = true ∧ engine_canceled = false ∧
              unixctl_force_recompute = false ∧ ovnsb_txn_status ≠ 0) →
            flag = false) ∧
          ((force_recompute = true ∧ flag = false) →
            (engine_has_run = true ∧ engine_canceled = false ∧
              unixctl_force_recompute = false ∧ ovnsb_txn_status ≠ 0)) ∧
          ((engine_has_run = false ∧ engine_need_run = false) →
            flag = (if ovnsb_txn_status = 0 then true
                    else (unixctl_force_recompute || force_recompute)))) ∧
        ((ovsdb_idl_has_ever_connected && northd_version_match && cfg) = false →
          flag = (if ovnsb_txn_status = 0 then true
                  else (unixctl_force_recompute || force_recompute)))) := by
  refine ⟨?_, ?_, ?_⟩
  · cases unixctl_force_recompute <;>
      simp [main_force_recompute, engine_set_force_recompute_immediate]
  · intro h
    simp only [not_or] at h
    simp [main_force_recompute, main_ovnsb_commit, h.1, h.2.1, h.2.2]
  · intro hstatus
    have hc : ∀ f : Bool, (main_ovnsb_commit ovnsb_txn_status f 0).map (fun r => r.1) =
        some (if ovnsb_txn_status = 0 then true else f) := by
      intro f
      rcases hstatus with h | h | h <;> subst h <;>
        simp [main_ovnsb_commit, engine_set_force_recompute_immediate]
    simp only [main_force_recompute, Bool.false_eq_true, if_false, hc]
    generalize (ovsdb_idl_has_ever_connected && northd_version_match && cfg) = guard
    refine ⟨_, rfl, ?_, ?_⟩
    · intro hg
      subst hg
      by_cases h0 : ovnsb_txn_status = 0
      · simp [h0]
      · cases engine_has_run <;> cases engine_need_run <;> cases engine_canceled <;>
          cases unixctl_force_recompute <;> cases force_recompute <;>
          simp [h0, main_engine_run_result, engine_set_force_recompute_immediate,
            engine_clear_force_recompute]
    · intro hg
      subst hg
      by_cases h0 : ovnsb_txn_status = 0
      · simp [h0]
      · cases unixctl_force_recompute <;> cases force_recompute <;>
          simp [h0, engine_set_force_recompute_immediate]

/-! ## store_nb_cfg (C20) -/

theorem to_uint64_to_int64 (x : Nat) (hx : x < 2 ^ 64) : to_uint64 (to_int64 x) = x := by
  unfold to_uint64 to_int64
  rw [Nat.mod_eq_of_lt hx]
  split
  · have h : ((x : Int) % (2 ^ 64 : Int)) = (x : Int) :=
      Int.emod_eq_of_lt (by omega) (by omega)
    rw [h]
    simp
  · have h : (((x : Int) - 2 ^ 64) % (2 ^ 64 : Int)) = (x : Int) := by
      rw [Int.sub_emod, Int.emod_self, sub_zero, Int.emod_emod]
      exact Int.emod_eq_of_lt (by omega) (by omega)
    rw [h]
    simp

/-- C20: `store_nb_cfg` with a southbound transaction and a chassis-private
row adds the writes of `nb_cfg` (the last-acked seqno) and `nb_cfg_timestamp`
exactly when chassis updates are enabled and the last-acked seqno is neither 0
nor the row's `nb_cfg`, and otherwise leaves the southbound transaction as it
was, as it does without a transaction or row; with an OVS transaction and
br-int it sets `ovn-nb-cfg` and `ovn-nb-cfg-ts` exactly when the last-acked
seqno is neither 0 nor the stored `ovn-nb-cfg` (after `ovn-startup-ts`, set
when the startup time differs from the stored one), and otherwise leaves the
OVS transaction as it was. -/
theorem store_nb_cfg_spec (str_to_ullong : String → Option Nat) (cur_cfg : Nat)
    (startup_ts ts_now : Int) (sb_txn ovs_txn : Option ovsdb_idl_txn)
    (chassis : Option sbrec_chassis_private) (br_int : Option ovsrec_bridge)
    (delay_nb_cfg_report : Nat) (enable_ch_nb_cfg_update : Bool)
    (hcur : cur_cfg < 2 ^ 64) :
    (∀ txn ch, sb_txn = some txn → chassis = some ch →
      (store_nb_cfg str_to_ullong cur_cfg startup_ts ts_now sb_txn ovs_txn chassis br_int
          delay_nb_cfg_report enable_ch_nb_cfg_update).sb_txn =
        if enable_ch_nb_cfg_update = true ∧ cur_cfg ≠ 0 ∧ cur_cfg ≠ to_uint64 ch.nb_cfg then
          some { txn with ops := txn.ops ++
            [ovsdb_idl_txn_op.write "Chassis_Private" ch.uuid "nb_cfg"
               (ovsdb_datum.integer (to_int64 cur_cfg)),
             ovsdb_idl_txn_op.write "Chassis_Private" ch.uuid "nb_cfg_timestamp"
               (ovsdb_datum.integer ts_now)] }
        else some txn) ∧
    ((sb_txn = none ∨ chassis = none) →
      (store_nb_cfg str_to_ullong cur_cfg startup_ts ts_now sb_txn ovs_txn chassis br_int
          delay_nb_cfg_report enable_ch_nb_cfg_update).sb_txn = sb_txn) ∧
    to_uint64 (to_int64 cur_cfg) = cur_cfg ∧
    (∀ txn br, ovs_txn = some txn → br_int = some br →
      (store_nb_cfg str_to_ullong cur_cfg startup_ts ts_now sb_txn ovs_txn chassis br_int
          delay_nb_cfg_report enable_ch_nb_cfg_update).ovs_txn =
        some { txn with ops := txn.ops ++
          (if to_uint64 startup_ts ≠
              smap_get_ullong str_to_ullong br.external_ids "ovn-startup-ts" 0 then
            [ovsdb_idl_txn_op.update_setkey "Bridge" br.uuid "external_ids" "ovn-startup-ts"
              (ovsdb_datum.string (toString startup_ts))]
           else []) ++
          (if cur_cfg ≠ 0 ∧
              cur_cfg ≠ smap_get_ullong str_to_ullong br.external_ids "ovn-nb-cfg" 0 then
            [ovsdb_idl_txn_op.update_setkey "Bridge" br.uuid "external_ids" "ovn-nb-cfg"
               (ovsdb_datum.string (toString (to_int64 cur_cfg))),
             ovsdb_idl_txn_op.update_setkey "Bridge" br.uuid "external_ids" "ovn-nb-cfg-ts"
               (ovsdb_datum.string (toString ts_now))]
           else []) }) ∧
    ((ovs_txn = none ∨ br_int = none) →
      (store_nb_cfg str_to_ullong cur_cfg startup_ts ts_now sb_txn ovs_txn chassis br_int
          delay_nb_cfg_report enable_ch_nb_cfg_update).ovs_txn = ovs_txn) := by
  refine ⟨?_, ?_, to_uint64_to_int64 cur_cfg hcur, ?_, ?_⟩
  · intro txn ch hs hc
    subst hs hc
    obtain ⟨ops, gen, n⟩ := txn
    by_cases h0 : cur_cfg = 0
    · simp [store_nb_cfg, h0]
    · by_cases h1 : cur_cfg = to_uint64 ch.nb_cfg
      · simp [store_nb_cfg, h0, ← h1]
      · cases enable_ch_nb_cfg_update <;>
          simp [store_nb_cfg, h0, h1, ovsdb_idl_txn_record]
  · intro h
    by_cases h0 : cur_cfg = 0
    · simp [store_nb_cfg, h0]
    · rcases h with h | h
      · subst h
        simp [store_nb_cfg, h0]
      · subst h
        cases sb_txn <;> simp [store_nb_cfg, h0]
  · intro txn br hs hb
    subst hs hb
    obtain ⟨ops, gen, n⟩ := txn
    by_cases h0 : cur_cfg = 0
    · by_cases h2 : to_uint64 startup_ts =
          smap_get_ullong str_to_ullong br.external_ids "ovn-startup-ts" 0
      · simp [store_nb_cfg, h0, h2]
      · simp [store_nb_cfg, h0, h2, ovsdb_idl_txn_record]
    · by_cases h2 : to_uint64 startup_ts =
          smap_get_ullong str_to_ullong br.external_ids "ovn-startup-ts" 0
      · by_cases h3 : cur_cfg = smap_get_ullong str_to_ullong br.external_ids "ovn-nb-cfg" 0
        · simp [store_nb_cfg, h0, h2, ← h3]
        · simp [store_nb_cfg, h0, h2, h3, ovsdb_idl_txn_record]
      · by_cases h3 : cur_cfg = smap_get_ullong str_to_ullong br.external_ids "ovn-nb-cfg" 0
        · simp [store_nb_cfg, h0, h2, ← h3, ovsdb_idl_txn_record]
        · simp [store_nb_cfg, h0, h2, h3, ovsdb_idl_txn_record]
  · intro h
    by_cases h0 : cur_cfg = 0
    · rcases h with h | h
      · subst h
        simp [store_nb_cfg, h0]
      · subst h
        cases ovs_txn <;> simp [store_nb_cfg, h0]
    · rcases h with h | h
      · subst h
        simp [store_nb_cfg, h0]
      · subst h
        cases ovs_txn <;> simp [store_nb_cfg, h0]

/-- Witness of C20: last-acked seqno 11, chassis-private `nb_cfg` 10, no
`ovn-nb-cfg` on br-int yet: both transactions get the value 11. -/
theorem store_nb_cfg_spec_witness :
    (11 : Nat) < 2 ^ 64 ∧
    ((store_nb_cfg String.toNat? 11 5 7 (some sample_ovs_txn) (some sample_ovs_txn)
        (some { uuid := 3, nb_cfg := 10 }) (some sample_bridge) 0 true).sb_txn.map
          (fun txn => txn.ops)) =
      some [ovsdb_idl_txn_op.write "Chassis_Private" 3 "nb_cfg" (ovsdb_datum.integer 11),
            ovsdb_idl_txn_op.write "Chassis_Private" 3 "nb_cfg_timestamp"
              (ovsdb_datum.integer 7)] ∧
    ((store_nb_cfg String.toNat? 11 5 7 (some sample_ovs_txn) (some sample_ovs_txn)
        (some { uuid := 3, nb_cfg := 10 }) (some sample_bridge) 0 true).ovs_txn.map
          (fun txn => txn.ops)) =
      some [ovsdb_idl_txn_op.update_setkey "Bridge" 5 "external_ids" "ovn-startup-ts"
              (ovsdb_datum.string "5"),
            ovsdb_idl_txn_op.update_setkey "Bridge" 5 "external_ids" "ovn-nb-cfg"
              (ovsdb_datum.string "11"),
            ovsdb_idl_txn_op.update_setkey "Bridge" 5 "external_ids" "ovn-nb-cfg-ts"
              (ovsdb_datum.string "7")] := by
  have h := store_nb_cfg_spec String.toNat? 11 5 7 (some sample_ovs_txn) (some sample_ovs_txn)
    (some { uuid := 3, nb_cfg := 10 }) (some sample_bridge) 0 true (by decide)
  refine ⟨by decide, ?_, ?_⟩
  · rw [h.1 sample_ovs_txn { uuid := 3, nb_cfg := 10 } rfl rfl]
    decide
  · rw [h.2.2.2.1 sample_ovs_txn sample_bridge rfl rfl]
    decide

/-! ## Address sets (C16) -/

theorem shash_find_data_remove {C : Type} (m : List (String × C)) (n k : String) :
    shash_find_data (expr_const_sets_remove m n) k =
      if k = n then none else shash_find_data m k := by
  induction m with
  | nil => simp [shash_find_data, expr_const_sets_remove]
  | cons a as ih =>
    simp only [shash_find_data, expr_const_sets_remove] at ih ⊢
    by_cases han : a.1 = n
    · by_cases hkn : k = n
      · simp only [hkn, if_true] at ih ⊢
        simp only [List.filter_cons, han, ne_eq, not_true_eq_false, decide_False,
          Bool.false_eq_true, if_false]
        exact ih
      · simp only [hkn, if_false] at ih ⊢
        simp only [List.filter_cons, han, ne_eq, not_true_eq_false, decide_False,
          Bool.false_eq_true, if_false]
        rw [ih]
        have : ¬ a.1 = k := fun h => hkn (h.symm.trans han)
        simp [List.find?_cons, this]
    · simp only [List.filter_cons, han, ne_eq, not_false_eq_true, decide_True, if_true]
      by_cases hak : a.1 = k
      · have hkn : ¬ k = n := fun h => han (hak.trans h)
        simp [List.find?_cons, hak, hkn]
      · simp only [List.find?_cons, hak, decide_False]
        exact ih

theorem shash_find_data_add {C : Type} (m : List (String × C)) (n k : String) (cs : C) :
    shash_find_data (expr_const_sets_add m n cs) k =
      if k = n then some cs else shash_find_data m k := by
  have hrem := shash_find_data_remove m n k
  simp only [shash_find_data, expr_const_sets_add, shash_add, List.find?_append] at hrem ⊢
  by_cases hkn : k = n
  · simp only [hkn, if_true] at hrem ⊢
    cases hf : List.find? (fun kv => decide (kv.1 = n)) (expr_const_sets_remove m n) with
    | none => simp
    | some x => rw [hf] at hrem; simp at hrem
  · simp only [hkn, if_false] at hrem ⊢
    have hnk : ¬ n = k := fun h => hkn h.symm
    cases hf : List.find? (fun kv => decide (kv.1 = k)) (expr_const_sets_remove m n) with
    | none =>
      rw [hf] at hrem
      simp [hnk, ← hrem]
    | some x =>
      rw [hf] at hrem
      simp [← hrem]

theorem addr_sets_init_find {C : Type} (ops : expr_constant_set_ops C)
    (table : List sbrec_address_set) (m : List (String × C)) (k : String) :
    shash_find_data (addr_sets_init ops table m) k =
      match address_set_last table k with
      | some addresses => some (ops.expr_constant_set_create_integers addresses)
      | none => shash_find_data m k := by
  induction table generalizing m with
  | nil => simp [addr_sets_init, address_set_last]
  | cons a rest ih =>
    have h := ih (expr_const_sets_add_integers ops m a.name a.addresses)
    simp only [addr_sets_init, List.foldl_cons] at h ⊢
    rw [h]
    simp only [address_set_last]
    cases address_set_last rest k with
    | some addresses => rfl
    | none =>
      simp only [expr_const_sets_add_integers, shash_find_data_add]
      by_cases hk : k = a.name
      · simp [hk]
      · have : ¬ a.name = k := fun h => hk h.symm
        simp [hk, this]

theorem tracked_deleted_cons {α : Type} (a : idl_tracked α) (rest : List (idl_tracked α)) :
    tracked_deleted (a :: rest) =
      if a.is_deleted = true then a.row :: tracked_deleted rest else tracked_deleted rest := by
  cases hd : a.is_deleted <;> simp [tracked_deleted, List.filter_cons, hd]

theorem tracked_present_cons {α : Type} (a : idl_tracked α) (rest : List (idl_tracked α)) :
    tracked_present (a :: rest) =
      if a.is_deleted = true then tracked_present rest else a.row :: tracked_present rest := by
  cases hd : a.is_deleted <;> simp [tracked_present, List.filter_cons, hd]

theorem addr_sets_update_deleted_find {C : Type}
    (tracked : List (idl_tracked sbrec_address_set)) (st : ed_type_addr_sets C) (k : String) :
    shash_find_data (tracked.foldl addr_sets_update_deleted st).addr_sets k =
      if k ∈ (tracked_deleted tracked).map (fun as_ => as_.name) then none
      else shash_find_data st.addr_sets k := by
  induction tracked generalizing st with
  | nil => simp [tracked_deleted]
  | cons a rest ih =>
    simp only [List.foldl_cons]
    rw [ih, tracked_deleted_cons]
    cases hd : a.is_deleted with
    | false =>
      simp [addr_sets_update_deleted, hd]
    | true =>
      simp only [addr_sets_update_deleted, hd, if_true, shash_find_data_remove,
        List.map_cons, List.mem_cons]
      by_cases hk : k = a.row.name
      · simp [hk]
      · simp [hk]

theorem addr_sets_update_deleted_updated {C : Type}
    (tracked : List (idl_tracked sbrec_address_set)) (st : ed_type_addr_sets C) :
    (tracked.foldl addr_sets_update_deleted st).updated = st.updated := by
  induction tracked generalizing st with
  | nil => rfl
  | cons a rest ih =>
    simp only [List.foldl_cons]
    rw [ih]
    unfold addr_sets_update_deleted
    split <;> rfl

theorem addr_sets_update_changed_find {C : Type} (ops : expr_constant_set_ops C)
    (hdiff : ∀ a b, ops.expr_constant_set_integers_diff a b = (none, none) ↔ a = b)
    (st : ed_type_addr_sets C) (a : idl_tracked sbrec_address_set) (k : String) :
    shash_find_data (addr_sets_update_changed ops st a).addr_sets k =
      if a.is_deleted = true then shash_find_data st.addr_sets k
      else if k = a.row.name then
        some (ops.expr_constant_set_create_integers a.row.addresses)
      else shash_find_data st.addr_sets k := by
  cases hd : a.is_deleted with
  | true => simp [addr_sets_update_changed, hd]
  | false =>
    simp only [addr_sets_update_changed, hd, Bool.not_false, if_true, Bool.false_eq_true,
      if_false]
    cases hold : shash_find_data st.addr_sets a.row.name with
    | none =>
      simp only [expr_const_sets_add_integers, shash_find_data_add]
    | some cs_old =>
      simp only []
      by_cases he : ((ops.expr_constant_set_integers_diff cs_old
            (ops.expr_constant_set_create_integers a.row.addresses)).1.isNone &&
          (ops.expr_constant_set_integers_diff cs_old
            (ops.expr_constant_set_create_integers a.row.addresses)).2.isNone) = true
      · simp only [he, if_true]
        have heq : cs_old = ops.expr_constant_set_create_integers a.row.addresses := by
          apply (hdiff _ _).mp
          simp only [Bool.and_eq_true, Option.isNone_iff_eq_none] at he
          exact Prod.ext he.1 he.2
        by_cases hk : k = a.row.name
        · simp [hk, hold, heq]
        · simp [hk]
      · simp only [he, Bool.false_eq_true, if_false, shash_find_data_add]

theorem addr_sets_update_changed_fold_find {C : Type} (ops : expr_constant_set_ops C)
    (hdiff : ∀ a b, ops.expr_constant_set_integers_diff a b = (none, none) ↔ a = b)
    (tracked : List (idl_tracked sbrec_address_set)) (st : ed_type_addr_sets C) (k : String) :
    shash_find_data (tracked.foldl (addr_sets_update_changed ops) st).addr_sets k =
      match address_set_last (tracked_present tracked) k with
      | some addresses => some (ops.expr_constant_set_create_integers addresses)
      | none => shash_find_data st.addr_sets k := by
  induction tracked generalizing st with
  | nil => simp [tracked_present, address_set_last]
  | cons a rest ih =>
    simp only [List.foldl_cons]
    rw [ih, addr_sets_update_changed_find ops hdiff]
    cases hd : a.is_deleted with
    | true =>
      simp [tracked_present, hd]
    | false =>
      have hp : tracked_present (a :: rest) = a.row :: tracked_present rest := by
        simp [tracked_present, hd]
      rw [hp]
      simp only [address_set_last]
      cases address_set_last (tracked_present rest) k with
      | some addresses => rfl
      | none =>
        by_cases hk : k = a.row.name
        · simp [hk]
        · have : ¬ a.row.name = k := fun h => hk h.symm
          simp [hk, this]

theorem addr_sets_update_changed_fold_updated {C : Type} (ops : expr_constant_set_ops C)
    (tracked : List (idl_tracked sbrec_address_set)) (st : ed_type_addr_sets C) :
    ∀ e ∈ (tracked.foldl (addr_sets_update_changed ops) st).updated,
      e ∈ st.updated ∨ ∃ as_ cs_old, as_ ∈ tracked_present tracked ∧
        e = (as_.name, ops.expr_constant_set_integers_diff cs_old
          (ops.expr_constant_set_create_integers as_.addresses)) ∧
        ops.expr_constant_set_integers_diff cs_old
          (ops.expr_constant_set_create_integers as_.addresses) ≠ (none, none) := by
  induction tracked generalizing st with
  | nil => intro e he; exact Or.inl he
  | cons a rest ih =>
    intro e he
    simp only [List.foldl_cons] at he
    have hmono : ∀ x ∈ tracked_present rest, x ∈ tracked_present (a :: rest) := by
      intro x hx
      simp only [tracked_present, List.filter_cons] at hx ⊢
      split
      · exact List.mem_cons_of_mem _ hx
      · exact hx
    rcases ih _ e he with h | ⟨as_, cs_old, hmem, heq, hne⟩
    · unfold addr_sets_update_changed at h
      split at h
      · rename_i hd
        split at h
        · exact Or.inl h
        · rename_i cs_old hold
          simp only [] at h
          split at h
          · exact Or.inl h
          · rename_i hnone
            simp only [shash_add, List.mem_append, List.mem_singleton] at h
            rcases h with h | h
            · exact Or.inl h
            · refine Or.inr ⟨a.row, cs_old, ?_, h, ?_⟩
              · simp only [tracked_present, List.filter_cons, hd, if_true, List.map_cons]
                exact List.mem_cons_self _ _
              · intro hc
                apply hnone
                rw [hc]
                rfl
      · exact Or.inl h
    · exact Or.inr ⟨as_, cs_old, hmono _ hmem, heq, hne⟩

/-- C16: if the cached map agrees, name by name, with `addr_sets_init` of the
old table, and the new table holds under every name what the tracked rows say
(the addresses of the last tracked row of that name that is not deleted,
nothing if only deleted rows bear the name, and what the old table held if no
tracked row bears it), then the map `addr_sets_sb_address_set_handler` leaves
agrees, name by name, with the map `en_addr_sets_run` builds from the new
table; a deleted set is absent, a new or updated set holds the constant set of
its addresses, every entry added to `updated` has a diff between two different
constant sets, and a tracked row whose constant set equals the cached one
changes nothing. -/
theorem addr_sets_update_refines_run {C : Type} (ops : expr_constant_set_ops C)
    (old_table new_table : List sbrec_address_set)
    (tracked : List (idl_tracked sbrec_address_set)) (st : ed_type_addr_sets C)
    (hdiff : ∀ a b, ops.expr_constant_set_integers_diff a b = (none, none) ↔ a = b)
    (hcached : ∀ name, shash_find_data st.addr_sets name =
      shash_find_data (addr_sets_init ops old_table []) name)
    (htracked : ∀ name, address_set_last new_table name =
      match address_set_last (tracked_present tracked) name with
      | some addresses => some addresses
      | none =>
        if name ∈ (tracked_deleted tracked).map (fun as_ => as_.name) then none
        else address_set_last old_table name) :
    (∀ name, shash_find_data (addr_sets_sb_address_set_handler ops st tracked).2.addr_sets name =
      shash_find_data (en_addr_sets_run ops st new_table).2.addr_sets name) ∧
    (∀ as_ ∈ tracked_deleted tracked,
      address_set_last (tracked_present tracked) as_.name = none →
      shash_find_data (addr_sets_update ops tracked st).addr_sets as_.name = none) ∧
    (∀ name addresses, address_set_last (tracked_present tracked) name = some addresses →
      shash_find_data (addr_sets_update ops tracked st).addr_sets name =
        some (ops.expr_constant_set_create_integers addresses)) ∧
    (∀ e ∈ (addr_sets_update ops tracked st).updated,
      e ∈ st.updated ∨ ∃ as_ cs_old, as_ ∈ tracked_present tracked ∧
        e = (as_.name, ops.expr_constant_set_integers_diff cs_old
          (ops.expr_constant_set_create_integers as_.addresses)) ∧
        cs_old ≠ ops.expr_constant_set_create_integers as_.addresses) ∧
    (∀ (a : idl_tracked sbrec_address_set) (cs_old : C), a.is_deleted = false →
      shash_find_data st.addr_sets a.row.name = some cs_old →
      cs_old = ops.expr_constant_set_create_integers a.row.addresses →
      addr_sets_update ops [a] st = st) := by
  have hfind : ∀ name, shash_find_data (addr_sets_update ops tracked st).addr_sets name =
      match address_set_last (tracked_present tracked) name with
      | some addresses => some (ops.expr_constant_set_create_integers addresses)
      | none =>
        if name ∈ (tracked_deleted tracked).map (fun as_ => as_.name) then none
        else shash_find_data st.addr_sets name := by
    intro name
    simp only [addr_sets_update]
    rw [addr_sets_update_changed_fold_find ops hdiff, addr_sets_update_deleted_find]
  refine ⟨?_, ?_, ?_, ?_, ?_⟩
  · intro name
    change shash_find_data (addr_sets_update ops tracked st).addr_sets name =
      shash_find_data (addr_sets_init ops new_table []) name
    rw [hfind, addr_sets_init_find, htracked, hcached, addr_sets_init_find]
    cases address_set_last (tracked_present tracked) name with
    | some addresses => rfl
    | none =>
      simp only []
      split
      · simp [shash_find_data]
      · rfl
  · intro as_ hmem hnone
    rw [hfind, hnone]
    have : as_.name ∈ (tracked_deleted tracked).map (fun as_ => as_.name) :=
      List.mem_map.mpr ⟨as_, hmem, rfl⟩
    simp [this]
  · intro name addresses hsome
    rw [hfind, hsome]
  · intro e he
    simp only [addr_sets_update] at he
    rcases addr_sets_update_changed_fold_updated ops tracked _ e he with
      h | ⟨as_, cs_old, hmem, heq, hne⟩
    · rw [addr_sets_update_deleted_updated] at h
      exact Or.inl h
    · exact Or.inr ⟨as_, cs_old, hmem, heq, fun hc => hne ((hdiff _ _).mpr hc)⟩
  · intro a cs_old hd hold heq
    have hz : ops.expr_constant_set_integers_diff cs_old
        (ops.expr_constant_set_create_integers a.row.addresses) = (none, none) :=
      (hdiff _ _).mpr heq
    simp [addr_sets_update, addr_sets_update_deleted, addr_sets_update_changed, hd, hold, hz]

/-- Witness of C16: the old table holds `as1` and `as2`; `as2` is deleted,
`as1` gets one more address and `as3` is new. -/
theorem addr_sets_update_refines_run_witness :
    (shash_find_data (addr_sets_sb_address_set_handler sample_expr_constant_set_ops
        { addr_sets := [("as1", ["10.0.0.1"]), ("as2", ["10.0.0.2"])], change_tracked := false,
          new := [], deleted := [], updated := [] }
        [{ row := { uuid := 2, name := "as2", addresses := ["10.0.0.2"] },
           is_new := false, is_deleted := true },
         { row := { uuid := 1, name := "as1", addresses := ["10.0.0.1", "10.0.0.3"] },
           is_new := false, is_deleted := false },
         { row := { uuid := 3, name := "as3", addresses := ["10.0.0.9"] },
           is_new := true, is_deleted := false }]).2.addr_sets "as1" =
      shash_find_data (en_addr_sets_run sample_expr_constant_set_ops
        { addr_sets := [("as1", ["10.0.0.1"]), ("as2", ["10.0.0.2"])], change_tracked := false,
          new := [], deleted := [], updated := [] }
        [{ uuid := 1, name := "as1", addresses := ["10.0.0.1", "10.0.0.3"] },
         { uuid := 3, name := "as3", addresses := ["10.0.0.9"] }]).2.addr_sets "as1") ∧
    shash_find_data (en_addr_sets_run sample_expr_constant_set_ops
        { addr_sets := [("as1", ["10.0.0.1"]), ("as2", ["10.0.0.2"])], change_tracked := false,
          new := [], deleted := [], updated := [] }
        [{ uuid := 1, name := "as1", addresses := ["10.0.0.1", "10.0.0.3"] },
         { uuid := 3, name := "as3", addresses := ["10.0.0.9"] }]).2.addr_sets "as1" =
      some ["10.0.0.1", "10.0.0.3"] :=
  ⟨(addr_sets_update_refines_run sample_expr_constant_set_ops
      [{ uuid := 1, name := "as1", addresses := ["10.0.0.1"] },
       { uuid := 2, name := "as2", addresses := ["10.0.0.2"] }]
      [{ uuid := 1, name := "as1", addresses := ["10.0.0.1", "10.0.0.3"] },
       { uuid := 3, name := "as3", addresses := ["10.0.0.9"] }]
      [{ row := { uuid := 2, name := "as2", addresses := ["10.0.0.2"] },
         is_new := false, is_deleted := true },
       { row := { uuid := 1, name := "as1", addresses := ["10.0.0.1", "10.0.0.3"] },
         is_new := false, is_deleted := false },
       { row := { uuid := 3, name := "as3", addresses := ["10.0.0.9"] },
         is_new := true, is_deleted := false }]
      { addr_sets := [("as1", ["10.0.0.1"]), ("as2", ["10.0.0.2"])], change_tracked := false,
        new := [], deleted := [], updated := [] }
      (by
        intro a b
        by_cases h : a = b <;> simp [sample_expr_constant_set_ops, h])
      (by intro name; rfl)
      (by
        intro name
        by_cases h3 : name = "as3"
        · subst h3; decide
        · by_cases h1 : name = "as1"
          · subst h1; decide
          · by_cases h2 : name = "as2"
            · subst h2; decide
            · have h1n : ¬ "as1" = name := fun h => h1 h.symm
              have h2n : ¬ "as2" = name := fun h => h2 h.symm
              have h3n : ¬ "as3" = name := fun h => h3 h.symm
              simp [address_set_last, tracked_present, tracked_deleted, h1, h2, h3, h1n, h2n,
                h3n])).1 "as1",
   by decide⟩

/-! ## Netlink notify and status nodes (C21) -/

/-- C21: each of the five notify/status run functions returns `EN_UPDATED`
exactly when its flag (`changed`, or `netlink_trigger_run`) was true on entry,
returns `EN_UNCHANGED` otherwise, leaves the flag false, and so returns
`EN_UNCHANGED` when run again on the payload it left. -/
theorem notify_status_run_one_shot (rtn : ed_type_route_table_notify)
    (hifm : ed_type_host_if_monitor) (ntn : ed_type_neighbor_table_notify)
    (rres : ed_type_route_exchange_status) (nres : ed_type_neighbor_exchange_status) :
    (((en_route_table_notify_run rtn).1 = engine_node_state.EN_UPDATED ↔ rtn.changed = true) ∧
      ((en_route_table_notify_run rtn).1 = engine_node_state.EN_UNCHANGED ↔
        rtn.changed = false) ∧
      (en_route_table_notify_run rtn).2.changed = false ∧
      (en_route_table_notify_run (en_route_table_notify_run rtn).2).1 =
        engine_node_state.EN_UNCHANGED) ∧
    (((en_host_if_monitor_run hifm).1 = engine_node_state.EN_UPDATED ↔ hifm.changed = true) ∧
      ((en_host_if_monitor_run hifm).1 = engine_node_state.EN_UNCHANGED ↔
        hifm.changed = false) ∧
      (en_host_if_monitor_run hifm).2.changed = false ∧
      (en_host_if_monitor_run (en_host_if_monitor_run hifm).2).1 =
        engine_node_state.EN_UNCHANGED) ∧
    (((en_neighbor_table_notify_run ntn).1 = engine_node_state.EN_UPDATED ↔
        ntn.changed = true) ∧
      ((en_neighbor_table_notify_run ntn).1 = engine_node_state.EN_UNCHANGED ↔
        ntn.changed = false) ∧
      (en_neighbor_table_notify_run ntn).2.changed = false ∧
      (en_neighbor_table_notify_run (en_neighbor_table_notify_run ntn).2).1 =
        engine_node_state.EN_UNCHANGED) ∧
    (((en_route_exchange_status_run rres).1 = engine_node_state.EN_UPDATED ↔
        rres.netlink_trigger_run = true) ∧
      ((en_route_exchange_status_run rres).1 = engine_node_state.EN_UNCHANGED ↔
        rres.netlink_trigger_run = false) ∧
      (en_route_exchange_status_run rres).2.netlink_trigger_run = false ∧
      (en_route_exchange_status_run (en_route_exchange_status_run rres).2).1 =
        engine_node_state.EN_UNCHANGED) ∧
    (((en_neighbor_exchange_status_run nres).1 = engine_node_state.EN_UPDATED ↔
        nres.netlink_trigger_run = true) ∧
      ((en_neighbor_exchange_status_run nres).1 = engine_node_state.EN_UNCHANGED ↔
        nres.netlink_trigger_run = false) ∧
      (en_neighbor_exchange_status_run nres).2.netlink_trigger_run = false ∧
      (en_neighbor_exchange_status_run (en_neighbor_exchange_status_run nres).2).1 =
        engine_node_state.EN_UNCHANGED) := by
  obtain ⟨a⟩ := rtn
  obtain ⟨b⟩ := hifm
  obtain ⟨c⟩ := ntn
  obtain ⟨d⟩ := rres
  obtain ⟨e⟩ := nres
  refine ⟨?_, ?_, ?_, ?_, ?_⟩
  · cases a <;> simp [en_route_table_notify_run]
  · cases b <;> simp [en_host_if_monitor_run]
  · cases c <;> simp [en_neighbor_table_notify_run]
  · cases d <;> simp [en_route_exchange_status_run]
  · cases e <;> simp [en_neighbor_exchange_status_run]

/-! ## ovsdb_idl_loop_next_cfg_inc (C30) -/

theorem ovsdb_idl_loop_next_cfg_inc_range (next_cfg : Int) (h0 : 0 ≤ next_cfg)
    (h1 : next_cfg ≤ INT64_MAX) :
    0 ≤ ovsdb_idl_loop_next_cfg_inc next_cfg ∧
      ovsdb_idl_loop_next_cfg_inc next_cfg ≤ INT64_MAX := by
  unfold ovsdb_idl_loop_next_cfg_inc
  split
  · simp [INT64_MAX]
  · rename_i hne
    unfold INT64_MAX at *
    unfold int64_wrap
    have hmod : (next_cfg + 1 + 2 ^ 63) % (2 ^ 64 : Int) = next_cfg + 1 + 2 ^ 63 :=
      Int.emod_eq_of_lt (by omega) (by omega)
    rw [hmod]
    constructor <;> omega

/-- C30: `ovsdb_idl_loop_next_cfg_inc` gives `next_cfg + 1` for every
`next_cfg` in `[0, INT64_MAX)` and 0 for `INT64_MAX`, so a `next_cfg` in
`[0, INT64_MAX]` stays there under any number of increments. -/
theorem ovsdb_idl_loop_next_cfg_inc_spec :
    (∀ next_cfg : Int, 0 ≤ next_cfg → next_cfg < INT64_MAX →
      ovsdb_idl_loop_next_cfg_inc next_cfg = next_cfg + 1) ∧
    ovsdb_idl_loop_next_cfg_inc INT64_MAX = 0 ∧
    (∀ (n : Nat) (next_cfg : Int), 0 ≤ next_cfg → next_cfg ≤ INT64_MAX →
      0 ≤ ovsdb_idl_loop_next_cfg_inc^[n] next_cfg ∧
        ovsdb_idl_loop_next_cfg_inc^[n] next_cfg ≤ INT64_MAX) := by
  refine ⟨?_, ?_, ?_⟩
  · intro next_cfg h0 h1
    unfold ovsdb_idl_loop_next_cfg_inc
    have hne : next_cfg ≠ INT64_MAX := by omega
    rw [if_neg hne]
    unfold INT64_MAX at h1
    unfold int64_wrap
    have hmod : (next_cfg + 1 + 2 ^ 63) % (2 ^ 64 : Int) = next_cfg + 1 + 2 ^ 63 :=
      Int.emod_eq_of_lt (by omega) (by omega)
    rw [hmod]
    omega
  · simp [ovsdb_idl_loop_next_cfg_inc]
  · intro n
    induction n with
    | zero => intro next_cfg h0 h1; exact ⟨h0, h1⟩
    | succ n ih =>
      intro next_cfg h0 h1
      rw [Function.iterate_succ_apply]
      obtain ⟨h2, h3⟩ := ovsdb_idl_loop_next_cfg_inc_range next_cfg h0 h1
      exact ih _ h2 h3

/-! ## The interface shadow node (C22) -/

theorem smap_clone_eq (src : smap) : smap_clone src = src := by
  unfold smap_clone
  induction src with
  | nil => rfl
  | cons a as ih => simp

theorem shadow_fold_eq (iface_table : List ovsrec_interface) (old : List (String × smap)) :
    iface_table.foldl
        (fun old iface_rec => shash_add old iface_rec.name (smap_clone iface_rec.external_ids))
        old =
      old ++ iface_table.map (fun iface_rec => (iface_rec.name, iface_rec.external_ids)) := by
  induction iface_table generalizing old with
  | nil => simp
  | cons a as ih =>
    simp only [List.foldl_cons, List.map_cons]
    rw [ih, smap_clone_eq]
    simp [shash_add]

theorem shash_find_data_map_nodup {α C : Type} (l : List α) (key : α → String) (val : α → C)
    (hnd : (l.map key).Nodup) (a : α) (ha : a ∈ l) :
    shash_find_data (l.map (fun x => (key x, val x))) (key a) = some (val a) := by
  induction l with
  | nil => simp at ha
  | cons b bs ih =>
    simp only [List.map_cons, List.nodup_cons] at hnd
    rcases List.mem_cons.mp ha with rfl | hmem
    · simp [shash_find_data]
    · have hne : key b ≠ key a := by
        intro h
        apply hnd.1
        rw [h]
        exact List.mem_map.mpr ⟨a, hmem, rfl⟩
      have := ih hnd.2 hmem
      simp only [shash_find_data, List.map_cons, List.find?_cons, hne, decide_False] at this ⊢
      exact this

/-- C22: after `en_ovs_interface_shadow_clear_tracked_data` the old map holds
exactly one entry per row of the shadowed table, keyed by the interface name
and equal to the row's `external_ids` (found under that name when names are
unique), and nothing else, whatever it held before; without a table it is
empty; the table pointer is untouched. -/
theorem en_ovs_interface_shadow_clear_tracked_data_spec (data : ed_type_ovs_interface_shadow) :
    (∀ iface_table, data.iface_table = some iface_table →
      (en_ovs_interface_shadow_clear_tracked_data data).iface_table_external_ids_old =
          iface_table.map (fun iface_rec => (iface_rec.name, iface_rec.external_ids)) ∧
      (∀ iface_rec ∈ iface_table, (iface_rec.name, iface_rec.external_ids) ∈
        (en_ovs_interface_shadow_clear_tracked_data data).iface_table_external_ids_old) ∧
      (∀ e ∈ (en_ovs_interface_shadow_clear_tracked_data data).iface_table_external_ids_old,
        ∃ iface_rec ∈ iface_table, e = (iface_rec.name, iface_rec.external_ids)) ∧
      ((iface_table.map (fun iface_rec => iface_rec.name)).Nodup →
        ∀ iface_rec ∈ iface_table,
          shash_find_data
            (en_ovs_interface_shadow_clear_tracked_data data).iface_table_external_ids_old
            iface_rec.name = some iface_rec.external_ids)) ∧
    (data.iface_table = none →
      (en_ovs_interface_shadow_clear_tracked_data data).iface_table_external_ids_old = []) ∧
    (en_ovs_interface_shadow_clear_tracked_data data).iface_table = data.iface_table := by
  obtain ⟨tbl, old⟩ := data
  cases tbl with
  | none => simp [en_ovs_interface_shadow_clear_tracked_data]
  | some iface_table =>
    have hres : (en_ovs_interface_shadow_clear_tracked_data
        { iface_table := some iface_table,
          iface_table_external_ids_old := old }).iface_table_external_ids_old =
        iface_table.map (fun iface_rec => (iface_rec.name, iface_rec.external_ids)) := by
      simp only [en_ovs_interface_shadow_clear_tracked_data]
      rw [shadow_fold_eq]
      simp
    refine ⟨?_, ?_, ?_⟩
    · intro t ht
      cases ht
      rw [hres]
      refine ⟨rfl, ?_, ?_, ?_⟩
      · intro iface_rec hmem
        exact List.mem_map.mpr ⟨iface_rec, hmem, rfl⟩
      · intro e he
        obtain ⟨r, hr, hre⟩ := List.mem_map.mp he
        exact ⟨r, hr, hre.symm⟩
      · intro hnd iface_rec hmem
        exact shash_find_data_map_nodup iface_table (fun r => r.name) (fun r => r.external_ids)
          hnd iface_rec hmem
    · intro h
      cases h
    · simp [en_ovs_interface_shadow_clear_tracked_data]

/-! ## The neighbor node's datapath-binding handler (C28) -/

/-- C28: on the tracked rows [a new row; a row that is neither new nor
deleted, of a local switch datapath, with `external_ids` updated]
`neighbor_sb_datapath_binding_handler` returns `EN_HANDLED_UNCHANGED` at the
new row, although the second row alone makes it return `EN_UNHANDLED`. -/
theorem neighbor_sb_datapath_binding_handler_new_row_first :
    neighbor_sb_datapath_binding_handler
        [{ datapath := { uuid := 7, tunnel_key := 3 }, is_switch := true }] (fun _ => true)
        [{ row := { uuid := 8, tunnel_key := 4 }, is_new := true, is_deleted := false },
         { row := { uuid := 7, tunnel_key := 3 }, is_new := false, is_deleted := false }] =
      engine_input_handler_result.EN_HANDLED_UNCHANGED ∧
    neighbor_sb_datapath_binding_handler
        [{ datapath := { uuid := 7, tunnel_key := 3 }, is_switch := true }] (fun _ => true)
        [{ row := { uuid := 7, tunnel_key := 3 }, is_new := false, is_deleted := false }] =
      engine_input_handler_result.EN_UNHANDLED := by
  constructor <;> decide

/-! ## Runtime-data handlers of the flow output nodes (C23, C26) -/

theorem lflow_handle_lports_ok {F : Type} (ops : lflow_ops F)
    (lport_ok : sbrec_port_binding → Bool → Bool)
    (hlp : ∀ s pb removed, (ops.lflow_handle_flows_for_lport s pb removed).1 = lport_ok pb removed)
    (lports : List tracked_lport) (fo : F) :
    (lflow_handle_lports ops lports fo).1 = false ↔
      ∃ lp ∈ lports, lport_ok lp.pb
        (decide (lp.tracked_type = en_tracked_resource_type.TRACKED_RESOURCE_REMOVED)) = false := by
  induction lports generalizing fo with
  | nil => simp [lflow_handle_lports]
  | cons lp rest ih =>
    simp only [lflow_handle_lports, List.mem_cons, exists_eq_or_imp]
    cases h : lport_ok lp.pb
        (decide (lp.tracked_type = en_tracked_resource_type.TRACKED_RESOURCE_REMOVED)) with
    | false => simp [hlp, h]
    | true => simp [hlp, h, ih]

theorem lflow_handle_tracked_results {F : Type} (ops : lflow_ops F)
    (tracked : List tracked_datapath) (fo : F) :
    (lflow_handle_tracked ops tracked fo).1 = engine_input_handler_result.EN_UNHANDLED ∨
      (lflow_handle_tracked ops tracked fo).1 = engine_input_handler_result.EN_HANDLED_UPDATED := by
  induction tracked generalizing fo with
  | nil => simp [lflow_handle_tracked]
  | cons tdp rest ih =>
    simp only [lflow_handle_tracked]
    split_ifs <;> first | exact Or.inl rfl | exact ih _

theorem lflow_handle_tracked_ok {F : Type} (ops : lflow_ops F)
    (add_ok : sbrec_datapath_binding → Bool) (lport_ok : sbrec_port_binding → Bool → Bool)
    (hadd : ∀ s dp, (ops.lflow_add_flows_for_datapath s dp).1 = add_ok dp)
    (hlp : ∀ s pb removed, (ops.lflow_handle_flows_for_lport s pb removed).1 = lport_ok pb removed)
    (tracked : List tracked_datapath) (fo : F) :
    (lflow_handle_tracked ops tracked fo).1 = engine_input_handler_result.EN_UNHANDLED ↔
      ∃ tdp ∈ tracked,
        (tdp.tracked_type = en_tracked_resource_type.TRACKED_RESOURCE_NEW ∧
          add_ok tdp.dp = false) ∨
        ∃ lp ∈ tdp.lports, lport_ok lp.pb
          (decide (lp.tracked_type = en_tracked_resource_type.TRACKED_RESOURCE_REMOVED)) =
            false := by
  induction tracked generalizing fo with
  | nil => simp [lflow_handle_tracked]
  | cons tdp rest ih =>
    by_cases hnew : tdp.tracked_type = en_tracked_resource_type.TRACKED_RESOURCE_NEW
    · cases ha : add_ok tdp.dp with
      | false => simp [lflow_handle_tracked, hnew, hadd, ha]
      | true =>
        cases hl : (lflow_handle_lports ops tdp.lports
            (ops.lflow_add_flows_for_datapath fo tdp.dp).2).1 with
        | false =>
          have hex := (lflow_handle_lports_ok ops lport_ok hlp _ _).mp hl
          simp [lflow_handle_tracked, hnew, hadd, ha, hl, hex]
        | true =>
          have hno := (lflow_handle_lports_ok ops lport_ok hlp tdp.lports
            (ops.lflow_add_flows_for_datapath fo tdp.dp).2).not.mp (by simp [hl])
          simp [lflow_handle_tracked, hnew, hadd, ha, hl, ih, hno]
    · cases hl : (lflow_handle_lports ops tdp.lports fo).1 with
      | false =>
        have hex := (lflow_handle_lports_ok ops lport_ok hlp _ _).mp hl
        simp [lflow_handle_tracked, hnew, hl, hex]
      | true =>
        have hno := (lflow_handle_lports_ok ops lport_ok hlp tdp.lports fo).not.mp (by simp [hl])
        simp [lflow_handle_tracked, hnew, hl, ih, hno]

theorem lflow_handle_tracked_append {F : Type} (ops : lflow_ops F)
    (pre rest : List tracked_datapath) (fo s : F)
    (hpre : lflow_handle_tracked ops pre fo = (engine_input_handler_result.EN_HANDLED_UPDATED, s)) :
    lflow_handle_tracked ops (pre ++ rest) fo = lflow_handle_tracked ops rest s := by
  induction pre generalizing fo with
  | nil =>
    simp only [lflow_handle_tracked, Prod.mk.injEq, true_and] at hpre
    rw [List.nil_append, hpre]
  | cons tdp pre ih =>
    simp only [List.cons_append, lflow_handle_tracked] at hpre ⊢
    split_ifs at hpre ⊢ <;> first | cases hpre | exact ih _ hpre

theorem lflow_handle_lports_append {F : Type} (ops : lflow_ops F)
    (lpre rest : List tracked_lport) (s1 s2 : F)
    (hpre : lflow_handle_lports ops lpre s1 = (true, s2)) :
    lflow_handle_lports ops (lpre ++ rest) s1 = lflow_handle_lports ops rest s2 := by
  induction lpre generalizing s1 with
  | nil =>
    simp only [lflow_handle_lports, Prod.mk.injEq, true_and] at hpre
    rw [List.nil_append, hpre]
  | cons lp lpre ih =>
    simp only [List.cons_append, lflow_handle_lports] at hpre ⊢
    split_ifs at hpre ⊢ <;> first | cases hpre | exact ih _ hpre

theorem lflow_handle_lports_all_ok {F : Type} (ops : lflow_ops F)
    (lport_ok : sbrec_port_binding → Bool → Bool)
    (hlp : ∀ s pb removed, (ops.lflow_handle_flows_for_lport s pb removed).1 = lport_ok pb removed)
    (lports : List tracked_lport) (fo : F)
    (hok : ∀ lp ∈ lports, lport_ok lp.pb
      (decide (lp.tracked_type = en_tracked_resource_type.TRACKED_RESOURCE_REMOVED)) = true) :
    lflow_handle_lports ops lports fo =
      (true, lports.foldl
        (fun s lp => (ops.lflow_handle_flows_for_lport s lp.pb
          (decide (lp.tracked_type = en_tracked_resource_type.TRACKED_RESOURCE_REMOVED))).2)
        fo) := by
  induction lports generalizing fo with
  | nil => rfl
  | cons lp rest ih =>
    have h1 := hok lp (List.mem_cons_self _ _)
    simp only [lflow_handle_lports, hlp, h1, Bool.not_true, Bool.false_eq_true, if_false,
      List.foldl_cons]
    exact ih _ (fun l hl => hok l (List.mem_cons_of_mem _ hl))

theorem lflow_handle_tracked_all_ok {F : Type} (ops : lflow_ops F)
    (add_ok : sbrec_datapath_binding → Bool) (lport_ok : sbrec_port_binding → Bool → Bool)
    (hadd : ∀ s dp, (ops.lflow_add_flows_for_datapath s dp).1 = add_ok dp)
    (hlp : ∀ s pb removed, (ops.lflow_handle_flows_for_lport s pb removed).1 = lport_ok pb removed)
    (tracked : List tracked_datapath) (fo : F)
    (hok : ∀ tdp ∈ tracked,
      (tdp.tracked_type = en_tracked_resource_type.TRACKED_RESOURCE_NEW →
        add_ok tdp.dp = true) ∧
      ∀ lp ∈ tdp.lports, lport_ok lp.pb
        (decide (lp.tracked_type = en_tracked_resource_type.TRACKED_RESOURCE_REMOVED)) = true) :
    lflow_handle_tracked ops tracked fo =
      (engine_input_handler_result.EN_HANDLED_UPDATED,
       tracked.foldl
        (fun s tdp =>
          tdp.lports.foldl
            (fun s lp => (ops.lflow_handle_flows_for_lport s lp.pb
              (decide (lp.tracked_type = en_tracked_resource_type.TRACKED_RESOURCE_REMOVED))).2)
            (if tdp.tracked_type = en_tracked_resource_type.TRACKED_RESOURCE_NEW then
              (ops.lflow_add_flows_for_datapath s tdp.dp).2 else s))
        fo) := by
  induction tracked generalizing fo with
  | nil => rfl
  | cons tdp rest ih =>
    obtain ⟨h1, h2⟩ := hok tdp (List.mem_cons_self _ _)
    have hrest := fun s => ih s (fun t ht => hok t (List.mem_cons_of_mem _ ht))
    by_cases hnew : tdp.tracked_type = en_tracked_resource_type.TRACKED_RESOURCE_NEW
    · have hl := lflow_handle_lports_all_ok ops lport_ok hlp tdp.lports
        (ops.lflow_add_flows_for_datapath fo tdp.dp).2 h2
      simp only [lflow_handle_tracked, hnew, if_true, hadd, h1 hnew, Bool.not_true,
        Bool.false_eq_true, if_false, hl, List.foldl_cons]
      exact hrest _
    · have hl := lflow_handle_lports_all_ok ops lport_ok hlp tdp.lports fo h2
      simp only [lflow_handle_tracked, hnew, if_false, Bool.not_true, Bool.false_eq_true, hl,
        List.foldl_cons]
      exact hrest _

/-- C23: `lflow_output_runtime_data_handler` returns `EN_UNHANDLED` and leaves
the output context alone when runtime data is not tracked; with tracked data
and no tracked datapath it returns `EN_HANDLED_UPDATED` if
`local_lports_changed` and `EN_HANDLED_UNCHANGED` otherwise, again leaving the
context alone; with tracked datapaths it returns `EN_UNHANDLED` exactly when
adding flows for a new datapath or handling flows for a tracked lport fails
(the success of a call being `add_ok`, `lport_ok` of its arguments), at once:
after the calls before it succeeded, a failing add for a new datapath, and
likewise a failing call for a tracked lport, ends the handler with the context
that very call left; and when no call fails it returns `EN_HANDLED_UPDATED`
with the context all the calls, in order, left. -/
theorem lflow_output_runtime_data_handler_spec {F : Type} (ops : lflow_ops F)
    (rt_tracked : Bool) (tracked_dp_bindings : List tracked_datapath)
    (local_lports_changed : Bool) (fo : F)
    (add_ok : sbrec_datapath_binding → Bool) (lport_ok : sbrec_port_binding → Bool → Bool)
    (hadd : ∀ s dp, (ops.lflow_add_flows_for_datapath s dp).1 = add_ok dp)
    (hlp : ∀ s pb removed,
      (ops.lflow_handle_flows_for_lport s pb removed).1 = lport_ok pb removed) :
    (rt_tracked = false →
      lflow_output_runtime_data_handler ops rt_tracked tracked_dp_bindings local_lports_changed
        fo = (engine_input_handler_result.EN_UNHANDLED, fo)) ∧
    (rt_tracked = true → tracked_dp_bindings = [] →
      lflow_output_runtime_data_handler ops rt_tracked tracked_dp_bindings local_lports_changed
        fo =
        (if local_lports_changed then engine_input_handler_result.EN_HANDLED_UPDATED
         else engine_input_handler_result.EN_HANDLED_UNCHANGED, fo)) ∧
    (rt_tracked = true → tracked_dp_bindings ≠ [] →
      ((lflow_output_runtime_data_handler ops rt_tracked tracked_dp_bindings
          local_lports_changed fo).1 = engine_input_handler_result.EN_UNHANDLED ↔
        ∃ tdp ∈ tracked_dp_bindings,
          (tdp.tracked_type = en_tracked_resource_type.TRACKED_RESOURCE_NEW ∧
            add_ok tdp.dp = false) ∨
          ∃ lp ∈ tdp.lports, lport_ok lp.pb
            (decide (lp.tracked_type = en_tracked_resource_type.TRACKED_RESOURCE_REMOVED)) =
              false) ∧
      ((lflow_output_runtime_data_handler ops rt_tracked tracked_dp_bindings
          local_lports_changed fo).1 ≠ engine_input_handler_result.EN_UNHANDLED →
        (lflow_output_runtime_data_handler ops rt_tracked tracked_dp_bindings
          local_lports_changed fo).1 = engine_input_handler_result.EN_HANDLED_UPDATED)) ∧
    (rt_tracked = true →
      ∀ pre tdp post s, tracked_dp_bindings = pre ++ tdp :: post →
        lflow_handle_tracked ops pre fo = (engine_input_handler_result.EN_HANDLED_UPDATED, s) →
        tdp.tracked_type = en_tracked_resource_type.TRACKED_RESOURCE_NEW →
        add_ok tdp.dp = false →
        lflow_output_runtime_data_handler ops rt_tracked tracked_dp_bindings
          local_lports_changed fo =
          (engine_input_handler_result.EN_UNHANDLED,
           (ops.lflow_add_flows_for_datapath s tdp.dp).2)) ∧
    (rt_tracked = true →
      ∀ pre tdp post s lpre lp lpost s2, tracked_dp_bindings = pre ++ tdp :: post →
        lflow_handle_tracked ops pre fo = (engine_input_handler_result.EN_HANDLED_UPDATED, s) →
        (tdp.tracked_type = en_tracked_resource_type.TRACKED_RESOURCE_NEW →
          add_ok tdp.dp = true) →
        tdp.lports = lpre ++ lp :: lpost →
        lflow_handle_lports ops lpre
            (if tdp.tracked_type = en_tracked_resource_type.TRACKED_RESOURCE_NEW then
              (ops.lflow_add_flows_for_datapath s tdp.dp).2 else s) = (true, s2) →
        lport_ok lp.pb
          (decide (lp.tracked_type = en_tracked_resource_type.TRACKED_RESOURCE_REMOVED)) =
            false →
        lflow_output_runtime_data_handler ops rt_tracked tracked_dp_bindings
          local_lports_changed fo =
          (engine_input_handler_result.EN_UNHANDLED,
           (ops.lflow_handle_flows_for_lport s2 lp.pb
            (decide (lp.tracked_type =
              en_tracked_resource_type.TRACKED_RESOURCE_REMOVED))).2)) ∧
    (rt_tracked = true → tracked_dp_bindings ≠ [] →
      (∀ tdp ∈ tracked_dp_bindings,
        (tdp.tracked_type = en_tracked_resource_type.TRACKED_RESOURCE_NEW →
          add_ok tdp.dp = true) ∧
        ∀ lp ∈ tdp.lports, lport_ok lp.pb
          (decide (lp.tracked_type = en_tracked_resource_type.TRACKED_RESOURCE_REMOVED)) =
            true) →
      lflow_output_runtime_data_handler ops rt_tracked tracked_dp_bindings
        local_lports_changed fo =
        (engine_input_handler_result.EN_HANDLED_UPDATED,
         tracked_dp_bindings.foldl
          (fun s tdp =>
            tdp.lports.foldl
              (fun s lp => (ops.lflow_handle_flows_for_lport s lp.pb
                (decide (lp.tracked_type =
                  en_tracked_resource_type.TRACKED_RESOURCE_REMOVED))).2)
              (if tdp.tracked_type = en_tracked_resource_type.TRACKED_RESOURCE_NEW then
                (ops.lflow_add_flows_for_datapath s tdp.dp).2 else s))
          fo)) := by
  have hdef : rt_tracked = true → tracked_dp_bindings ≠ [] →
      lflow_output_runtime_data_handler ops rt_tracked tracked_dp_bindings
        local_lports_changed fo = lflow_handle_tracked ops tracked_dp_bindings fo := by
    intro h1 h2
    have he : tracked_dp_bindings.isEmpty = false := by
      cases tracked_dp_bindings with
      | nil => exact absurd rfl h2
      | cons a as => rfl
    simp [lflow_output_runtime_data_handler, h1, he]
  refine ⟨?_, ?_, ?_, ?_, ?_, ?_⟩
  · intro h
    simp [lflow_output_runtime_data_handler, h]
  · intro h1 h2
    simp [lflow_output_runtime_data_handler, h1, h2]
  · intro h1 h2
    rw [hdef h1 h2]
    refine ⟨lflow_handle_tracked_ok ops add_ok lport_ok hadd hlp _ _, ?_⟩
    intro hne
    rcases lflow_handle_tracked_results ops tracked_dp_bindings fo with h | h
    · exact absurd h hne
    · exact h
  · intro h1 pre tdp post s htr hpre hnew hfail
    have hne : tracked_dp_bindings ≠ [] := by
      rw [htr]; simp
    rw [hdef h1 hne, htr, lflow_handle_tracked_append ops pre (tdp :: post) fo s hpre]
    have hf : (ops.lflow_add_flows_for_datapath s tdp.dp).1 = false := by
      rw [hadd]; exact hfail
    simp [lflow_handle_tracked, hnew, hf]
  · intro h1 pre tdp post s lpre lp lpost s2 htr hpre haddok hlports hlpre hfail
    have hne : tracked_dp_bindings ≠ [] := by
      rw [htr]; simp
    rw [hdef h1 hne, htr, lflow_handle_tracked_append ops pre (tdp :: post) fo s hpre]
    have hf : (ops.lflow_handle_flows_for_lport s2 lp.pb
        (decide (lp.tracked_type = en_tracked_resource_type.TRACKED_RESOURCE_REMOVED))).1 =
        false := by
      rw [hlp]; exact hfail
    have hl : ∀ s1, lflow_handle_lports ops lpre s1 = (true, s2) →
        lflow_handle_lports ops tdp.lports s1 =
          (false, (ops.lflow_handle_flows_for_lport s2 lp.pb
            (decide (lp.tracked_type =
              en_tracked_resource_type.TRACKED_RESOURCE_REMOVED))).2) := by
      intro s1 hs1
      rw [hlports, lflow_handle_lports_append ops lpre (lp :: lpost) s1 s2 hs1]
      simp [lflow_handle_lports, hf]
    by_cases hnew : tdp.tracked_type = en_tracked_resource_type.TRACKED_RESOURCE_NEW
    · have ha : (ops.lflow_add_flows_for_datapath s tdp.dp).1 = true := by
        rw [hadd]; exact haddok hnew
      rw [if_pos hnew] at hlpre
      simp [lflow_handle_tracked, hnew, ha, hl _ hlpre]
    · rw [if_neg hnew] at hlpre
      simp [lflow_handle_tracked, hnew, hl _ hlpre]
  · intro h1 h2 hok
    rw [hdef h1 h2]
    exact lflow_handle_tracked_all_ok ops add_ok lport_ok hadd hlp _ _ hok

/-- Witness of C23: the context counts the calls; handling flows fails for the
port of UUID 21.  Of the tracked ports [20, 21, 22] of the one tracked
datapath the second fails after two calls, the third is not visited. -/
theorem lflow_output_runtime_data_handler_spec_witness :
    lflow_output_runtime_data_handler
        ({ lflow_add_flows_for_datapath := fun s _ => (true, s + 1)
           lflow_handle_flows_for_lport := fun s pb _ => (decide (pb.uuid ≠ 21), s + 1) } :
          lflow_ops Nat)
        true
        [{ dp := { uuid := 7, tunnel_key := 3 },
           tracked_type := en_tracked_resource_type.TRACKED_RESOURCE_UPDATED,
           lports := [{ pb := { uuid := 20, logical_port := "lp1", type := "",
                                parent_port := none, chassis := none },
                        tracked_type := en_tracked_resource_type.TRACKED_RESOURCE_NEW },
                      { pb := { uuid := 21, logical_port := "lp2", type := "",
                                parent_port := none, chassis := none },
                        tracked_type := en_tracked_resource_type.TRACKED_RESOURCE_NEW },
                      { pb := { uuid := 22, logical_port := "lp3", type := "",
                                parent_port := none, chassis := none },
                        tracked_type := en_tracked_resource_type.TRACKED_RESOURCE_NEW }] }]
        false 0 = (engine_input_handler_result.EN_UNHANDLED, 2) :=
  (lflow_output_runtime_data_handler_spec
    ({ lflow_add_flows_for_datapath := fun s _ => (true, s + 1)
       lflow_handle_flows_for_lport := fun s pb _ => (decide (pb.uuid ≠ 21), s + 1) } :
      lflow_ops Nat)
    true
    [{ dp := { uuid := 7, tunnel_key := 3 },
       tracked_type := en_tracked_resource_type.TRACKED_RESOURCE_UPDATED,
       lports := [{ pb := { uuid := 20, logical_port := "lp1", type := "",
                            parent_port := none, chassis := none },
                    tracked_type := en_tracked_resource_type.TRACKED_RESOURCE_NEW },
                  { pb := { uuid := 21, logical_port := "lp2", type := "",
                            parent_port := none, chassis := none },
                    tracked_type := en_tracked_resource_type.TRACKED_RESOURCE_NEW },
                  { pb := { uuid := 22, logical_port := "lp3", type := "",
                            parent_port := none, chassis := none },
                    tracked_type := en_tracked_resource_type.TRACKED_RESOURCE_NEW }] }]
    false 0 (fun _ => true) (fun pb _ => decide (pb.uuid ≠ 21))
    (fun _ _ => rfl) (fun _ _ _ => rfl)).2.2.2.2.1 rfl
    []
    { dp := { uuid := 7, tunnel_key := 3 },
      tracked_type := en_tracked_resource_type.TRACKED_RESOURCE_UPDATED,
      lports := [{ pb := { uuid := 20, logical_port := "lp1", type := "",
                           parent_port := none, chassis := none },
                   tracked_type := en_tracked_resource_type.TRACKED_RESOURCE_NEW },
                 { pb := { uuid := 21, logical_port := "lp2", type := "",
                           parent_port := none, chassis := none },
                   tracked_type := en_tracked_resource_type.TRACKED_RESOURCE_NEW },
                 { pb := { uuid := 22, logical_port := "lp3", type := "",
                           parent_port := none, chassis := none },
                   tracked_type := en_tracked_resource_type.TRACKED_RESOURCE_NEW }] }
    [] 0
    [{ pb := { uuid := 20, logical_port := "lp1", type := "",
               parent_port := none, chassis := none },
       tracked_type := en_tracked_resource_type.TRACKED_RESOURCE_NEW }]
    { pb := { uuid := 21, logical_port := "lp2", type := "",
              parent_port := none, chassis := none },
      tracked_type := en_tracked_resource_type.TRACKED_RESOURCE_NEW }
    [{ pb := { uuid := 22, logical_port := "lp3", type := "",
               parent_port := none, chassis := none },
       tracked_type := en_tracked_resource_type.TRACKED_RESOURCE_NEW }]
    1 rfl rfl (fun _ => rfl) rfl (by decide) (by decide)

theorem pflow_handle_lports_ok {P : Type}
    (physical_handle_flows_for_lport : sbrec_port_binding → Bool → P → Bool × P)
    (lport_ok : sbrec_port_binding → Bool → Bool)
    (hlp : ∀ pb removed s, (physical_handle_flows_for_lport pb removed s).1 = lport_ok pb removed)
    (lports : List tracked_lport) (flow_table : P) :
    (pflow_handle_lports physical_handle_flows_for_lport lports flow_table).1 = false ↔
      ∃ lp ∈ lports, lport_ok lp.pb
        (decide (lp.tracked_type = en_tracked_resource_type.TRACKED_RESOURCE_REMOVED)) = false := by
  induction lports generalizing flow_table with
  | nil => simp [pflow_handle_lports]
  | cons lp rest ih =>
    have hrem : (if lp.tracked_type = en_tracked_resource_type.TRACKED_RESOURCE_REMOVED then true
        else false) =
        decide (lp.tracked_type = en_tracked_resource_type.TRACKED_RESOURCE_REMOVED) := by
      by_cases h : lp.tracked_type = en_tracked_resource_type.TRACKED_RESOURCE_REMOVED <;>
        simp [h]
    simp only [pflow_handle_lports, List.mem_cons, exists_eq_or_imp, hrem]
    cases h : lport_ok lp.pb
        (decide (lp.tracked_type = en_tracked_resource_type.TRACKED_RESOURCE_REMOVED)) with
    | false => simp [hlp, h]
    | true => simp [hlp, h, ih]

theorem pflow_handle_tracked_results {P : Type}
    (physical_handle_flows_for_lport : sbrec_port_binding → Bool → P → Bool × P)
    (tracked : List tracked_datapath) (flow_table : P) :
    (pflow_handle_tracked physical_handle_flows_for_lport tracked flow_table).1 =
        engine_input_handler_result.EN_UNHANDLED ∨
      (pflow_handle_tracked physical_handle_flows_for_lport tracked flow_table).1 =
        engine_input_handler_result.EN_HANDLED_UPDATED := by
  induction tracked generalizing flow_table with
  | nil => simp [pflow_handle_tracked]
  | cons tdp rest ih =>
    simp only [pflow_handle_tracked]
    split_ifs <;> first | exact Or.inl rfl | exact ih _

theorem pflow_handle_tracked_ok {P : Type}
    (physical_handle_flows_for_lport : sbrec_port_binding → Bool → P → Bool × P)
    (lport_ok : sbrec_port_binding → Bool → Bool)
    (hlp : ∀ pb removed s, (physical_handle_flows_for_lport pb removed s).1 = lport_ok pb removed)
    (tracked : List tracked_datapath) (flow_table : P) :
    (pflow_handle_tracked physical_handle_flows_for_lport tracked flow_table).1 =
        engine_input_handler_result.EN_UNHANDLED ↔
      ∃ tdp ∈ tracked,
        tdp.tracked_type ≠ en_tracked_resource_type.TRACKED_RESOURCE_UPDATED ∨
        ∃ lp ∈ tdp.lports, lport_ok lp.pb
          (decide (lp.tracked_type = en_tracked_resource_type.TRACKED_RESOURCE_REMOVED)) =
            false := by
  induction tracked generalizing flow_table with
  | nil => simp [pflow_handle_tracked]
  | cons tdp rest ih =>
    by_cases hupd : tdp.tracked_type = en_tracked_resource_type.TRACKED_RESOURCE_UPDATED
    · cases hl : (pflow_handle_lports physical_handle_flows_for_lport tdp.lports
          flow_table).1 with
      | false =>
        have hex := (pflow_handle_lports_ok physical_handle_flows_for_lport lport_ok hlp _ _).mp hl
        simp [pflow_handle_tracked, hupd, hl, hex]
      | true =>
        have hno := (pflow_handle_lports_ok physical_handle_flows_for_lport lport_ok hlp
          tdp.lports flow_table).not.mp (by simp [hl])
        simp [pflow_handle_tracked, hupd, hl, ih, hno]
    · simp [pflow_handle_tracked, hupd]

/-- C26: `pflow_output_runtime_data_handler` returns `EN_UNHANDLED` exactly
when runtime data is not tracked, or some tracked datapath has a tracked type
other than updated, or handling flows for some tracked lport fails (the
success of a call being `lport_ok` of its arguments); it returns
`EN_HANDLED_UNCHANGED`, leaving the flow table alone, when runtime data is
tracked and the tracked datapath set is empty, and `EN_HANDLED_UPDATED`
otherwise. -/
theorem pflow_output_runtime_data_handler_spec {P : Type}
    (physical_handle_flows_for_lport : sbrec_port_binding → Bool → P → Bool × P)
    (rt_tracked : Bool) (tracked_dp_bindings : List tracked_datapath) (flow_table : P)
    (lport_ok : sbrec_port_binding → Bool → Bool)
    (hlp : ∀ pb removed s,
      (physical_handle_flows_for_lport pb removed s).1 = lport_ok pb removed) :
    ((pflow_output_runtime_data_handler physical_handle_flows_for_lport rt_tracked
        tracked_dp_bindings flow_table).1 = engine_input_handler_result.EN_UNHANDLED ↔
      (rt_tracked = false ∨
        ∃ tdp ∈ tracked_dp_bindings,
          tdp.tracked_type ≠ en_tracked_resource_type.TRACKED_RESOURCE_UPDATED ∨
          ∃ lp ∈ tdp.lports, lport_ok lp.pb
            (decide (lp.tracked_type = en_tracked_resource_type.TRACKED_RESOURCE_REMOVED)) =
              false)) ∧
    (rt_tracked = false →
      pflow_output_runtime_data_handler physical_handle_flows_for_lport rt_tracked
        tracked_dp_bindings flow_table = (engine_input_handler_result.EN_UNHANDLED, flow_table)) ∧
    (rt_tracked = true → tracked_dp_bindings = [] →
      pflow_output_runtime_data_handler physical_handle_flows_for_lport rt_tracked
        tracked_dp_bindings flow_table =
        (engine_input_handler_result.EN_HANDLED_UNCHANGED, flow_table)) ∧
    (rt_tracked = true → tracked_dp_bindings ≠ [] →
      (pflow_output_runtime_data_handler physical_handle_flows_for_lport rt_tracked
          tracked_dp_bindings flow_table).1 ≠ engine_input_handler_result.EN_UNHANDLED →
      (pflow_output_runtime_data_handler physical_handle_flows_for_lport rt_tracked
          tracked_dp_bindings flow_table).1 = engine_input_handler_result.EN_HANDLED_UPDATED) := by
  cases rt_tracked with
  | false => simp [pflow_output_runtime_data_handler]
  | true =>
    cases tracked_dp_bindings with
    | nil => simp [pflow_output_runtime_data_handler]
    | cons tdp rest =>
      have hdef : pflow_output_runtime_data_handler physical_handle_flows_for_lport true
          (tdp :: rest) flow_table =
          pflow_handle_tracked physical_handle_flows_for_lport (tdp :: rest) flow_table := by
        simp [pflow_output_runtime_data_handler]
      rw [hdef]
      refine ⟨?_, ?_, ?_, ?_⟩
      · rw [pflow_handle_tracked_ok physical_handle_flows_for_lport lport_ok hlp]
        simp
      · intro h; cases h
      · intro _ h; cases h
      · intro _ _ hne
        rcases pflow_handle_tracked_results physical_handle_flows_for_lport (tdp :: rest)
          flow_table with h | h
        · exact absurd h hne
        · exact h

/-- Witness of C26: the flow table counts the calls, every call succeeds; one
tracked datapath of type updated with one new port gives `EN_HANDLED_UPDATED`. -/
theorem pflow_output_runtime_data_handler_spec_witness :
    (pflow_output_runtime_data_handler (fun _ _ (s : Nat) => (true, s + 1)) true
        [{ dp := { uuid := 7, tunnel_key := 3 },
           tracked_type := en_tracked_resource_type.TRACKED_RESOURCE_UPDATED,
           lports := [{ pb := { uuid := 20, logical_port := "lp1", type := "",
                                parent_port := none, chassis := none },
                        tracked_type := en_tracked_resource_type.TRACKED_RESOURCE_NEW }] }]
        0).1 = engine_input_handler_result.EN_HANDLED_UPDATED :=
  (pflow_output_runtime_data_handler_spec (fun _ _ (s : Nat) => (true, s + 1)) true
    [{ dp := { uuid := 7, tunnel_key := 3 },
       tracked_type := en_tracked_resource_type.TRACKED_RESOURCE_UPDATED,
       lports := [{ pb := { uuid := 20, logical_port := "lp1", type := "",
                            parent_port := none, chassis := none },
                    tracked_type := en_tracked_resource_type.TRACKED_RESOURCE_NEW }] }]
    0 (fun _ _ => true) (fun _ _ _ => rfl)).2.2.2 rfl (by simp) (by decide)

/-! ## parse_encap_ips is a function of the configured set (C29) -/

theorem string_bytes_injective (a b : String) (h : string_bytes a = string_bytes b) : a = b := by
  unfold string_bytes at h
  have hinj : Function.Injective Char.toNat := by
    intro c d hcd
    rw [← Char.ofNat_toNat c, ← Char.ofNat_toNat d, hcd]
  have hd : a.data = b.data := List.map_injective_iff.mpr hinj h
  cases a
  cases b
  simp only at hd
  rw [hd]

theorem strcmp_le_antisymm (a b : String) (h1 : strcmp_le a b) (h2 : strcmp_le b a) : a = b :=
  string_bytes_injective a b (le_antisymm h1 h2)

theorem sset_sort_eq_of_same_members (set1 set2 : List String) (h1 : set1.Nodup)
    (h2 : set2.Nodup) (hmem : ∀ t, t ∈ set1 ↔ t ∈ set2) :
    sset_sort set1 = sset_sort set2 ∧ sset_count set1 = sset_count set2 := by
  haveI : IsAntisymm String strcmp_le := ⟨strcmp_le_antisymm⟩
  have hperm : set1.Perm set2 := (List.perm_ext_iff_of_nodup h1 h2).mpr hmem
  constructor
  · apply List.eq_of_perm_of_sorted (r := strcmp_le)
    · exact ((sset_sort_spec set1).1.trans hperm).trans (sset_sort_spec set2).1.symm
    · exact (sset_sort_spec set1).2
    · exact (sset_sort_spec set2).2
  · exact hperm.length_eq

/-- C29: two Open_vSwitch rows whose `ovn-encap-ip` strings list the same set
of IPs (in any order, with any repetitions) and whose `ovn-encap-ip-default`
is the same give the same `n_encap_ips` and the same array, so every IP has
the same index in both. -/
theorem parse_encap_ips_deterministic (cfg1 cfg2 : ovsrec_open_vswitch)
    (rest1 rest2 : List ovsrec_open_vswitch) (chassis_id : String) (s1 s2 : String)
    (h1 : get_chassis_external_id_value cfg1.external_ids chassis_id "ovn-encap-ip" none =
      some s1)
    (h2 : get_chassis_external_id_value cfg2.external_ids chassis_id "ovn-encap-ip" none =
      some s2)
    (hset : ∀ t, t ∈ strtok_tokens [','] s1.data [] ↔ t ∈ strtok_tokens [','] s2.data [])
    (hdef : get_chassis_external_id_value cfg1.external_ids chassis_id "ovn-encap-ip-default"
        none =
      get_chassis_external_id_value cfg2.external_ids chassis_id "ovn-encap-ip-default" none) :
    parse_encap_ips (cfg1 :: rest1) chassis_id = parse_encap_ips (cfg2 :: rest2) chassis_id ∧
    ∃ n_encap_ips encap_ips,
      parse_encap_ips (cfg1 :: rest1) chassis_id = some (n_encap_ips, encap_ips) := by
  have hn1 := (foldl_sset_add_spec (strtok_tokens [','] s1.data []) [] List.nodup_nil)
  have hn2 := (foldl_sset_add_spec (strtok_tokens [','] s2.data []) [] List.nodup_nil)
  have hmem : ∀ t, t ∈ sset_from_delimited_string s1 "," ↔
      t ∈ sset_from_delimited_string s2 "," := by
    intro t
    change t ∈ (strtok_tokens [','] s1.data []).foldl sset_add [] ↔
      t ∈ (strtok_tokens [','] s2.data []).foldl sset_add []
    rw [hn1.2 t, hn2.2 t]
    simp [hset t]
  obtain ⟨hsort, hcount⟩ := sset_sort_eq_of_same_members (sset_from_delimited_string s1 ",")
    (sset_from_delimited_string s2 ",") hn1.1 hn2.1 hmem
  have heq : parse_encap_ips (cfg1 :: rest1) chassis_id =
      parse_encap_ips (cfg2 :: rest2) chassis_id := by
    simp only [parse_encap_ips, ovsrec_open_vswitch_table_first, List.head?_cons, h1, h2, hdef,
      hsort, hcount]
  refine ⟨heq, ?_⟩
  simp only [parse_encap_ips, ovsrec_open_vswitch_table_first, List.head?_cons, h1]
  cases get_chassis_external_id_value cfg1.external_ids chassis_id "ovn-encap-ip-default"
      none with
  | none => exact ⟨_, _, rfl⟩
  | some d =>
    simp only []
    cases encap_ip_default_index d
        ((sset_sort (sset_from_delimited_string s1 ",")).take
          (sset_count (sset_from_delimited_string s1 ","))) 0 with
    | none => exact ⟨_, _, rfl⟩
    | some i => exact ⟨_, _, rfl⟩

/-- Witness of C29: "10.0.0.2,10.0.0.1,10.0.0.2" and "10.0.0.1,10.0.0.2" with
the default 10.0.0.2 give the same array. -/
theorem parse_encap_ips_deterministic_witness :
    parse_encap_ips
        [{ uuid := 1,
           external_ids := [("ovn-encap-ip", "10.0.0.2,10.0.0.1,10.0.0.2"),
                            ("ovn-encap-ip-default", "10.0.0.2")],
           bridges := [], datapaths := [] }] "hv1" =
      parse_encap_ips
        [{ uuid := 1,
           external_ids := [("ovn-encap-ip", "10.0.0.1,10.0.0.2"),
                            ("ovn-encap-ip-default", "10.0.0.2")],
           bridges := [], datapaths := [] }] "hv1" ∧
    parse_encap_ips
        [{ uuid := 1,
           external_ids := [("ovn-encap-ip", "10.0.0.1,10.0.0.2"),
                            ("ovn-encap-ip-default", "10.0.0.2")],
           bridges := [], datapaths := [] }] "hv1" = some (2, ["10.0.0.2", "10.0.0.1"]) :=
  ⟨(parse_encap_ips_deterministic
      { uuid := 1,
        external_ids := [("ovn-encap-ip", "10.0.0.2,10.0.0.1,10.0.0.2"),
                         ("ovn-encap-ip-default", "10.0.0.2")],
        bridges := [], datapaths := [] }
      { uuid := 1,
        external_ids := [("ovn-encap-ip", "10.0.0.1,10.0.0.2"),
                         ("ovn-encap-ip-default", "10.0.0.2")],
        bridges := [], datapaths := [] }
      [] [] "hv1" "10.0.0.2,10.0.0.1,10.0.0.2" "10.0.0.1,10.0.0.2" (by decide) (by decide)
      (by
        intro t
        have e1 : strtok_tokens [','] "10.0.0.2,10.0.0.1,10.0.0.2".data [] =
            ["10.0.0.2", "10.0.0.1", "10.0.0.2"] := by decide
        have e2 : strtok_tokens [','] "10.0.0.1,10.0.0.2".data [] =
            ["10.0.0.1", "10.0.0.2"] := by decide
        rw [e1, e2]
        simp only [List.mem_cons, List.mem_singleton, List.not_mem_nil, or_false]
        tauto)
      (by decide)).1,
   by decide⟩

/-! ## The MAC cache handlers (C27) -/

/-- C27 (counterexample): the cache holds the binding of 10.0.0.1 on the local
datapath 3; the tracked rows are that binding, deleted, and a new binding of
10.0.0.2 on the same datapath.  `mac_cache_sb_mac_binding_handler` returns
`EN_HANDLED_UNCHANGED` although the cached set afterwards (10.0.0.2 only)
differs from the one before. -/
theorem mac_cache_sb_mac_binding_handler_swap :
    (mac_cache_sb_mac_binding_handler sample_mac_binding_ops
        [{ datapath := { uuid := 7, tunnel_key := 3 } }] (fun _ => true)
        [(3, "10.0.0.1", "aa:aa:aa:aa:aa:aa")]
        [{ row := { uuid := 30, logical_port := "lp1", ip := "10.0.0.1",
                    mac := "aa:aa:aa:aa:aa:aa", datapath := { uuid := 7, tunnel_key := 3 } },
           is_new := false, is_deleted := true },
         { row := { uuid := 31, logical_port := "lp1", ip := "10.0.0.2",
                    mac := "bb:bb:bb:bb:bb:bb", datapath := { uuid := 7, tunnel_key := 3 } },
           is_new := true, is_deleted := false }]) =
      (engine_input_handler_result.EN_HANDLED_UNCHANGED,
       [(3, "10.0.0.2", "bb:bb:bb:bb:bb:bb")]) ∧
    [((3 : Int), "10.0.0.2", "bb:bb:bb:bb:bb:bb")] ≠ [(3, "10.0.0.1", "aa:aa:aa:aa:aa:aa")] := by
  constructor <;> decide

/-- C27 (amended): `mac_cache_sb_mac_binding_handler` returns
`EN_HANDLED_UNCHANGED` exactly when the number of cached MAC bindings after
the call equals the number before, and `EN_HANDLED_UPDATED` exactly when it
differs; without tracked rows the cache is left as it was.  The same holds
for `mac_cache_sb_fdb_handler` and the cached FDB entries. -/
theorem mac_cache_handlers_report_size_change {M D B M2 D2 B2 : Type}
    (ops : mac_binding_ops M D B) (fops : fdb_ops M2 D2 B2)
    (local_datapaths : List local_datapath) (mac_cache_threshold_find : Int → Bool)
    (mac_bindings : M) (tracked : List (idl_tracked sbrec_mac_binding))
    (fdbs : M2) (tracked_fdb : List (idl_tracked sbrec_fdb)) :
    (((mac_cache_sb_mac_binding_handler ops local_datapaths mac_cache_threshold_find
          mac_bindings tracked).1 = engine_input_handler_result.EN_HANDLED_UNCHANGED ↔
        ops.hmap_count (mac_cache_sb_mac_binding_handler ops local_datapaths
          mac_cache_threshold_find mac_bindings tracked).2 = ops.hmap_count mac_bindings) ∧
      ((mac_cache_sb_mac_binding_handler ops local_datapaths mac_cache_threshold_find
          mac_bindings tracked).1 = engine_input_handler_result.EN_HANDLED_UPDATED ↔
        ops.hmap_count (mac_cache_sb_mac_binding_handler ops local_datapaths
          mac_cache_threshold_find mac_bindings tracked).2 ≠ ops.hmap_count mac_bindings) ∧
      mac_cache_sb_mac_binding_handler ops local_datapaths mac_cache_threshold_find
          mac_bindings [] = (engine_input_handler_result.EN_HANDLED_UNCHANGED, mac_bindings)) ∧
    (((mac_cache_sb_fdb_handler fops local_datapaths mac_cache_threshold_find
          fdbs tracked_fdb).1 = engine_input_handler_result.EN_HANDLED_UNCHANGED ↔
        fops.hmap_count (mac_cache_sb_fdb_handler fops local_datapaths
          mac_cache_threshold_find fdbs tracked_fdb).2 = fops.hmap_count fdbs) ∧
      ((mac_cache_sb_fdb_handler fops local_datapaths mac_cache_threshold_find
          fdbs tracked_fdb).1 = engine_input_handler_result.EN_HANDLED_UPDATED ↔
        fops.hmap_count (mac_cache_sb_fdb_handler fops local_datapaths
          mac_cache_threshold_find fdbs tracked_fdb).2 ≠ fops.hmap_count fdbs) ∧
      mac_cache_sb_fdb_handler fops local_datapaths mac_cache_threshold_find
          fdbs [] = (engine_input_handler_result.EN_HANDLED_UNCHANGED, fdbs)) := by
  refine ⟨⟨?_, ?_, ?_⟩, ⟨?_, ?_, ?_⟩⟩
  · simp only [mac_cache_sb_mac_binding_handler]
    split_ifs with h <;> simp_all
  · simp only [mac_cache_sb_mac_binding_handler]
    split_ifs with h <;> simp_all
  · simp [mac_cache_sb_mac_binding_handler]
  · simp only [mac_cache_sb_fdb_handler]
    split_ifs with h <;> simp_all
  · simp only [mac_cache_sb_fdb_handler]
    split_ifs with h <;> simp_all
  · simp [mac_cache_sb_fdb_handler]

/-! ## Load-balancer data (C25) -/

theorem uuidset_insert_mem (set : List uuid) (u v : uuid) :
    v ∈ uuidset_insert set u ↔ (v ∈ set ∨ v = u) := by
  unfold uuidset_insert
  split
  · rename_i h
    constructor
    · exact Or.inl
    · rintro (h1 | h1)
      · exact h1
      · exact h1 ▸ h
  · simp

theorem uuidset_insert_delete (set : List uuid) (u : uuid) (h : u ∉ set) :
    uuidset_find_and_delete (uuidset_insert set u) u = set := by
  unfold uuidset_find_and_delete uuidset_insert
  rw [if_neg h, List.erase_append_right _ h]
  simp

theorem ovn_controller_lb_find_uuid (lbs : List ovn_controller_lb) (u : uuid)
    (lb : ovn_controller_lb) (h : ovn_controller_lb_find lbs u = some lb) : lb.slb.uuid = u := by
  unfold ovn_controller_lb_find at h
  have := List.find?_some h
  simpa using this

theorem ovn_controller_lb_find_append (l1 l2 : List ovn_controller_lb) (u : uuid) :
    (ovn_controller_lb_find (l1 ++ l2) u).isSome =
      ((ovn_controller_lb_find l1 u).isSome || (ovn_controller_lb_find l2 u).isSome) := by
  unfold ovn_controller_lb_find
  rw [List.find?_append]
  cases List.find? (fun lb => decide (lb.slb.uuid = u)) l1 <;> simp

theorem ovn_controller_lb_find_erase_ne (l : List ovn_controller_lb) (lb : ovn_controller_lb)
    (u : uuid) (h : lb.slb.uuid ≠ u) :
    ovn_controller_lb_find (l.erase lb) u = ovn_controller_lb_find l u := by
  unfold ovn_controller_lb_find
  induction l with
  | nil => rfl
  | cons a as ih =>
    by_cases hab : a = lb
    · subst hab
      simp [List.find?_cons, h]
    · have hne : (a == lb) = false := by simpa using hab
      rw [List.erase_cons, hne]
      simp only [Bool.false_eq_true, if_false, List.find?_cons]
      rw [ih]

theorem lb_data_removed_five_tuples_add_fields {T D : Type} (ops : lb_data_ops T D)
    (st : ed_type_lb_data T D) (lb : ovn_controller_lb) :
    (lb_data_removed_five_tuples_add ops st lb).local_lbs = st.local_lbs ∧
    (lb_data_removed_five_tuples_add ops st lb).old_lbs = st.old_lbs ∧
    (lb_data_removed_five_tuples_add ops st lb).deleted = st.deleted ∧
    (lb_data_removed_five_tuples_add ops st lb).updated = st.updated ∧
    (lb_data_removed_five_tuples_add ops st lb).new = st.new := by
  unfold lb_data_removed_five_tuples_add
  split <;> exact ⟨rfl, rfl, rfl, rfl, rfl⟩

theorem lb_data_removed_five_tuples_remove_fields {T D : Type} (ops : lb_data_ops T D)
    (st : ed_type_lb_data T D) (lb : ovn_controller_lb) :
    (lb_data_removed_five_tuples_remove ops st lb).local_lbs = st.local_lbs ∧
    (lb_data_removed_five_tuples_remove ops st lb).old_lbs = st.old_lbs ∧
    (lb_data_removed_five_tuples_remove ops st lb).deleted = st.deleted ∧
    (lb_data_removed_five_tuples_remove ops st lb).updated = st.updated ∧
    (lb_data_removed_five_tuples_remove ops st lb).new = st.new := by
  unfold lb_data_removed_five_tuples_remove
  split <;> exact ⟨rfl, rfl, rfl, rfl, rfl⟩

theorem lb_data_local_lb_remove_fields {T D : Type} (ops : lb_data_ops T D)
    (st : ed_type_lb_data T D) (lb : ovn_controller_lb) :
    (lb_data_local_lb_remove ops st lb).local_lbs = st.local_lbs.erase lb ∧
    (lb_data_local_lb_remove ops st lb).old_lbs = st.old_lbs ++ [lb] ∧
    (lb_data_local_lb_remove ops st lb).deleted = uuidset_insert st.deleted lb.slb.uuid ∧
    (lb_data_local_lb_remove ops st lb).updated = st.updated ∧
    (lb_data_local_lb_remove ops st lb).new = st.new := by
  simp only [lb_data_local_lb_remove]
  obtain ⟨h1, h2, h3, h4, h5⟩ := lb_data_removed_five_tuples_add_fields ops
    { st with deps_mgr := ops.objdep_mgr_remove_obj st.deps_mgr lb.slb.uuid
              local_lbs := st.local_lbs.erase lb } lb
  exact ⟨h1, by rw [h2], by rw [h3], h4, h5⟩

theorem lb_data_local_lb_add_fields {T D : Type} (ops : lb_data_ops T D)
    (st : ed_type_lb_data T D) (slb : sbrec_load_balancer) (tv : smap) :
    (lb_data_local_lb_add ops st slb tv true).local_lbs =
      st.local_lbs ++ [(ops.ovn_controller_lb_create slb tv).1] ∧
    (lb_data_local_lb_add ops st slb tv true).old_lbs = st.old_lbs ∧
    ((ovn_controller_lb_find st.old_lbs slb.uuid).isSome = true →
      (lb_data_local_lb_add ops st slb tv true).deleted =
        uuidset_find_and_delete st.deleted slb.uuid ∧
      (lb_data_local_lb_add ops st slb tv true).updated = uuidset_insert st.updated slb.uuid ∧
      (lb_data_local_lb_add ops st slb tv true).new = st.new) ∧
    ((ovn_controller_lb_find st.old_lbs slb.uuid).isSome = false →
      (lb_data_local_lb_add ops st slb tv true).deleted = st.deleted ∧
      (lb_data_local_lb_add ops st slb tv true).updated = st.updated ∧
      (lb_data_local_lb_add ops st slb tv true).new = uuidset_insert st.new slb.uuid) := by
  obtain ⟨h1, h2, h3, h4, h5⟩ := lb_data_removed_five_tuples_remove_fields ops
    { st with local_lbs := st.local_lbs ++ [(ops.ovn_controller_lb_create slb tv).1]
              deps_mgr := (ops.ovn_controller_lb_create slb tv).2.foldl
                (fun mgr tv_name => ops.objdep_mgr_add mgr tv_name slb.uuid) st.deps_mgr }
    (ops.ovn_controller_lb_create slb tv).1
  simp only [] at h1 h2 h3 h4 h5
  simp only [lb_data_local_lb_add, Bool.not_true, Bool.false_eq_true, if_false, h2]
  refine ⟨?_, ?_, ?_, ?_⟩
  · split <;> simp [h1]
  · split <;> simp [h2]
  · intro hf
    simp [hf, h3, h4, h5]
  · intro hf
    simp [hf, h3, h4, h5]

theorem lb_data_remove_phase {T D : Type} (ops : lb_data_ops T D) (tv : smap)
    (st : ed_type_lb_data T D) (r : idl_tracked sbrec_load_balancer)
    (hold : ovn_controller_lb_find st.old_lbs r.row.uuid = none) :
    ∃ st1 : ed_type_lb_data T D,
      (lb_data_handle_tracked_lb ops tv st r =
        if (r.is_deleted || !ops.lb_is_local r.row) = true then st1
        else lb_data_local_lb_add ops st1 r.row tv true) ∧
      st1.deleted =
        (if (!r.is_new && (ovn_controller_lb_find st.local_lbs r.row.uuid).isSome) = true then
          uuidset_insert st.deleted r.row.uuid else st.deleted) ∧
      st1.updated = st.updated ∧ st1.new = st.new ∧
      (ovn_controller_lb_find st1.old_lbs r.row.uuid).isSome =
        (!r.is_new && (ovn_controller_lb_find st.local_lbs r.row.uuid).isSome) ∧
      (∀ v, v ≠ r.row.uuid →
        (ovn_controller_lb_find st1.old_lbs v).isSome =
          (ovn_controller_lb_find st.old_lbs v).isSome) ∧
      (∀ v, v ≠ r.row.uuid →
        ovn_controller_lb_find st1.local_lbs v = ovn_controller_lb_find st.local_lbs v) := by
  cases hn : r.is_new with
  | true =>
    refine ⟨st, by simp [lb_data_handle_tracked_lb, hn], by simp, rfl, rfl, by simp [hold],
      fun _ _ => rfl, fun _ _ => rfl⟩
  | false =>
    cases hf : ovn_controller_lb_find st.local_lbs r.row.uuid with
    | none =>
      refine ⟨st, by simp [lb_data_handle_tracked_lb, hn, hf], by simp, rfl, rfl,
        by simp [hold], fun _ _ => rfl, fun _ _ => rfl⟩
    | some lb =>
      have hu := ovn_controller_lb_find_uuid _ _ _ hf
      obtain ⟨h1, h2, h3, h4, h5⟩ := lb_data_local_lb_remove_fields ops st lb
      refine ⟨lb_data_local_lb_remove ops st lb, by simp [lb_data_handle_tracked_lb, hn, hf],
        ?_, h4, h5, ?_, ?_, ?_⟩
      · simp [h3, hu]
      · rw [h2, ovn_controller_lb_find_append]
        simp [ovn_controller_lb_find, hu]
      · intro v hv
        rw [h2, ovn_controller_lb_find_append]
        have : ¬ lb.slb.uuid = v := fun h => hv (h.symm.trans hu)
        simp [ovn_controller_lb_find, this]
      · intro v hv
        rw [h1]
        exact ovn_controller_lb_find_erase_ne _ _ _ (fun h => hv (h.symm.trans hu))

theorem lb_data_handle_tracked_lb_spec {T D : Type} (ops : lb_data_ops T D) (tv : smap)
    (hcreate : ∀ slb tvs, (ops.ovn_controller_lb_create slb tvs).1.slb = slb)
    (st : ed_type_lb_data T D) (r : idl_tracked sbrec_load_balancer)
    (hold : ovn_controller_lb_find st.old_lbs r.row.uuid = none)
    (hdel : r.row.uuid ∉ st.deleted) :
    (∀ v, v ∈ (lb_data_handle_tracked_lb ops tv st r).deleted ↔
      (v ∈ st.deleted ∨ (v = r.row.uuid ∧
        (!r.is_new && (ovn_controller_lb_find st.local_lbs r.row.uuid).isSome) = true ∧
        (!r.is_deleted && ops.lb_is_local r.row) = false))) ∧
    (∀ v, v ∈ (lb_data_handle_tracked_lb ops tv st r).updated ↔
      (v ∈ st.updated ∨ (v = r.row.uuid ∧
        (!r.is_new && (ovn_controller_lb_find st.local_lbs r.row.uuid).isSome) = true ∧
        (!r.is_deleted && ops.lb_is_local r.row) = true))) ∧
    (∀ v, v ∈ (lb_data_handle_tracked_lb ops tv st r).new ↔
      (v ∈ st.new ∨ (v = r.row.uuid ∧
        (!r.is_new && (ovn_controller_lb_find st.local_lbs r.row.uuid).isSome) = false ∧
        (!r.is_deleted && ops.lb_is_local r.row) = true))) ∧
    (∀ v, v ≠ r.row.uuid →
      (ovn_controller_lb_find (lb_data_handle_tracked_lb ops tv st r).old_lbs v).isSome =
        (ovn_controller_lb_find st.old_lbs v).isSome) ∧
    (∀ v, v ≠ r.row.uuid →
      (ovn_controller_lb_find (lb_data_handle_tracked_lb ops tv st r).local_lbs v).isSome =
        (ovn_controller_lb_find st.local_lbs v).isSome) := by
  obtain ⟨st1, hstep, hd, hu, hnw, hfo, hoo, hll⟩ := lb_data_remove_phase ops tv st r hold
  rw [hstep]
  generalize hrem : (!r.is_new && (ovn_controller_lb_find st.local_lbs r.row.uuid).isSome) =
    removed at hd hfo ⊢
  cases hloc : (r.is_deleted || !ops.lb_is_local r.row) with
  | true =>
    have haft : (!r.is_deleted && ops.lb_is_local r.row) = false := by
      cases hdl : r.is_deleted <;> cases hl : ops.lb_is_local r.row <;> simp_all
    simp only [if_true, haft]
    refine ⟨?_, ?_, ?_, hoo, ?_⟩
    · intro v
      rw [hd]
      cases removed
      · simp
      · simp [uuidset_insert_mem]
    · intro v
      rw [hu]
      simp
    · intro v
      rw [hnw]
      simp
    · intro v hv
      rw [hll v hv]
  | false =>
    have haft : (!r.is_deleted && ops.lb_is_local r.row) = true := by
      cases hdl : r.is_deleted <;> cases hl : ops.lb_is_local r.row <;> simp_all
    simp only [Bool.false_eq_true, if_false, haft]
    obtain ⟨a1, a2, a3, a4⟩ := lb_data_local_lb_add_fields ops st1 r.row tv
    refine ⟨?_, ?_, ?_, ?_, ?_⟩
    · intro v
      cases removed with
      | true =>
        obtain ⟨b1, _, _⟩ := a3 hfo
        rw [b1, hd]
        simp only [if_true]
        rw [uuidset_insert_delete _ _ hdel]
        simp
      | false =>
        obtain ⟨b1, _, _⟩ := a4 hfo
        rw [b1, hd]
        simp
    · intro v
      cases removed with
      | true =>
        obtain ⟨_, b2, _⟩ := a3 hfo
        rw [b2, uuidset_insert_mem, hu]
        simp
      | false =>
        obtain ⟨_, b2, _⟩ := a4 hfo
        rw [b2, hu]
        simp
    · intro v
      cases removed with
      | true =>
        obtain ⟨_, _, b3⟩ := a3 hfo
        rw [b3, hnw]
        simp
      | false =>
        obtain ⟨_, _, b3⟩ := a4 hfo
        rw [b3, uuidset_insert_mem, hnw]
        simp
    · intro v hv
      rw [a2]
      exact hoo v hv
    · intro v hv
      rw [a1, ovn_controller_lb_find_append, hll v hv]
      have : ¬ r.row.uuid = v := fun h => hv h.symm
      simp [ovn_controller_lb_find, hcreate, this]

theorem lb_data_fold_spec {T D : Type} (ops : lb_data_ops T D) (tv : smap)
    (hcreate : ∀ slb tvs, (ops.ovn_controller_lb_create slb tvs).1.slb = slb)
    (tracked : List (idl_tracked sbrec_load_balancer)) (st : ed_type_lb_data T D)
    (hnd : (tracked.map (fun r => r.row.uuid)).Nodup)
    (hold : ∀ r ∈ tracked, ovn_controller_lb_find st.old_lbs r.row.uuid = none)
    (hdel : ∀ r ∈ tracked, r.row.uuid ∉ st.deleted) :
    (∀ v, v ∈ (tracked.foldl (lb_data_handle_tracked_lb ops tv) st).deleted ↔
      (v ∈ st.deleted ∨ ∃ r ∈ tracked, r.row.uuid = v ∧
        (!r.is_new && (ovn_controller_lb_find st.local_lbs r.row.uuid).isSome) = true ∧
        (!r.is_deleted && ops.lb_is_local r.row) = false)) ∧
    (∀ v, v ∈ (tracked.foldl (lb_data_handle_tracked_lb ops tv) st).updated ↔
      (v ∈ st.updated ∨ ∃ r ∈ tracked, r.row.uuid = v ∧
        (!r.is_new && (ovn_controller_lb_find st.local_lbs r.row.uuid).isSome) = true ∧
        (!r.is_deleted && ops.lb_is_local r.row) = true)) ∧
    (∀ v, v ∈ (tracked.foldl (lb_data_handle_tracked_lb ops tv) st).new ↔
      (v ∈ st.new ∨ ∃ r ∈ tracked, r.row.uuid = v ∧
        (!r.is_new && (ovn_controller_lb_find st.local_lbs r.row.uuid).isSome) = false ∧
        (!r.is_deleted && ops.lb_is_local r.row) = true)) := by
  induction tracked generalizing st with
  | nil => simp
  | cons r rest ih =>
    simp only [List.map_cons, List.nodup_cons, List.mem_map, not_exists, not_and] at hnd
    obtain ⟨s1, s2, s3, s4, s5⟩ := lb_data_handle_tracked_lb_spec ops tv hcreate st r
      (hold r (List.mem_cons_self _ _)) (hdel r (List.mem_cons_self _ _))
    have hne : ∀ r2 ∈ rest, r2.row.uuid ≠ r.row.uuid := fun r2 h2 => hnd.1 r2 h2
    have hold1 : ∀ r2 ∈ rest, ovn_controller_lb_find
        (lb_data_handle_tracked_lb ops tv st r).old_lbs r2.row.uuid = none := by
      intro r2 h2
      have h := s4 _ (hne r2 h2)
      rw [hold r2 (List.mem_cons_of_mem _ h2)] at h
      simpa using h
    have hdel1 : ∀ r2 ∈ rest, r2.row.uuid ∉ (lb_data_handle_tracked_lb ops tv st r).deleted := by
      intro r2 h2 hmem
      rcases (s1 _).mp hmem with h | h
      · exact hdel r2 (List.mem_cons_of_mem _ h2) h
      · exact hne r2 h2 h.1
    obtain ⟨i1, i2, i3⟩ := ih (lb_data_handle_tracked_lb ops tv st r) hnd.2 hold1 hdel1
    have hloc : ∀ r2 ∈ rest,
        (ovn_controller_lb_find (lb_data_handle_tracked_lb ops tv st r).local_lbs
          r2.row.uuid).isSome = (ovn_controller_lb_find st.local_lbs r2.row.uuid).isSome :=
      fun r2 h2 => s5 _ (hne r2 h2)
    simp only [List.foldl_cons, List.mem_cons, exists_eq_or_imp]
    refine ⟨?_, ?_, ?_⟩
    · intro v
      rw [i1, s1]
      constructor
      · rintro ((h | h) | ⟨r2, h2, h3, h4, h5⟩)
        · exact Or.inl h
        · exact Or.inr (Or.inl ⟨h.1.symm, h.2⟩)
        · rw [hloc r2 h2] at h4
          exact Or.inr (Or.inr ⟨r2, h2, h3, h4, h5⟩)
      · rintro (h | ⟨h1, h2⟩ | ⟨r2, h2, h3, h4, h5⟩)
        · exact Or.inl (Or.inl h)
        · exact Or.inl (Or.inr ⟨h1.symm, h2⟩)
        · rw [← hloc r2 h2] at h4
          exact Or.inr ⟨r2, h2, h3, h4, h5⟩
    · intro v
      rw [i2, s2]
      constructor
      · rintro ((h | h) | ⟨r2, h2, h3, h4, h5⟩)
        · exact Or.inl h
        · exact Or.inr (Or.inl ⟨h.1.symm, h.2⟩)
        · rw [hloc r2 h2] at h4
          exact Or.inr (Or.inr ⟨r2, h2, h3, h4, h5⟩)
      · rintro (h | ⟨h1, h2⟩ | ⟨r2, h2, h3, h4, h5⟩)
        · exact Or.inl (Or.inl h)
        · exact Or.inl (Or.inr ⟨h1.symm, h2⟩)
        · rw [← hloc r2 h2] at h4
          exact Or.inr ⟨r2, h2, h3, h4, h5⟩
    · intro v
      rw [i3, s3]
      constructor
      · rintro ((h | h) | ⟨r2, h2, h3, h4, h5⟩)
        · exact Or.inl h
        · exact Or.inr (Or.inl ⟨h.1.symm, h.2⟩)
        · rw [hloc r2 h2] at h4
          exact Or.inr (Or.inr ⟨r2, h2, h3, h4, h5⟩)
      · rintro (h | ⟨h1, h2⟩ | ⟨r2, h2, h3, h4, h5⟩)
        · exact Or.inl (Or.inl h)
        · exact Or.inl (Or.inr ⟨h1.symm, h2⟩)
        · rw [← hloc r2 h2] at h4
          exact Or.inr ⟨r2, h2, h3, h4, h5⟩

theorem tracked_uuid_unique (tracked : List (idl_tracked sbrec_load_balancer))
    (hnd : (tracked.map (fun r => r.row.uuid)).Nodup)
    (r1 r2 : idl_tracked sbrec_load_balancer) (h1 : r1 ∈ tracked) (h2 : r2 ∈ tracked)
    (h : r1.row.uuid = r2.row.uuid) : r1 = r2 :=
  List.inj_on_of_nodup_map hnd h1 h2 h

/-- C25: started from cleared tracked data on tracked rows of distinct UUIDs,
none of which is new and cached already, `lb_data_sb_load_balancer_handler`
leaves a UUID in `updated` exactly when its tracked load balancer was local
before (cached in `local_lbs`) and is local after (the row is not deleted and
`lb_is_local`), in `deleted` exactly when it was local before and is not
local, or deleted, after, and in `new` exactly when it was not local before
and is local after; the three sets are pairwise disjoint, and the handler
returns `EN_HANDLED_UPDATED` exactly when one of them is not empty, else
`EN_HANDLED_UNCHANGED`. -/
theorem lb_data_sb_load_balancer_handler_sets {T D : Type} (ops : lb_data_ops T D)
    (lb_data : ed_type_lb_data T D) (template_vars : smap)
    (tracked : List (idl_tracked sbrec_load_balancer))
    (hcreate : ∀ slb tvs, (ops.ovn_controller_lb_create slb tvs).1.slb = slb)
    (hold : lb_data.old_lbs = []) (hdeleted : lb_data.deleted = [])
    (hupdated : lb_data.updated = []) (hnew : lb_data.new = [])
    (hnd : (tracked.map (fun r => r.row.uuid)).Nodup)
    (hfresh : ∀ r ∈ tracked, r.is_new = true →
      ovn_controller_lb_find lb_data.local_lbs r.row.uuid = none) :
    (∀ u, u ∈ (lb_data_sb_load_balancer_handler ops lb_data template_vars tracked).2.updated ↔
      ∃ r ∈ tracked, r.row.uuid = u ∧
        (ovn_controller_lb_find lb_data.local_lbs u).isSome = true ∧
        (r.is_deleted = false ∧ ops.lb_is_local r.row = true)) ∧
    (∀ u, u ∈ (lb_data_sb_load_balancer_handler ops lb_data template_vars tracked).2.deleted ↔
      ∃ r ∈ tracked, r.row.uuid = u ∧
        (ovn_controller_lb_find lb_data.local_lbs u).isSome = true ∧
        (r.is_deleted = true ∨ ops.lb_is_local r.row = false)) ∧
    (∀ u, u ∈ (lb_data_sb_load_balancer_handler ops lb_data template_vars tracked).2.new ↔
      ∃ r ∈ tracked, r.row.uuid = u ∧
        (ovn_controller_lb_find lb_data.local_lbs u).isSome = false ∧
        (r.is_deleted = false ∧ ops.lb_is_local r.row = true)) ∧
    (∀ u,
      ¬ (u ∈ (lb_data_sb_load_balancer_handler ops lb_data template_vars tracked).2.deleted ∧
         u ∈ (lb_data_sb_load_balancer_handler ops lb_data template_vars tracked).2.updated) ∧
      ¬ (u ∈ (lb_data_sb_load_balancer_handler ops lb_data template_vars tracked).2.deleted ∧
         u ∈ (lb_data_sb_load_balancer_handler ops lb_data template_vars tracked).2.new) ∧
      ¬ (u ∈ (lb_data_sb_load_balancer_handler ops lb_data template_vars tracked).2.updated ∧
         u ∈ (lb_data_sb_load_balancer_handler ops lb_data template_vars tracked).2.new)) ∧
    ((lb_data_sb_load_balancer_handler ops lb_data template_vars tracked).1 =
        engine_input_handler_result.EN_HANDLED_UPDATED ↔
      ((lb_data_sb_load_balancer_handler ops lb_data template_vars tracked).2.deleted ≠ [] ∨
       (lb_data_sb_load_balancer_handler ops lb_data template_vars tracked).2.updated ≠ [] ∨
       (lb_data_sb_load_balancer_handler ops lb_data template_vars tracked).2.new ≠ [])) ∧
    ((lb_data_sb_load_balancer_handler ops lb_data template_vars tracked).1 =
        engine_input_handler_result.EN_HANDLED_UPDATED ∨
      (lb_data_sb_load_balancer_handler ops lb_data template_vars tracked).1 =
        engine_input_handler_result.EN_HANDLED_UNCHANGED) := by
  obtain ⟨f1, f2, f3⟩ := lb_data_fold_spec ops template_vars hcreate tracked lb_data hnd
    (by intro r _; rw [hold]; rfl) (by intro r _; rw [hdeleted]; simp)
  have hsets : (lb_data_sb_load_balancer_handler ops lb_data template_vars tracked).2.deleted =
        (tracked.foldl (lb_data_handle_tracked_lb ops template_vars) lb_data).deleted ∧
      (lb_data_sb_load_balancer_handler ops lb_data template_vars tracked).2.updated =
        (tracked.foldl (lb_data_handle_tracked_lb ops template_vars) lb_data).updated ∧
      (lb_data_sb_load_balancer_handler ops lb_data template_vars tracked).2.new =
        (tracked.foldl (lb_data_handle_tracked_lb ops template_vars) lb_data).new := by
    simp only [lb_data_sb_load_balancer_handler]
    split <;> exact ⟨rfl, rfl, rfl⟩
  have hrem : ∀ r ∈ tracked,
      (!r.is_new && (ovn_controller_lb_find lb_data.local_lbs r.row.uuid).isSome) =
        (ovn_controller_lb_find lb_data.local_lbs r.row.uuid).isSome := by
    intro r hr
    cases hn : r.is_new with
    | false => simp
    | true => simp [hfresh r hr hn]
  have hU : ∀ u, u ∈ (lb_data_sb_load_balancer_handler ops lb_data template_vars
      tracked).2.updated ↔
      ∃ r ∈ tracked, r.row.uuid = u ∧
        (ovn_controller_lb_find lb_data.local_lbs u).isSome = true ∧
        (r.is_deleted = false ∧ ops.lb_is_local r.row = true) := by
    intro u
    rw [hsets.2.1, f2, hupdated]
    constructor
    · rintro (h | ⟨r, hr, h1, h2, h3⟩)
      · simp at h
      · rw [hrem r hr, h1] at h2
        exact ⟨r, hr, h1, h2, by simpa using h3⟩
    · rintro ⟨r, hr, h1, h2, h3⟩
      refine Or.inr ⟨r, hr, h1, ?_, by simpa using h3⟩
      rw [hrem r hr, h1]
      exact h2
  have hDl : ∀ u, u ∈ (lb_data_sb_load_balancer_handler ops lb_data template_vars
      tracked).2.deleted ↔
      ∃ r ∈ tracked, r.row.uuid = u ∧
        (ovn_controller_lb_find lb_data.local_lbs u).isSome = true ∧
        (r.is_deleted = true ∨ ops.lb_is_local r.row = false) := by
    intro u
    rw [hsets.1, f1, hdeleted]
    constructor
    · rintro (h | ⟨r, hr, h1, h2, h3⟩)
      · simp at h
      · rw [hrem r hr, h1] at h2
        refine ⟨r, hr, h1, h2, ?_⟩
        cases hd : r.is_deleted <;> cases hl : ops.lb_is_local r.row <;> simp_all
    · rintro ⟨r, hr, h1, h2, h3⟩
      refine Or.inr ⟨r, hr, h1, ?_, ?_⟩
      · rw [hrem r hr, h1]
        exact h2
      · rcases h3 with h3 | h3 <;> simp [h3]
  have hN : ∀ u, u ∈ (lb_data_sb_load_balancer_handler ops lb_data template_vars
      tracked).2.new ↔
      ∃ r ∈ tracked, r.row.uuid = u ∧
        (ovn_controller_lb_find lb_data.local_lbs u).isSome = false ∧
        (r.is_deleted = false ∧ ops.lb_is_local r.row = true) := by
    intro u
    rw [hsets.2.2, f3, hnew]
    constructor
    · rintro (h | ⟨r, hr, h1, h2, h3⟩)
      · simp at h
      · rw [hrem r hr, h1] at h2
        exact ⟨r, hr, h1, h2, by simpa using h3⟩
    · rintro ⟨r, hr, h1, h2, h3⟩
      refine Or.inr ⟨r, hr, h1, ?_, by simpa using h3⟩
      rw [hrem r hr, h1]
      exact h2
  refine ⟨hU, hDl, hN, ?_, ?_, ?_⟩
  · intro u
    refine ⟨?_, ?_, ?_⟩
    · rintro ⟨hd, hu⟩
      obtain ⟨r1, hr1, e1, _, c1⟩ := (hDl u).mp hd
      obtain ⟨r2, hr2, e2, _, c2⟩ := (hU u).mp hu
      have := tracked_uuid_unique tracked hnd r1 r2 hr1 hr2 (e1.trans e2.symm)
      subst this
      rcases c1 with c1 | c1
      · rw [c2.1] at c1; cases c1
      · rw [c2.2] at c1; cases c1
    · rintro ⟨hd, hn⟩
      obtain ⟨r1, hr1, e1, w1, _⟩ := (hDl u).mp hd
      obtain ⟨r2, hr2, e2, w2, _⟩ := (hN u).mp hn
      rw [w1] at w2
      cases w2
    · rintro ⟨hu, hn⟩
      obtain ⟨r1, hr1, e1, w1, _⟩ := (hU u).mp hu
      obtain ⟨r2, hr2, e2, w2, _⟩ := (hN u).mp hn
      rw [w1] at w2
      cases w2
  · simp only [lb_data_sb_load_balancer_handler]
    split
    · rename_i h
      simp only [true_iff]
      simp only [Bool.or_eq_true, Bool.not_eq_true', List.isEmpty_eq_false] at h
      tauto
    · rename_i h
      simp only [Bool.or_eq_true, Bool.not_eq_true', List.isEmpty_eq_false, not_or] at h
      simp only [reduceCtorEq, false_iff, not_or, not_not]
      tauto
  · simp only [lb_data_sb_load_balancer_handler]
    split
    · exact Or.inl rfl
    · exact Or.inr rfl

/-- Witness of C25: load balancers 1 and 2 are cached; the tracked rows update
1 (still local), delete 2 and add 3 (local). -/
theorem lb_data_sb_load_balancer_handler_sets_witness :
    ((lb_data_sb_load_balancer_handler sample_lb_data_ops
        { local_lbs := [{ slb := { uuid := 1, name := "local" }, proto := 6, ct_flush := false,
                          vips := [] },
                        { slb := { uuid := 2, name := "local" }, proto := 6, ct_flush := false,
                          vips := [] }],
          removed_tuples := (), deps_mgr := (), change_tracked := false, old_lbs := [],
          deleted := [], updated := [], new := [] } []
        [{ row := { uuid := 1, name := "local" }, is_new := false, is_deleted := false },
         { row := { uuid := 2, name := "local" }, is_new := false, is_deleted := true },
         { row := { uuid := 3, name := "local" }, is_new := true, is_deleted := false }]).2.updated
      = [1]) ∧
    ((1 : uuid) ∈ (lb_data_sb_load_balancer_handler sample_lb_data_ops
        { local_lbs := [{ slb := { uuid := 1, name := "local" }, proto := 6, ct_flush := false,
                          vips := [] },
                        { slb := { uuid := 2, name := "local" }, proto := 6, ct_flush := false,
                          vips := [] }],
          removed_tuples := (), deps_mgr := (), change_tracked := false, old_lbs := [],
          deleted := [], updated := [], new := [] } []
        [{ row := { uuid := 1, name := "local" }, is_new := false, is_deleted := false },
         { row := { uuid := 2, name := "local" }, is_new := false, is_deleted := true },
         { row := { uuid := 3, name := "local" }, is_new := true, is_deleted := false }]).2.updated
      ↔
      ∃ r ∈ [({ row := { uuid := 1, name := "local" }, is_new := false, is_deleted := false } :
                idl_tracked sbrec_load_balancer),
             { row := { uuid := 2, name := "local" }, is_new := false, is_deleted := true },
             { row := { uuid := 3, name := "local" }, is_new := true, is_deleted := false }],
        r.row.uuid = 1 ∧
        (ovn_controller_lb_find
          [{ slb := { uuid := 1, name := "local" }, proto := 6, ct_flush := false, vips := [] },
           { slb := { uuid := 2, name := "local" }, proto := 6, ct_flush := false, vips := [] }]
          1).isSome = true ∧
        (r.is_deleted = false ∧ sample_lb_data_ops.lb_is_local r.row = true)) :=
  ⟨by decide,
   (lb_data_sb_load_balancer_handler_sets sample_lb_data_ops
      { local_lbs := [{ slb := { uuid := 1, name := "local" }, proto := 6, ct_flush := false,
                        vips := [] },
                      { slb := { uuid := 2, name := "local" }, proto := 6, ct_flush := false,
                        vips := [] }],
        removed_tuples := (), deps_mgr := (), change_tracked := false, old_lbs := [],
        deleted := [], updated := [], new := [] } []
      [{ row := { uuid := 1, name := "local" }, is_new := false, is_deleted := false },
       { row := { uuid := 2, name := "local" }, is_new := false, is_deleted := true },
       { row := { uuid := 3, name := "local" }, is_new := true, is_deleted := false }]
      (fun _ _ => rfl) rfl rfl rfl rfl (by decide)
      (by
        intro r hr hn
        simp only [List.mem_cons, List.mem_singleton, List.not_mem_nil, or_false] at hr
        rcases hr with rfl | rfl | rfl
        · cases hn
        · cases hn
        · decide)).1 1⟩

/-! ## Port groups (C24) -/

theorem shash_find_data_replace {C : Type} (m : List (String × C)) (n k : String) (d : C) :
    shash_find_data (shash_replace_data m n d) k =
      if k = n then (if (shash_find_data m n).isSome = true then some d else none)
      else shash_find_data m k := by
  induction m with
  | nil => simp [shash_replace_data, shash_find_data]
  | cons a as ih =>
    simp only [shash_find_data] at ih ⊢
    by_cases han : a.1 = n
    · by_cases hk : k = n
      · simp [shash_replace_data, han, hk, List.find?_cons]
      · have : ¬ n = k := fun h => hk h.symm
        simp [shash_replace_data, han, hk, List.find?_cons, this]
    · by_cases hk : k = n
      · subst hk
        simp only [shash_replace_data, han, if_false, List.find?_cons, decide_False, if_true]
        simpa using ih
      · simp only [shash_replace_data, han, if_false, List.find?_cons, hk]
        by_cases hak : a.1 = k
        · simp [hak]
        · simp only [hak, decide_False]
          simpa [hk] using ih

theorem shash_replace_data_keys {C : Type} (m : List (String × C)) (n : String) (d : C) :
    (shash_replace_data m n d).map Prod.fst = m.map Prod.fst := by
  induction m with
  | nil => rfl
  | cons a as ih =>
    simp only [shash_replace_data]
    split
    · simp
    · simp [ih]

theorem shash_find_data_none_iff {C : Type} (m : List (String × C)) (n : String) :
    shash_find_data m n = none ↔ n ∉ m.map Prod.fst := by
  induction m with
  | nil => simp [shash_find_data]
  | cons a as ih =>
    simp only [shash_find_data] at ih ⊢
    by_cases han : a.1 = n
    · simp [List.find?_cons, han]
    · have : ¬ n = a.1 := fun h => han h.symm
      simp only [List.find?_cons, han, decide_False, List.map_cons, List.mem_cons, this,
        false_or]
      exact ih

theorem port_group_ssets_add_or_update_find (m : List (String × List String))
    (pg : sbrec_port_group) (k : String) :
    shash_find_data (port_group_ssets_add_or_update m pg) k =
      if k = pg.name then some (pg.ports.foldl sset_add []) else shash_find_data m k := by
  unfold port_group_ssets_add_or_update
  cases hf : shash_find_data m pg.name with
  | some x =>
    simp only [shash_find_data_replace, hf, Option.isSome_some, if_true]
  | none =>
    simp only [shash_add]
    by_cases hk : k = pg.name
    · subst hk
      simp only [if_true]
      simp only [shash_find_data] at hf ⊢
      rw [List.find?_append]
      simp only [Option.map_eq_none'] at hf
      simp [hf]
    · simp only [hk, if_false]
      simp only [shash_find_data]
      rw [List.find?_append]
      have : ¬ pg.name = k := fun h => hk h.symm
      cases List.find? (fun kv => decide (kv.1 = k)) m <;> simp [this]

theorem port_group_ssets_add_or_update_keys (m : List (String × List String))
    (pg : sbrec_port_group) (h : (m.map Prod.fst).Nodup) :
    ((port_group_ssets_add_or_update m pg).map Prod.fst).Nodup := by
  unfold port_group_ssets_add_or_update
  cases hf : shash_find_data m pg.name with
  | some x => rw [shash_replace_data_keys]; exact h
  | none =>
    have hn := (shash_find_data_none_iff m pg.name).mp hf
    simp only [shash_add, List.map_append, List.map_cons, List.map_nil]
    exact List.Nodup.append h (List.nodup_singleton _) (by simpa using hn)

theorem port_group_ssets_delete_find (m : List (String × List String)) (n k : String)
    (h : (m.map Prod.fst).Nodup) :
    shash_find_data (port_group_ssets_delete m n) k =
      if k = n then none else shash_find_data m k := by
  unfold port_group_ssets_delete
  induction m with
  | nil => simp [shash_find_data]
  | cons a as ih =>
    simp only [List.map_cons, List.nodup_cons] at h
    by_cases han : a.1 = n
    · have he : List.eraseP (fun kv => decide (kv.1 = n)) (a :: as) = as := by
        simp [List.eraseP_cons, han]
      rw [he]
      by_cases hk : k = n
      · simp only [hk, if_true]
        rw [shash_find_data_none_iff]
        rw [← han]
        exact h.1
      · have : ¬ a.1 = k := fun h2 => hk (h2.symm.trans han)
        simp [hk, shash_find_data, List.find?_cons, this]
    · have he : List.eraseP (fun kv => decide (kv.1 = n)) (a :: as) =
          a :: List.eraseP (fun kv => decide (kv.1 = n)) as := by
        simp [List.eraseP_cons, han]
      rw [he]
      have ih2 := ih h.2
      simp only [shash_find_data, List.find?_cons] at ih2 ⊢
      by_cases hak : a.1 = k
      · have hk : ¬ k = n := fun h2 => han (hak.trans h2)
        simp [hak, hk]
      · simp only [hak, decide_False]
        exact ih2

theorem port_group_ssets_delete_keys (m : List (String × List String)) (n : String)
    (h : (m.map Prod.fst).Nodup) :
    ((port_group_ssets_delete m n).map Prod.fst).Nodup := by
  unfold port_group_ssets_delete
  exact List.Nodup.sublist ((List.eraseP_sublist m).map Prod.fst) h

theorem sset_add_mem (set : List String) (a v : String) :
    v ∈ sset_add set a ↔ (v ∈ set ∨ v = a) := by
  unfold sset_add
  split
  · rename_i h
    constructor
    · exact Or.inl
    · rintro (h1 | h1)
      · exact h1
      · exact h1 ▸ h
  · simp

theorem port_groups_init_find {C : Type} (create_strings : List String → List String → C)
    (table : List sbrec_port_group) (local_lports : List String)
    (m1 : List (String × List String)) (m2 : List (String × C)) (k : String) :
    shash_find_data (port_groups_init create_strings table local_lports m1 m2).1 k =
      (match port_group_last table k with
       | some ports => some (ports.foldl sset_add [])
       | none => shash_find_data m1 k) ∧
    shash_find_data (port_groups_init create_strings table local_lports m1 m2).2 k =
      (match port_group_last table k with
       | some ports => some (create_strings ports local_lports)
       | none => shash_find_data m2 k) := by
  induction table generalizing m1 m2 with
  | nil => simp [port_groups_init, port_group_last]
  | cons pg rest ih =>
    have h := ih (port_group_ssets_add_or_update m1 pg)
      (expr_const_sets_add_strings create_strings m2 pg.name pg.ports local_lports)
    simp only [port_groups_init, List.foldl_cons, port_groups_init_row] at h ⊢
    rw [h.1, h.2]
    simp only [port_group_last]
    cases port_group_last rest k with
    | some ports => exact ⟨rfl, rfl⟩
    | none =>
      simp only [port_group_ssets_add_or_update_find, expr_const_sets_add_strings,
        shash_find_data_add]
      by_cases hk : k = pg.name
      · simp [hk]
      · have : ¬ pg.name = k := fun h => hk h.symm
        simp [hk, this]

theorem port_groups_update_deleted_fold {C : Type}
    (tracked : List (idl_tracked sbrec_port_group)) (st : ed_type_port_groups C)
    (hkeys : (st.port_group_ssets.map Prod.fst).Nodup) :
    ((tracked.foldl port_groups_update_deleted st).port_group_ssets.map Prod.fst).Nodup ∧
    (∀ k, shash_find_data (tracked.foldl port_groups_update_deleted st).port_group_ssets k =
      if k ∈ (tracked_deleted tracked).map (fun pg => pg.name) then none
      else shash_find_data st.port_group_ssets k) ∧
    (∀ k, shash_find_data (tracked.foldl port_groups_update_deleted st).port_groups_cs_local k =
      if k ∈ (tracked_deleted tracked).map (fun pg => pg.name) then none
      else shash_find_data st.port_groups_cs_local k) ∧
    (tracked.foldl port_groups_update_deleted st).new = st.new ∧
    (tracked.foldl port_groups_update_deleted st).updated = st.updated ∧
    (∀ v, v ∈ (tracked.foldl port_groups_update_deleted st).deleted ↔
      (v ∈ st.deleted ∨ v ∈ (tracked_deleted tracked).map (fun pg => pg.name))) := by
  induction tracked generalizing st with
  | nil => simp [tracked_deleted, hkeys]
  | cons a rest ih =>
    simp only [List.foldl_cons]
    rw [tracked_deleted_cons]
    cases hd : a.is_deleted with
    | false =>
      have hst : port_groups_update_deleted st a = st := by
        simp [port_groups_update_deleted, hd]
      rw [hst]
      simpa using ih st hkeys
    | true =>
      have hk1 : ((port_groups_update_deleted st a).port_group_ssets.map Prod.fst).Nodup := by
        simp only [port_groups_update_deleted, hd, if_true]
        exact port_group_ssets_delete_keys _ _ hkeys
      obtain ⟨i1, i2, i3, i4, i5, i6⟩ := ih (port_groups_update_deleted st a) hk1
      refine ⟨i1, ?_, ?_, ?_, ?_, ?_⟩
      · intro k
        rw [i2]
        simp only [port_groups_update_deleted, hd, if_true,
          port_group_ssets_delete_find _ _ _ hkeys, List.map_cons, List.mem_cons]
        by_cases hk : k = a.row.name
        · simp [hk]
        · simp [hk]
      · intro k
        rw [i3]
        simp only [port_groups_update_deleted, hd, if_true, shash_find_data_remove,
          List.map_cons, List.mem_cons]
        by_cases hk : k = a.row.name
        · simp [hk]
        · simp [hk]
      · rw [i4]; simp [port_groups_update_deleted, hd]
      · rw [i5]; simp [port_groups_update_deleted, hd]
      · intro v
        rw [i6]
        simp only [port_groups_update_deleted, hd, if_true, sset_add_mem, List.map_cons,
          List.mem_cons]
        tauto

theorem port_groups_update_changed_fold {C : Type}
    (create_strings : List String → List String → C) (local_lports : List String)
    (tracked : List (idl_tracked sbrec_port_group)) (st : ed_type_port_groups C) :
    (∀ k, shash_find_data
        (tracked.foldl (port_groups_update_changed create_strings local_lports)
          st).port_group_ssets k =
      match port_group_last (tracked_present tracked) k with
      | some ports => some (ports.foldl sset_add [])
      | none => shash_find_data st.port_group_ssets k) ∧
    (∀ k, shash_find_data
        (tracked.foldl (port_groups_update_changed create_strings local_lports)
          st).port_groups_cs_local k =
      match port_group_last (tracked_present tracked) k with
      | some ports => some (create_strings ports local_lports)
      | none => shash_find_data st.port_groups_cs_local k) ∧
    (tracked.foldl (port_groups_update_changed create_strings local_lports) st).deleted =
      st.deleted ∧
    (∀ v, v ∈ (tracked.foldl (port_groups_update_changed create_strings local_lports) st).new ↔
      (v ∈ st.new ∨ ∃ t ∈ tracked, t.is_deleted = false ∧ t.is_new = true ∧ t.row.name = v)) ∧
    (∀ v, v ∈ (tracked.foldl (port_groups_update_changed create_strings local_lports)
        st).updated ↔
      (v ∈ st.updated ∨
        ∃ t ∈ tracked, t.is_deleted = false ∧ t.is_new = false ∧ t.row.name = v)) := by
  induction tracked generalizing st with
  | nil => simp [tracked_present, port_group_last]
  | cons a rest ih =>
    simp only [List.foldl_cons]
    obtain ⟨i1, i2, i3, i4, i5⟩ := ih (port_groups_update_changed create_strings local_lports st a)
    rw [tracked_present_cons]
    cases hd : a.is_deleted with
    | true =>
      have hst : port_groups_update_changed create_strings local_lports st a = st := by
        simp [port_groups_update_changed, hd]
      rw [hst] at i1 i2 i3 i4 i5
      rw [hst]
      refine ⟨by simpa using i1, by simpa using i2, i3, ?_, ?_⟩
      · intro v
        rw [i4]
        simp [hd]
      · intro v
        rw [i5]
        simp [hd]
    | false =>
      simp only [Bool.false_eq_true, if_false]
      refine ⟨?_, ?_, ?_, ?_, ?_⟩
      · intro k
        rw [i1]
        simp only [port_group_last]
        cases port_group_last (tracked_present rest) k with
        | some ports => rfl
        | none =>
          have hf : (port_groups_update_changed create_strings local_lports st a).port_group_ssets
              = port_group_ssets_add_or_update st.port_group_ssets a.row := by
            simp only [port_groups_update_changed, hd]
            cases a.is_new <;> rfl
          simp only [hf, port_group_ssets_add_or_update_find]
          by_cases hk : k = a.row.name
          · simp [hk]
          · have : ¬ a.row.name = k := fun h => hk h.symm
            simp [hk, this]
      · intro k
        rw [i2]
        simp only [port_group_last]
        cases port_group_last (tracked_present rest) k with
        | some ports => rfl
        | none =>
          have hf : (port_groups_update_changed create_strings local_lports st
              a).port_groups_cs_local =
              expr_const_sets_add_strings create_strings st.port_groups_cs_local a.row.name
                a.row.ports local_lports := by
            simp only [port_groups_update_changed, hd]
            cases a.is_new <;> rfl
          simp only [hf, expr_const_sets_add_strings, shash_find_data_add]
          by_cases hk : k = a.row.name
          · simp [hk]
          · have : ¬ a.row.name = k := fun h => hk h.symm
            simp [hk, this]
      · rw [i3]
        simp only [port_groups_update_changed, hd]
        cases a.is_new <;> rfl
      · intro v
        rw [i4]
        cases hn : a.is_new with
        | true =>
          simp only [port_groups_update_changed, hd, hn, Bool.not_false, if_true, sset_add_mem,
            List.mem_cons, exists_eq_or_imp, true_and]
          constructor
          · rintro ((h | h) | h)
            · exact Or.inl h
            · exact Or.inr (Or.inl h.symm)
            · exact Or.inr (Or.inr h)
          · rintro (h | h | h)
            · exact Or.inl (Or.inl h)
            · exact Or.inl (Or.inr h.symm)
            · exact Or.inr h
        | false =>
          simp [port_groups_update_changed, hd, hn]
      · intro v
        rw [i5]
        cases hn : a.is_new with
        | true =>
          simp [port_groups_update_changed, hd, hn]
        | false =>
          simp only [port_groups_update_changed, hd, hn, Bool.not_false, if_true,
            Bool.false_eq_true, if_false, sset_add_mem, List.mem_cons, exists_eq_or_imp,
            true_and]
          constructor
          · rintro ((h | h) | h)
            · exact Or.inl h
            · exact Or.inr (Or.inl h.symm)
            · exact Or.inr (Or.inr h)
          · rintro (h | h | h)
            · exact Or.inl (Or.inl h)
            · exact Or.inl (Or.inr h.symm)
            · exact Or.inr h

theorem tracked_present_name_unique (tracked : List (idl_tracked sbrec_port_group))
    (hnames : ((tracked_present tracked).map (fun pg => pg.name)).Nodup)
    (t1 t2 : idl_tracked sbrec_port_group) (h1 : t1 ∈ tracked) (h2 : t2 ∈ tracked)
    (hd1 : t1.is_deleted = false) (hd2 : t2.is_deleted = false)
    (h : t1.row.name = t2.row.name) : t1 = t2 := by
  have hmap : ((tracked.filter (fun t => !t.is_deleted)).map (fun t => t.row.name)).Nodup := by
    simpa [tracked_present, List.map_map, Function.comp] using hnames
  exact List.inj_on_of_nodup_map hmap
    (List.mem_filter.mpr ⟨h1, by simp [hd1]⟩) (List.mem_filter.mpr ⟨h2, by simp [hd2]⟩) h

/-- C24: if the two cached maps agree, name by name, with `port_groups_init`
of the old table (the set map holding one entry per name), and the new table
holds under every name what the tracked rows say (the ports of the last
tracked row of that name that is not deleted, nothing if only deleted rows
bear the name, what the old table held otherwise), then after
`port_groups_update` with the same local lports both maps agree, name by name,
with `port_groups_init` of the new table; and from empty tracked sets, with no
two tracked non-deleted rows of one name, every tracked deleted group is in
`deleted`, every tracked new group in `new` and not in `updated`, and every
other tracked non-deleted group in `updated` and not in `new`. -/
theorem port_groups_update_refines_init {C : Type}
    (create_strings : List String → List String → C)
    (old_table new_table : List sbrec_port_group)
    (tracked : List (idl_tracked sbrec_port_group)) (local_lports : List String)
    (st : ed_type_port_groups C)
    (hkeys : (st.port_group_ssets.map Prod.fst).Nodup)
    (hsets : ∀ name, shash_find_data st.port_group_ssets name =
      shash_find_data (port_groups_init create_strings old_table local_lports [] []).1 name)
    (hcs : ∀ name, shash_find_data st.port_groups_cs_local name =
      shash_find_data (port_groups_init create_strings old_table local_lports [] []).2 name)
    (htracked : ∀ name, port_group_last new_table name =
      match port_group_last (tracked_present tracked) name with
      | some ports => some ports
      | none =>
        if name ∈ (tracked_deleted tracked).map (fun pg => pg.name) then none
        else port_group_last old_table name)
    (hnew : st.new = []) (hupdated : st.updated = [])
    (hnames : ((tracked_present tracked).map (fun pg => pg.name)).Nodup) :
    (∀ name,
      shash_find_data
          (port_groups_update create_strings tracked local_lports st).port_group_ssets name =
        shash_find_data (port_groups_init create_strings new_table local_lports [] []).1 name) ∧
    (∀ name,
      shash_find_data
          (port_groups_update create_strings tracked local_lports st).port_groups_cs_local name =
        shash_find_data (port_groups_init create_strings new_table local_lports [] []).2 name) ∧
    (∀ t ∈ tracked, t.is_deleted = true →
      t.row.name ∈ (port_groups_update create_strings tracked local_lports st).deleted) ∧
    (∀ t ∈ tracked, t.is_deleted = false →
      (t.is_new = true →
        t.row.name ∈ (port_groups_update create_strings tracked local_lports st).new ∧
        t.row.name ∉ (port_groups_update create_strings tracked local_lports st).updated) ∧
      (t.is_new = false →
        t.row.name ∈ (port_groups_update create_strings tracked local_lports st).updated ∧
        t.row.name ∉ (port_groups_update create_strings tracked local_lports st).new)) := by
  obtain ⟨_, d2, d3, d4, d5, d6⟩ := port_groups_update_deleted_fold tracked st hkeys
  obtain ⟨c1, c2, c3, c4, c5⟩ := port_groups_update_changed_fold create_strings local_lports
    tracked (tracked.foldl port_groups_update_deleted st)
  refine ⟨?_, ?_, ?_, ?_⟩
  · intro name
    simp only [port_groups_update]
    rw [c1, d2, (port_groups_init_find create_strings new_table local_lports [] [] name).1,
      htracked, hsets, (port_groups_init_find create_strings old_table local_lports [] [] name).1]
    cases port_group_last (tracked_present tracked) name with
    | some ports => rfl
    | none =>
      simp only []
      split
      · simp [shash_find_data]
      · rfl
  · intro name
    simp only [port_groups_update]
    rw [c2, d3, (port_groups_init_find create_strings new_table local_lports [] [] name).2,
      htracked, hcs, (port_groups_init_find create_strings old_table local_lports [] [] name).2]
    cases port_group_last (tracked_present tracked) name with
    | some ports => rfl
    | none =>
      simp only []
      split
      · simp [shash_find_data]
      · rfl
  · intro t ht hd
    simp only [port_groups_update]
    rw [c3, d6]
    refine Or.inr (List.mem_map.mpr ⟨t.row, ?_, rfl⟩)
    simp only [tracked_deleted]
    exact List.mem_map.mpr ⟨t, List.mem_filter.mpr ⟨ht, hd⟩, rfl⟩
  · intro t ht hd
    simp only [port_groups_update]
    refine ⟨?_, ?_⟩
    · intro hn
      refine ⟨(c4 _).mpr (Or.inr ⟨t, ht, hd, hn, rfl⟩), ?_⟩
      intro hmem
      rcases (c5 _).mp hmem with h | ⟨t2, ht2, hd2, hn2, he⟩
      · rw [d5, hupdated] at h
        simp at h
      · have := tracked_present_name_unique tracked hnames t2 t ht2 ht hd2 hd he
        subst this
        rw [hn] at hn2
        cases hn2
    · intro hn
      refine ⟨(c5 _).mpr (Or.inr ⟨t, ht, hd, hn, rfl⟩), ?_⟩
      intro hmem
      rcases (c4 _).mp hmem with h | ⟨t2, ht2, hd2, hn2, he⟩
      · rw [d4, hnew] at h
        simp at h
      · have := tracked_present_name_unique tracked hnames t2 t ht2 ht hd2 hd he
        subst this
        rw [hn] at hn2
        cases hn2

/-- Witness of C24: the old table holds `pg1` and `pg2`; `pg2` is deleted,
`pg1` gets one more port and `pg3` is new.  The constant set of a group is the
list of its ports that are local. -/
theorem port_groups_update_refines_init_witness :
    shash_find_data
        (port_groups_update (fun ports filter => ports.filter (fun p => p ∈ filter))
          [{ row := { uuid := 2, name := "pg2", ports := ["lp2"] },
             is_new := false, is_deleted := true },
           { row := { uuid := 1, name := "pg1", ports := ["lp1", "lp3"] },
             is_new := false, is_deleted := false },
           { row := { uuid := 3, name := "pg3", ports := ["lp9"] },
             is_new := true, is_deleted := false }]
          ["lp1", "lp2"]
          { port_group_ssets := [("pg1", ["lp1"]), ("pg2", ["lp2"])],
            port_groups_cs_local := [("pg1", ["lp1"]), ("pg2", ["lp2"])],
            change_tracked := false, new := [], deleted := [],
            updated := [] }).port_group_ssets "pg1" =
      shash_find_data
        (port_groups_init (fun ports filter => ports.filter (fun p => p ∈ filter))
          [{ uuid := 1, name := "pg1", ports := ["lp1", "lp3"] },
           { uuid := 3, name := "pg3", ports := ["lp9"] }] ["lp1", "lp2"] [] []).1 "pg1" ∧
    shash_find_data
        (port_groups_init (fun (ports filter : List String) => ports.filter (fun p => p ∈ filter))
          [{ uuid := 1, name := "pg1", ports := ["lp1", "lp3"] },
           { uuid := 3, name := "pg3", ports := ["lp9"] }] ["lp1", "lp2"] [] []).1 "pg1" =
      some ["lp1", "lp3"] :=
  ⟨(port_groups_update_refines_init (fun ports filter => ports.filter (fun p => p ∈ filter))
      [{ uuid := 1, name := "pg1", ports := ["lp1"] },
       { uuid := 2, name := "pg2", ports := ["lp2"] }]
      [{ uuid := 1, name := "pg1", ports := ["lp1", "lp3"] },
       { uuid := 3, name := "pg3", ports := ["lp9"] }]
      [{ row := { uuid := 2, name := "pg2", ports := ["lp2"] },
         is_new := false, is_deleted := true },
       { row := { uuid := 1, name := "pg1", ports := ["lp1", "lp3"] },
         is_new := false, is_deleted := false },
       { row := { uuid := 3, name := "pg3", ports := ["lp9"] },
         is_new := true, is_deleted := false }]
      ["lp1", "lp2"]
      { port_group_ssets := [("pg1", ["lp1"]), ("pg2", ["lp2"])],
        port_groups_cs_local := [("pg1", ["lp1"]), ("pg2", ["lp2"])],
        change_tracked := false, new := [], deleted := [], updated := [] }
      (by decide) (by intro name; rfl) (by intro name; rfl)
      (by
        intro name
        by_cases h3 : name = "pg3"
        · subst h3; decide
        · by_cases h1 : name = "pg1"
          · subst h1; decide
          · by_cases h2 : name = "pg2"
            · subst h2; decide
            · have h1n : ¬ "pg1" = name := fun h => h1 h.symm
              have h2n : ¬ "pg2" = name := fun h => h2 h.symm
              have h3n : ¬ "pg3" = name := fun h => h3 h.symm
              simp [port_group_last, tracked_present, tracked_deleted, h1, h2, h3, h1n, h2n,
                h3n])
      rfl rfl (by decide)).1 "pg1",
   by decide⟩

end OvnController
